import Mathlib

/-!
Verification development for "The Rehearsal AI" repository.

Shallow embedding of the scenario dialogue engine (public/js/conversation.js),
the legacy in-memory conversation server (server.js), the script CRUD helpers
(the-rehearsal-ai-backend/src/api/routes/scripts.ts), and the AI-service
analysis-response parsing (services/ai.ts).  JavaScript strings are modelled
as `List Char`; JavaScript numbers that stay integral are modelled as `Int`
(or `Nat` where the source can only produce non-negative counts).  Timestamps,
uuids and DOM effects are not modelled: no verified property depends on them.
-/

set_option maxRecDepth 10000

/-- Whitespace characters as matched by the JavaScript `\s` class and
`String.prototype.trim` for the ASCII inputs this code handles. -/
def isWsChar (c : Char) : Bool :=
  c == ' ' || c == '\n' || c == '\t' || c == '\r'

/-- JavaScript `String.prototype.includes`: `p` occurs contiguously in `s`
(the empty string occurs in every string). -/
def containsSub (p : List Char) : List Char → Bool
  | [] => p.isEmpty
  | c :: tl => p.isPrefixOf (c :: tl) || containsSub p tl

/-- JavaScript `String.prototype.toLowerCase` restricted to ASCII. -/
def toLowerL (s : List Char) : List Char := s.map Char.toLower

/-- Drop trailing whitespace (helper for `trimL`). -/
def trimRight (s : List Char) : List Char :=
  (s.reverse.dropWhile isWsChar).reverse

/-- JavaScript `String.prototype.trim`. -/
def trimL (s : List Char) : List Char :=
  trimRight (s.dropWhile isWsChar)

/-! ## Dialogue engine (public/js/conversation.js)

`appState` fields touched by the engine, and the operations `makeChoice`
(lines 166-208), the state effect of `displayScene` (breakthrough recording,
lines 60-63 / 259-275) and `endConversation` (lines 278-302, which only reads
state and writes to the DOM). -/

/-- A scene of a scenario (only the fields the engine reads). -/
structure Scene where
  id : List Char
  isBreakthrough : Bool
  isEnd : Bool
  outcomeSuccess : Bool
  deriving DecidableEq

/-- A dialogue choice: display text, optional stat-impact deltas keyed by
stat name, the `next` scene id reference, and the optional `isEnd` flag. -/
structure Choice where
  text : List Char
  impact : Option (List (List Char × Int))
  next : List Char
  isEnd : Bool
  deriving DecidableEq

/-- A scenario: its ordered scenes (title/description are presentation only). -/
structure Scenario where
  scenes : List Scene
  deriving DecidableEq

/-- The three tracked relationship stats of `appState.playerStats`. -/
structure PlayerStats where
  empathy : Int
  trust : Int
  effectiveness : Int
  deriving DecidableEq

/-- One record of `appState.conversationHistory` (the `timestamp` field is
wall-clock time and is not modelled). -/
structure HistoryEntry where
  scene : List Char
  choice : List Char
  impact : Option (List (List Char × Int))
  deriving DecidableEq

/-- The engine-relevant fields of the global `appState`. -/
structure AppState where
  currentScene : List Char
  playerStats : PlayerStats
  conversationHistory : List HistoryEntry
  breakthroughs : List (List Char)
  deriving DecidableEq

/-- `Math.max(0, Math.min(10, x))` from conversation.js line 180. -/
def clamp10 (x : Int) : Int := max 0 (min 10 x)

/-- Apply one `[stat, value]` entry of `Object.entries(choice.impact)`
(conversation.js lines 179-181).  A key other than the three tracked stats
writes `NaN` into a fresh property of the JS object and leaves the three
tracked stats untouched, so it is the identity here. -/
def applyImpactEntry (ps : PlayerStats) (kv : List Char × Int) : PlayerStats :=
  if kv.1 = ("empathy").toList then
    { ps with empathy := clamp10 (ps.empathy + kv.2) }
  else if kv.1 = ("trust").toList then
    { ps with trust := clamp10 (ps.trust + kv.2) }
  else if kv.1 = ("effectiveness").toList then
    { ps with effectiveness := clamp10 (ps.effectiveness + kv.2) }
  else ps

/-- `if (choice.impact) { Object.entries(...).forEach(...) }`. -/
def applyImpact (ps : PlayerStats) : Option (List (List Char × Int)) → PlayerStats
  | none => ps
  | some entries => entries.foldl applyImpactEntry ps

/-- The record pushed onto `appState.conversationHistory`
(conversation.js lines 170-175). -/
def mkHistoryEntry (st : AppState) (choice : Choice) : HistoryEntry :=
  { scene := st.currentScene, choice := choice.text, impact := choice.impact }

/-- How a `makeChoice` step continues: display the resolved next scene, or
end the conversation with a success flag. -/
inductive StepResult where
  | toScene (s : Scene)
  | ended (isSuccess : Bool)
  deriving DecidableEq

/-- `ConversationModule.makeChoice` (conversation.js lines 166-208): push the
history record, apply clamped stat deltas, then resolve `choice.next` among
the scenario's scene ids; an unresolved reference ends the conversation with
success when `choice.next === 'success'` or `choice.isEnd`, else failure.
The function is total: no branch throws. -/
def makeChoice (scenario : Scenario) (st : AppState) (choice : Choice) :
    AppState × StepResult :=
  let st2 : AppState := { st with
    conversationHistory := st.conversationHistory ++ [mkHistoryEntry st choice]
    playerStats := applyImpact st.playerStats choice.impact }
  match scenario.scenes.find? (fun s => s.id == choice.next) with
  | some ns => ({ st2 with currentScene := ns.id }, StepResult.toScene ns)
  | none =>
    if choice.next == ("success").toList || choice.isEnd then
      (st2, StepResult.ended true)
    else
      (st2, StepResult.ended false)

/-- `recordBreakthrough` (conversation.js lines 259-275): push the scene id
onto `appState.breakthroughs`; history is untouched. -/
def recordBreakthrough (st : AppState) (scene : Scene) : AppState :=
  { st with breakthroughs := st.breakthroughs ++ [scene.id] }

/-- State effect of `displayScene` (conversation.js lines 35-73): record a
breakthrough when flagged; everything else is DOM rendering. -/
def displaySceneState (st : AppState) (scene : Scene) : AppState :=
  if scene.isBreakthrough then recordBreakthrough st scene else st

/-- A run of consecutive `makeChoice` calls (one per user choice). -/
def runChoices (scenario : Scenario) (st : AppState) : List Choice → AppState
  | [] => st
  | c :: cs => runChoices scenario (makeChoice scenario st c).1 cs

/-- Stats of the given state all lie in `[0, 10]`. -/
def StatsInRange (ps : PlayerStats) : Prop :=
  0 ≤ ps.empathy ∧ ps.empathy ≤ 10 ∧
  0 ≤ ps.trust ∧ ps.trust ≤ 10 ∧
  0 ≤ ps.effectiveness ∧ ps.effectiveness ≤ 10

instance : DecidablePred StatsInRange := fun ps => by
  unfold StatsInRange; infer_instance

/-! Concrete sample inputs used by counterexamples and witnesses. -/

/-- A one-scene scenario whose only scene id is `intro`. -/
def sampleScenario : Scenario :=
  { scenes := [{ id := ("intro").toList, isBreakthrough := false,
                 isEnd := false, outcomeSuccess := false }] }

/-- A fresh state at the intro scene. -/
def sampleState : AppState :=
  { currentScene := ("intro").toList
    playerStats := { empathy := 5, trust := 5, effectiveness := 5 }
    conversationHistory := []
    breakthroughs := [] }

/-- A choice whose `next` is the sentinel string `success`, which matches no
scene id of `sampleScenario`. -/
def successChoice : Choice :=
  { text := ("Offer support").toList
    impact := some [(("empathy").toList, 2)]
    next := ("success").toList
    isEnd := false }

/-- A choice whose `next` is a dangling scene reference. -/
def danglingChoice : Choice :=
  { text := ("Say something").toList
    impact := none
    next := ("no-such-scene").toList
    isEnd := false }

/-! ## Legacy in-memory conversation server (server.js)

The crisis keyword list (lines 206-211), `detectCrisis` (362-365),
`generateAIResponse` (367-401) and the message route
`POST /api/conversations/:id/messages` (263-322).  `Math.random()` picks are
modelled by an arbitrary natural number `rand`; the JS index
`Math.floor(Math.random() * list.length)` becomes `rand % list.length`, and
an out-of-range read of an empty list (JS `undefined`) becomes `none`. -/

/-- The fixed crisis keyword list (server.js lines 206-211). -/
def crisisKeywords : List (List Char) :=
  [("suicide").toList, ("kill myself").toList, ("end it all").toList,
   ("not worth living").toList, ("better off dead").toList,
   ("hurt myself").toList, ("self harm").toList, ("cutting").toList,
   ("overdose").toList, ("end my life").toList,
   ("no point in living").toList, ("worthless").toList,
   ("hopeless").toList, ("give up").toList,
   ("can\u0027t go on").toList, ("want to die").toList]

/-- `detectCrisis` (server.js lines 362-365). -/
def detectCrisis (message : List Char) : Bool :=
  crisisKeywords.any (fun kw => containsSub kw (toLowerL message))

/-- The pattern lists of one server-side scenario: an association list from
category name to the static response list (the fields the modelled routes
never read are omitted). -/
structure ServerScenario where
  patterns : List (List Char × List (List Char))
  deriving DecidableEq

/-- Message classification of `generateAIResponse` (server.js lines 373-381):
empathy cues first, then a question mark, then advice cues, else `general`. -/
def classifyMessage (m : List Char) : List Char :=
  let lower := toLowerL m
  if containsSub (("sorry").toList) lower || containsSub (("understand").toList) lower
      || containsSub (("feel").toList) lower then
    ("empathy").toList
  else if containsSub (("?").toList) lower then
    ("questions").toList
  else if containsSub (("should").toList) lower || containsSub (("try").toList) lower
      || containsSub (("maybe").toList) lower then
    ("solutions").toList
  else
    ("general").toList

/-- The fixed four-string fallback list (server.js lines 391-396). -/
def generalFallback : List (List Char) :=
  [("I appreciate you saying that.").toList,
   ("That\u0027s helpful to hear.").toList,
   ("Can you tell me more about that?").toList,
   ("I\u0027m glad we\u0027re talking about this.").toList]

/-- `generateAIResponse` (server.js lines 367-401): classify the message,
pick the scenario's list for that category or the fallback list, and return
the randomly indexed element. -/
def generateAIResponse (scenario : ServerScenario) (message : List Char)
    (rand : Nat) : Option (List Char) :=
  let possible :=
    match scenario.patterns.lookup (classifyMessage message) with
    | some l => l
    | none => generalFallback
  possible.get? (rand % possible.length)

/-- Message roles used by the conversation store. -/
inductive Role where
  | user
  | system
  | ai
  deriving DecidableEq

/-- A stored message (ids and timestamps are not modelled; the `ai` role's
content is the possibly-`undefined` pick). -/
structure Message where
  role : Role
  content : Option (List Char)
  deriving DecidableEq

/-- A stored conversation: its scenario and message list. -/
structure Conversation where
  scenario : ServerScenario
  messages : List Message
  deriving DecidableEq

/-- The fixed crisis safety message (server.js line 291). -/
def crisisContent : List Char :=
  ("I notice you mentioned something concerning. Your safety is the most important thing right now. Please consider reaching out to crisis resources.").toList

/-- Outcome of `POST /api/conversations/:id/messages` for an existing
conversation: HTTP 400 for an empty message, the fixed crisis payload with
its three static resource identifiers, or the heuristic AI reply. -/
inductive MsgOutcome where
  | badRequest
  | crisis (content : List Char) (national crisisLine trevor : List Char)
  | aiReply (content : Option (List Char))
  deriving DecidableEq

/-- Body of `POST /api/conversations/:id/messages` (server.js lines 263-322)
after the conversation has been found: reject empty/whitespace messages with
400 before touching the store, else append the trimmed user message, then
short-circuit to the fixed crisis payload when `detectCrisis` fires, else
append and return the `generateAIResponse` pick. -/
def postMessageRoute (conv : Conversation) (message : List Char) (rand : Nat) :
    Conversation × MsgOutcome :=
  if (trimL message).length = 0 then
    (conv, MsgOutcome.badRequest)
  else
    let conv1 : Conversation := { conv with
      messages := conv.messages ++ [{ role := Role.user, content := some (trimL message) }] }
    if detectCrisis message then
      let conv2 : Conversation := { conv1 with
        messages := conv1.messages ++ [{ role := Role.system, content := some crisisContent }] }
      (conv2, MsgOutcome.crisis crisisContent (("988").toList) (("741741").toList)
        (("1-866-488-7386").toList))
    else
      let reply := generateAIResponse conv.scenario message rand
      let conv2 : Conversation := { conv1 with
        messages := conv1.messages ++ [{ role := Role.ai, content := reply }] }
      (conv2, MsgOutcome.aiReply reply)

/-! The nine scenarios of server.js (lines 67-203), reduced to the pattern
lists that `generateAIResponse` reads. -/

/-- Pattern lists of the `friend-checkin` scenario. -/
def scenarioFriendCheckin : ServerScenario :=
  { patterns :=
     [(("empathy").toList,
        [("Thanks for asking... it means a lot that you noticed.").toList,
         ("I appreciate you checking in. I have been struggling a bit.").toList]),
      (("questions").toList,
        [("I\u0027ve been feeling pretty overwhelmed lately, to be honest.").toList,
         ("It\u0027s hard to explain... just feeling really down.").toList]),
      (("solutions").toList,
        [("I know you want to help, but I\u0027m not ready for advice right now.").toList,
         ("Maybe... I just need someone to listen for now.").toList])] }

/-- Pattern lists of the `therapy-suggestion` scenario. -/
def scenarioTherapySuggestion : ServerScenario :=
  { patterns :=
     [(("cost").toList,
        [("Yeah, the cost is really what\u0027s holding me back. I can barely afford rent as it is.").toList,
         ("I looked into it but even with insurance it\u0027s still expensive.").toList]),
      (("stigma").toList,
        [("I grew up thinking therapy was for \u0027crazy\u0027 people. It\u0027s hard to shake that feeling.").toList,
         ("What if people find out? I\u0027m worried about being judged.").toList]),
      (("effectiveness").toList,
        [("How do I know it will even work? What if I\u0027m just wasting money?").toList,
         ("I\u0027ve heard mixed things about therapy. Some people say it helped, others say it didn\u0027t.").toList])] }

/-- Pattern lists of the `workplace-mental-health` scenario. -/
def scenarioWorkplaceMentalHealth : ServerScenario :=
  { patterns :=
     [(("workload").toList,
        [("The deadlines have been really intense lately.").toList,
         ("I\u0027m trying to keep up but there\u0027s just so much to do.").toList]),
      (("support").toList,
        [("I appreciate you asking... I guess I have been struggling to keep up.").toList,
         ("It\u0027s nice to know someone noticed. I\u0027ve been trying to hide it.").toList]),
      (("boundaries").toList,
        [("I don\u0027t want to burden you with work problems.").toList,
         ("I\u0027m not sure if I should be talking about this at work.").toList])] }

/-- Pattern lists of the `family-conversation` scenario. -/
def scenarioFamilyConversation : ServerScenario :=
  { patterns :=
     [(("generational").toList,
        [("In my day, we didn\u0027t talk about feelings all the time.").toList,
         ("People are too soft nowadays. We just pushed through.").toList]),
      (("concern").toList,
        [("Maybe you\u0027re right... I have been feeling different lately.").toList,
         ("I suppose things were harder to talk about back then.").toList]),
      (("resistance").toList,
        [("I don\u0027t need a stranger telling me what\u0027s wrong with my life.").toList,
         ("I\u0027ve made it this far without help, haven\u0027t I?").toList])] }

/-- Pattern lists of the `crisis-response` scenario. -/
def scenarioCrisisResponse : ServerScenario :=
  { patterns :=
     [(("direct").toList,
        [("Yes... I have been thinking about ending my life.").toList,
         ("It scares me to say it out loud, but yes, I\u0027ve been having those thoughts.").toList]),
      (("support").toList,
        [("Thank you for asking directly. It helps to know someone cares.").toList,
         ("I\u0027m scared but I don\u0027t know what else to do.").toList]),
      (("hopeless").toList,
        [("I just don\u0027t see a way out of this pain.").toList,
         ("Everything feels impossible right now.").toList])] }

/-- Pattern lists of the `self-advocacy` scenario. -/
def scenarioSelfAdvocacy : ServerScenario :=
  { patterns :=
     [(("specific").toList,
        [("That helps me understand. What kind of support would be most helpful?").toList,
         ("I appreciate you being specific about what you need.").toList]),
      (("listening").toList,
        [("I\u0027m here to listen. Take your time.").toList,
         ("You don\u0027t have to explain everything at once.").toList]),
      (("overwhelmed").toList,
        [("This sounds like a lot to handle. I\u0027m glad you reached out.").toList,
         ("I may not have all the answers, but I care about you.").toList])] }

/-- Pattern lists of the `going-to-doctor` scenario. -/
def scenarioGoingToDoctor : ServerScenario :=
  { patterns :=
     [(("specific").toList,
        [("Those are significant symptoms. How long have you been experiencing this?").toList,
         ("I can see this is affecting your quality of life. Let\u0027s discuss treatment options.").toList]),
      (("vague").toList,
        [("Can you be more specific about what you\u0027re experiencing?").toList,
         ("I need more details to understand how to help you.").toList]),
      (("persistent").toList,
        [("I appreciate you advocating for yourself. Let me refer you to a specialist.").toList,
         ("You\u0027re right to follow up on this. Mental health is important.").toList])] }

/-- Pattern lists of the `tough-work-conversation` scenario. -/
def scenarioToughWorkConversation : ServerScenario :=
  { patterns :=
     [(("professional").toList,
        [("I appreciate you being upfront about this. What accommodations would be helpful?").toList,
         ("Mental health is important. Let\u0027s work together on this.").toList]),
      (("specific").toList,
        [("Those sound like reasonable requests. Let me talk to HR about formalizing this.").toList,
         ("I can see how that would help. What\u0027s the timeline for implementing this?").toList]),
      (("vague").toList,
        [("I want to support you, but I need more specifics about what you need.").toList,
         ("Help me understand what changes would make the biggest difference.").toList])] }

/-- Pattern lists of the `asking-someone-out` scenario. -/
def scenarioAskingSomeoneOut : ServerScenario :=
  { patterns :=
     [(("direct").toList,
        [("Oh! I wasn\u0027t expecting that, but I\u0027m flattered. Let me think about it.").toList,
         ("I appreciate you being honest about how you feel.").toList]),
      (("respectful").toList,
        [("I really value our friendship too. Thank you for being considerate about that.").toList,
         ("It means a lot that you\u0027d put our friendship first.").toList]),
      (("casual").toList,
        [("That sounds fun! Are you thinking of this as a date, or just hanging out?").toList,
         ("I\u0027d love to spend more time together. What did you have in mind?").toList])] }

/-- The scenario map of server.js (lines 67-203), keyed by scenario id. -/
def serverScenarios : List (List Char × ServerScenario) :=
  [(("friend-checkin").toList, scenarioFriendCheckin),
   (("therapy-suggestion").toList, scenarioTherapySuggestion),
   (("workplace-mental-health").toList, scenarioWorkplaceMentalHealth),
   (("family-conversation").toList, scenarioFamilyConversation),
   (("crisis-response").toList, scenarioCrisisResponse),
   (("self-advocacy").toList, scenarioSelfAdvocacy),
   (("going-to-doctor").toList, scenarioGoingToDoctor),
   (("tough-work-conversation").toList, scenarioToughWorkConversation),
   (("asking-someone-out").toList, scenarioAskingSomeoneOut)]

/-! ## Script CRUD helpers (the-rehearsal-ai-backend/src/api/routes/scripts.ts)

`calculateNathanLevel` (lines 629-666) and the pure update computation of
`PUT /api/scripts/:id` (lines 268-349). -/

/-- A fixed-length regex pattern: `some c` is the literal character `c`,
`none` is the regex `.` wildcard (any character except a newline). -/
def litPat (s : List Char) : List (Option Char) := s.map some

/-- Does the pattern match at the head of `s`? -/
def matchAtP : List (Option Char) → List Char → Bool
  | [], _ => true
  | _ :: _, [] => false
  | a :: p, c :: s =>
    (match a with
     | some ch => ch == c
     | none => c != '\n') && matchAtP p s

/-- Fuelled scanner for `countMatches`; every step consumes at least one
character, so fuel equal to the input length never runs out. -/
def countMatchesAux (p : List (Option Char)) : Nat → List Char → Nat
  | 0, _ => 0
  | _, [] => 0
  | fuel + 1, c :: tl =>
    if matchAtP p (c :: tl) then
      1 + countMatchesAux p fuel (tl.drop (p.length - 1))
    else
      countMatchesAux p fuel tl

/-- Number of matches found by a JS global regex of fixed length: scan left
to right, and on a match continue after its end (non-overlapping). -/
def countMatches (p : List (Option Char)) (s : List Char) : Nat :=
  countMatchesAux p s.length s

/-- Fuelled scanner for `countWsRuns`; every step consumes at least one
character, so fuel equal to the input length never runs out. -/
def countWsRunsAux : Nat → List Char → Nat
  | 0, _ => 0
  | _, [] => 0
  | fuel + 1, c :: tl =>
    if isWsChar c then 1 + countWsRunsAux fuel (tl.dropWhile isWsChar)
    else countWsRunsAux fuel tl

/-- Number of maximal whitespace runs in `s`; the length of the JS
`s.split(/\s+/)` array is this plus one. -/
def countWsRuns (s : List Char) : Nat :=
  countWsRunsAux s.length s

/-- The `awkwardPhrases` list (scripts.ts line 634); each string is compiled
to a regex by `new RegExp(phrase, 'g')`, so the dots of `so...` are
wildcards. -/
def awkwardPhrasePats : List (List (Option Char)) :=
  [litPat (("um").toList), litPat (("uh").toList),
   [some 's', some 'o', none, none, none],
   litPat (("actually").toList), litPat (("interesting").toList)]

/-- The `preparationWords` list (scripts.ts line 635). -/
def preparationWordPats : List (List (Option Char)) :=
  (["plan", "strategy", "calculated", "rehearse", "practice"].map
    (fun w => litPat w.toList))

/-- The `statisticsWords` list (scripts.ts line 636). -/
def statisticsWordPats : List (List (Option Char)) :=
  (["percent", "%", "study", "research", "data"].map
    (fun w => litPat w.toList))

/-- `calculateNathanLevel` (scripts.ts lines 629-666): base 20, a word-count
bonus capped at 20, weighted keyword-frequency counts over the lowercased
script, 5 per enhancement, three case-sensitive special bonuses, all capped
at 100. -/
def calculateNathanLevel (script : List Char) (enhancements : List (List Char)) : Int :=
  let lower := toLowerL script
  let wordCount : Nat := countWsRuns script + 1
  let level : Int :=
    20
    + ↑(min 20 (wordCount / 50))
    + 2 * ↑((awkwardPhrasePats.map (fun p => countMatches p lower)).sum)
    + 3 * ↑((preparationWordPats.map (fun p => countMatches p lower)).sum)
    + 4 * ↑((statisticsWordPats.map (fun p => countMatches p lower)).sum)
    + 5 * ↑enhancements.length
    + (if containsSub (("flowchart").toList) script
          || containsSub (("diagram").toList) script then 10 else 0)
    + (if containsSub (("replica").toList) script
          || containsSub (("build").toList) script then 12 else 0)
    + (if containsSub (("147").toList) script
          || containsSub (("73").toList) script then 8 else 0)
  min 100 level

/-- JS truthiness of an optional string field: `undefined` and the empty
string are falsy. -/
def strTruthy : Option (List Char) → Bool
  | none => false
  | some s => !s.isEmpty

/-- The stored script fields that `PUT /api/scripts/:id` reads or writes. -/
structure ScriptRec where
  title : List Char
  originalScript : List Char
  enhancedScript : Option (List Char)
  enhancements : List (List Char)
  nathanLevel : Int
  draftNumber : Nat
  productionNotes : List (List Char)
  storyboardFrames : List (List Char × List Char)
  deriving DecidableEq

/-- The parsed `PUT /api/scripts/:id` body (all fields optional, as in
`updateScriptSchema`). -/
structure UpdateReq where
  title : Option (List Char)
  originalScript : Option (List Char)
  enhancedScript : Option (List Char)
  enhancements : Option (List (List Char))
  productionNotes : Option (List (List Char))
  storyboardFrames : Option (List (List Char × List Char))
  deriving DecidableEq

/-- `updateScriptSchema.safeParse` succeeds (scripts.ts lines 58-68): a given
title is non-empty and a given originalScript has 10 to 10000 characters. -/
def validUpdate (u : UpdateReq) : Bool :=
  (match u.title with
   | none => true
   | some t => 1 ≤ t.length) &&
  (match u.originalScript with
   | none => true
   | some s => 10 ≤ s.length && s.length ≤ 10000)

/-- The database write of `PUT /api/scripts/:id` (scripts.ts lines 298-333):
falsy (absent or empty) strings leave their field unchanged; `nathanLevel` is
recomputed only when `enhancements` is present, from the updated script text
if truthy else the stored one; `draftNumber` increments only when
`originalScript` or `enhancedScript` is truthy. -/
def applyScriptUpdate (ex : ScriptRec) (u : UpdateReq) : ScriptRec :=
  let newOrig := if strTruthy u.originalScript then u.originalScript.getD ex.originalScript
                 else ex.originalScript
  { title := if strTruthy u.title then u.title.getD ex.title else ex.title
    originalScript := newOrig
    enhancedScript := if strTruthy u.enhancedScript then u.enhancedScript
                      else ex.enhancedScript
    enhancements := match u.enhancements with
                    | some es => es
                    | none => ex.enhancements
    nathanLevel := match u.enhancements with
                   | some es => calculateNathanLevel newOrig es
                   | none => ex.nathanLevel
    draftNumber := if strTruthy u.originalScript || strTruthy u.enhancedScript then
                     ex.draftNumber + 1
                   else ex.draftNumber
    productionNotes := match u.productionNotes with
                       | some ns => ns
                       | none => ex.productionNotes
    storyboardFrames := match u.storyboardFrames with
                        | some fs => fs
                        | none => ex.storyboardFrames }

/-- A concrete stored script. -/
def sampleScript : ScriptRec :=
  { title := ("Coffee chat").toList
    originalScript := ("Um, so... I wanted to talk about how you have been feeling lately.").toList
    enhancedScript := none
    enhancements := []
    nathanLevel := 50
    draftNumber := 1
    productionNotes := []
    storyboardFrames := [] }

/-- An update request carrying a new enhanced script and enhancement list. -/
def enhUpdate : UpdateReq :=
  { title := none
    originalScript := none
    enhancedScript := some (("Rewritten: I planned this conversation with a flowchart.").toList)
    enhancements := some [("statistics").toList]
    productionNotes := none
    storyboardFrames := none }

/-- A valid update request that changes only the title. -/
def titleOnlyUpdate : UpdateReq :=
  { title := some (("Coffee chat, revised").toList)
    originalScript := none
    enhancedScript := none
    enhancements := none
    productionNotes := none
    storyboardFrames := none }

/-! ## AI service analysis parsing (services/ai.ts)

`AIService.parseAnalysisResponse` (lines 344-400): labeled-field extraction
over the completion text, with field-by-field static defaults.  The JS regex
searches are modelled by explicit scans that try the pattern at each start
position from the left, with the exact greedy/lazy behaviour of the source
patterns. -/

/-- First-match regex search: try `tryH` at every start position from the
left and return the first success. -/
def scanWith {α : Type} (tryH : List Char → Option α) : List Char → Option α
  | [] => tryH []
  | c :: tl =>
    match tryH (c :: tl) with
    | some r => some r
    | none => scanWith tryH tl

/-- Attempt `LBL\s*(\d+)` at the head of `s`: the literal label, then a
greedy whitespace run, then a non-empty greedy digit run (the capture). -/
def numTryHere (lbl s : List Char) : Option (List Char) :=
  if lbl.isPrefixOf s then
    let ds := ((s.drop lbl.length).dropWhile isWsChar).takeWhile Char.isDigit
    if ds.isEmpty then none else some ds
  else none

/-- `response.match(/LBL:\s*(\d+)/)`, returning the digit capture. -/
def scanNum (lbl resp : List Char) : Option (List Char) :=
  scanWith (numTryHere lbl) resp

/-- `parseInt` on a digit string. -/
def natOfDigits (ds : List Char) : Nat :=
  ds.foldl (fun n c => 10 * n + (c.toNat - ('0').toNat)) 0

/-- The labels of the seven numeric fields (regex sources, ai.ts 365-372). -/
def lblAwkScore : List Char := ("AWKWARDNESS_SCORE:").toList

/-- Label of the complexity field. -/
def lblComplexity : List Char := ("COMPLEXITY_RATING:").toList

/-- Label of the optimality field. -/
def lblOptimality : List Char := ("OPTIMALITY_SCORE:").toList

/-- Label of the dialogue-quality breakdown field. -/
def lblDialogue : List Char := ("DIALOGUE_QUALITY:").toList

/-- Label of the preparation-level breakdown field. -/
def lblPreparation : List Char := ("PREPARATION_LEVEL:").toList

/-- Label of the awkwardness-authenticity breakdown field. -/
def lblAwkAuth : List Char := ("AWKWARDNESS_AUTHENTICITY:").toList

/-- Label of the statistical-credibility breakdown field. -/
def lblStatCred : List Char := ("STATISTICAL_CREDIBILITY:").toList

/-- Label of the observation field (regex source, ai.ts line 375). -/
def obsLbl : List Char := ("NATHAN_OBSERVATION:").toList

/-- Label of the suggestions field (regex source, ai.ts line 378). -/
def sugLbl : List Char := ("IMPROVEMENT_SUGGESTIONS:").toList

/-- The lookahead `(?=\n\n|\nIMPROVEMENT_SUGGESTIONS|$)` of the observation
regex. -/
def lookaheadOk (s : List Char) : Bool :=
  (("\n\n").toList).isPrefixOf s
    || (("\nIMPROVEMENT_SUGGESTIONS").toList).isPrefixOf s
    || s.isEmpty

/-- The lazy `(.*?)` before the lookahead: consume as few non-newline
characters as possible until the lookahead holds; fail on a newline. -/
def lazyDots : List Char → Option (List Char)
  | [] => some []
  | c :: tl =>
    if lookaheadOk (c :: tl) then some []
    else if c == '\n' then none
    else (lazyDots tl).map (fun g => c :: g)

/-- Backtracking of the greedy `\s*` before `(.*?)`: try consuming `i`
whitespace characters, from the maximal run downwards. -/
def obsWsBacktrack (tail : List Char) : Nat → Option (List Char)
  | 0 => lazyDots tail
  | i + 1 =>
    match lazyDots (tail.drop (i + 1)) with
    | some g => some g
    | none => obsWsBacktrack tail i

/-- Attempt the observation regex at the head of `s`. -/
def obsTryHere (s : List Char) : Option (List Char) :=
  if obsLbl.isPrefixOf s then
    let tail := s.drop obsLbl.length
    obsWsBacktrack tail (tail.takeWhile isWsChar).length
  else none

/-- `response.match(/NATHAN_OBSERVATION:\s*(.*?)(?=\n\n|\nIMPROVEMENT_SUGGESTIONS|$)/)`,
returning the lazy capture. -/
def scanObs (resp : List Char) : Option (List Char) :=
  scanWith obsTryHere resp

/-- The greedy repetition `(?:\n?-.*)+` of the suggestions regex: each
iteration takes an optional newline, a literal dash, and the rest of the
line.  Returns the consumed group and the remaining input (zero iterations
give an empty group). -/
def sugRepAux : Nat → List Char → List Char × List Char
  | 0, s => ([], s)
  | fuel + 1, '\n' :: '-' :: tl =>
    let line := tl.takeWhile (fun c => c != '\n')
    let rest := sugRepAux fuel (tl.dropWhile (fun c => c != '\n'))
    ('\n' :: '-' :: (line ++ rest.1), rest.2)
  | fuel + 1, '-' :: tl =>
    let line := tl.takeWhile (fun c => c != '\n')
    let rest := sugRepAux fuel (tl.dropWhile (fun c => c != '\n'))
    ('-' :: (line ++ rest.1), rest.2)
  | _ + 1, s => ([], s)

/-- Entry point of the repetition: every iteration consumes at least the
dash, so fuel equal to the input length never runs out. -/
def sugRep (s : List Char) : List Char × List Char :=
  sugRepAux s.length s

/-- Backtracking of the greedy `\s*` before `((?:\n?-.*)+)`: try consuming
`i` whitespace characters, from the maximal run downwards; the group must be
non-empty (at least one iteration). -/
def sugBacktrack (tail : List Char) : Nat → Option (List Char)
  | 0 =>
    let g := (sugRep tail).1
    if g.isEmpty then none else some g
  | i + 1 =>
    let g := (sugRep (tail.drop (i + 1))).1
    if g.isEmpty then sugBacktrack tail i else some g

/-- Attempt the suggestions regex at the head of `s`. -/
def sugTryHere (s : List Char) : Option (List Char) :=
  if sugLbl.isPrefixOf s then
    let tail := s.drop sugLbl.length
    sugBacktrack tail (tail.takeWhile isWsChar).length
  else none

/-- `response.match(/IMPROVEMENT_SUGGESTIONS:\s*((?:\n?-.*)+)/)`, returning
the group capture. -/
def scanSug (resp : List Char) : Option (List Char) :=
  scanWith sugTryHere resp

/-- Fuelled splitter for `splitOnNl`; every separator consumes one newline,
so fuel equal to the input length never runs out. -/
def splitOnNlAux : Nat → List Char → List (List Char)
  | 0, s => [s.takeWhile (fun c => c != '\n')]
  | fuel + 1, s =>
    let seg := s.takeWhile (fun c => c != '\n')
    match s.dropWhile (fun c => c != '\n') with
    | [] => [seg]
    | _ :: rest => seg :: splitOnNlAux fuel rest

/-- JS `String.prototype.split('\n')`. -/
def splitOnNl (s : List Char) : List (List Char) :=
  splitOnNlAux s.length s

/-- `line.trim().startsWith('-')`. -/
def startsDash (l : List Char) : Bool :=
  match trimL l with
  | '-' :: _ => true
  | _ => false

/-- `line.replace(/^-\s*/, '')`: remove one leading dash and the whitespace
run after it; leave the line unchanged when it does not start with a dash. -/
def stripDash (l : List Char) : List Char :=
  match l with
  | '-' :: tl => tl.dropWhile isWsChar
  | _ => l

/-- The fields extracted by `parseAnalysisResponse` (the `model` field is
attached by the caller and carries no parsing behaviour). -/
structure AnalysisVals where
  awkwardnessScore : Nat
  complexityRating : Nat
  optimalityScore : Nat
  nathanObservation : List Char
  improvementSuggestions : List (List Char)
  dialogueQuality : Nat
  preparationLevel : Nat
  awkwardnessAuthenticity : Nat
  statisticalCredibility : Nat
  deriving DecidableEq

/-- Static default observation (ai.ts line 349). -/
def defaultObservation : List Char :=
  ("This script shows promise but needs more statistical backing and at least 47 additional rehearsals.").toList

/-- Static default suggestions (ai.ts lines 350-354). -/
def defaultSuggestions : List (List Char) :=
  [("Add more specific timing for awkward pauses").toList,
   ("Include backup dialogue for when the first option fails").toList,
   ("Consider building a scale model of the location").toList]

/-- Extract one numeric field or fall back to its static default. -/
def numField (lbl : List Char) (dflt : Nat) (resp : List Char) : Nat :=
  match scanNum lbl resp with
  | some ds => natOfDigits ds
  | none => dflt

/-- `AIService.parseAnalysisResponse` (ai.ts lines 344-400).  The
surrounding `try/catch` cannot fire in this pure pipeline, so the embedding
is the `try` body; every field falls back to its static default
independently when its regex finds no match. -/
def parseAnalysisResponse (resp : List Char) : AnalysisVals :=
  { awkwardnessScore := numField lblAwkScore 73 resp
    complexityRating := numField lblComplexity 67 resp
    optimalityScore := numField lblOptimality 81 resp
    nathanObservation :=
      match scanObs resp with
      | some g => trimL g
      | none => defaultObservation
    improvementSuggestions :=
      (match scanSug resp with
       | some g => ((splitOnNl g).filter startsDash).map (fun l => trimL (stripDash l))
       | none => defaultSuggestions).take 5
    dialogueQuality := numField lblDialogue 75 resp
    preparationLevel := numField lblPreparation 68 resp
    awkwardnessAuthenticity := numField lblAwkAuth 82 resp
    statisticalCredibility := numField lblStatCred 45 resp }

/-- The dash-item encoding of the suggestion lines in a labeled block. -/
def joinSugs (sugs : List (List Char)) : List Char :=
  (sugs.map (fun sg => '\n' :: '-' :: ' ' :: sg)).flatten

/-- A well-formed labeled analysis block in the exact format that the
`analyzeScript` prompt requests, with the given digit strings, observation
paragraph and dash-prefixed suggestion lines. -/
def mkAnalysisBlock (a c o d p w s obs : List Char) (sugs : List (List Char)) : List Char :=
  lblAwkScore ++ (" ").toList ++ a ++ ("\n").toList ++
  lblComplexity ++ (" ").toList ++ c ++ ("\n").toList ++
  lblOptimality ++ (" ").toList ++ o ++ ("\n\n").toList ++
  lblDialogue ++ (" ").toList ++ d ++ ("\n").toList ++
  lblPreparation ++ (" ").toList ++ p ++ ("\n").toList ++
  lblAwkAuth ++ (" ").toList ++ w ++ ("\n").toList ++
  lblStatCred ++ (" ").toList ++ s ++ ("\n\n").toList ++
  obsLbl ++ (" ").toList ++ obs ++ ("\n\n").toList ++
  sugLbl ++ joinSugs sugs

/-- A choice with out-of-range deltas, exercising the clamping. -/
def hugeDeltaChoice : Choice :=
  { text := ("Overwhelm them").toList
    impact := some [(("empathy").toList, 100), (("trust").toList, -50)]
    next := ("intro").toList
    isEnd := false }

/-- A stored conversation over the friend-checkin scenario. -/
def sampleConversation : Conversation :=
  { scenario := scenarioFriendCheckin, messages := [] }

/-- A stored conversation over the therapy-suggestion scenario. -/
def therapyConversation : Conversation :=
  { scenario := scenarioTherapySuggestion, messages := [] }

/-- Claim C7 as stated, at one input: `generateAIResponse` classifies the
message into a bucket and returns an element of that bucket's static list in
the scenario. -/
def C7ClaimAt (sc : ServerScenario) (m : List Char) (rand : Nat) : Prop :=
  ∃ l r, sc.patterns.lookup (classifyMessage m) = some l ∧
    generateAIResponse sc m rand = some r ∧ r ∈ l

/-! ## Theorems -/

theorem clamp10_nonneg (x : Int) : 0 ≤ clamp10 x := le_max_left 0 _

theorem clamp10_le_ten (x : Int) : clamp10 x ≤ 10 :=
  max_le (by norm_num) (min_le_left 10 _)

theorem applyImpactEntry_range (ps : PlayerStats) (kv : List Char × Int)
    (h : StatsInRange ps) : StatsInRange (applyImpactEntry ps kv) := by
  obtain ⟨h1, h2, h3, h4, h5, h6⟩ := h
  unfold applyImpactEntry StatsInRange
  split_ifs
  · exact ⟨clamp10_nonneg _, clamp10_le_ten _, h3, h4, h5, h6⟩
  · exact ⟨h1, h2, clamp10_nonneg _, clamp10_le_ten _, h5, h6⟩
  · exact ⟨h1, h2, h3, h4, clamp10_nonneg _, clamp10_le_ten _⟩
  · exact ⟨h1, h2, h3, h4, h5, h6⟩

theorem foldl_applyImpactEntry_range (entries : List (List Char × Int)) :
    ∀ ps : PlayerStats, StatsInRange ps →
      StatsInRange (entries.foldl applyImpactEntry ps) := by
  induction entries with
  | nil => intro ps h; simpa using h
  | cons kv tl ih =>
    intro ps h
    simpa using ih (applyImpactEntry ps kv) (applyImpactEntry_range ps kv h)

theorem applyImpact_range (ps : PlayerStats) (o : Option (List (List Char × Int)))
    (h : StatsInRange ps) : StatsInRange (applyImpact ps o) := by
  cases o with
  | none => simpa [applyImpact] using h
  | some entries => exact foldl_applyImpactEntry_range entries ps h

theorem makeChoice_fst_playerStats (scenario : Scenario) (st : AppState)
    (choice : Choice) :
    ((makeChoice scenario st choice).1).playerStats
      = applyImpact st.playerStats choice.impact := by
  unfold makeChoice
  split
  · rfl
  · split_ifs <;> rfl

theorem makeChoice_fst_history (scenario : Scenario) (st : AppState)
    (choice : Choice) :
    ((makeChoice scenario st choice).1).conversationHistory
      = st.conversationHistory ++ [mkHistoryEntry st choice] := by
  unfold makeChoice
  split
  · rfl
  · split_ifs <;> rfl

/-- C1: for every conversation state with the three player stats in `[0,10]`
and every selected choice, after `makeChoice` applies the impact deltas the
three stats remain within `[0,10]`, whatever the magnitude or sign of the
deltas. -/
theorem makeChoice_stats_within_bounds (scenario : Scenario) (st : AppState)
    (choice : Choice) (h : StatsInRange st.playerStats) :
    StatsInRange ((makeChoice scenario st choice).1).playerStats := by
  rw [makeChoice_fst_playerStats]
  exact applyImpact_range st.playerStats choice.impact h

/-- Witness for C1 at a choice whose deltas leave `[0,10]` in both
directions. -/
theorem makeChoice_stats_within_bounds_witness :
    StatsInRange ((makeChoice sampleScenario sampleState hugeDeltaChoice).1).playerStats :=
  makeChoice_stats_within_bounds sampleScenario sampleState hugeDeltaChoice (by decide)

/-- C2 counterexample: `successChoice.next` matches no scene id of
`sampleScenario`, yet `makeChoice` ends the conversation with the success
outcome, because `'success'` is treated as a sentinel. -/
theorem makeChoice_unresolved_success_counterexample :
    sampleScenario.scenes.all (fun s => !(s.id == successChoice.next)) = true ∧
    (makeChoice sampleScenario sampleState successChoice).2 = StepResult.ended true := by
  constructor
  · decide
  · decide

/-- C2 amended: a choice whose `next` matches no scene id, is not the
sentinel string `success`, and whose `isEnd` flag is unset ends the
conversation with the failure outcome (and `makeChoice` is a total function,
so no input throws). -/
theorem makeChoice_unresolved_ends_failure (scenario : Scenario) (st : AppState)
    (choice : Choice)
    (hfind : scenario.scenes.find? (fun s => s.id == choice.next) = none)
    (hsent : choice.next ≠ ("success").toList)
    (hend : choice.isEnd = false) :
    (makeChoice scenario st choice).2 = StepResult.ended false := by
  unfold makeChoice
  rw [hfind]
  simp only [hend, Bool.or_false, beq_iff_eq]
  rw [if_neg (fun hc => hsent (by rw [hc]))]

/-- Witness for the amended C2 at a dangling scene reference. -/
theorem makeChoice_unresolved_ends_failure_witness :
    (makeChoice sampleScenario sampleState danglingChoice).2 = StepResult.ended false :=
  makeChoice_unresolved_ends_failure sampleScenario sampleState danglingChoice
    (by decide) (by decide) (by decide)

theorem runChoices_history_length (scenario : Scenario) (cs : List Choice) :
    ∀ st : AppState,
      ((runChoices scenario st cs).conversationHistory).length
        = st.conversationHistory.length + cs.length := by
  induction cs with
  | nil => intro st; simp [runChoices]
  | cons c tl ih =>
    intro st
    simp only [runChoices]
    rw [ih ((makeChoice scenario st c).1), makeChoice_fst_history scenario st c]
    simp only [List.length_append, List.length_cons, List.length_nil]
    omega

theorem runChoices_history_mono (scenario : Scenario) (cs : List Choice) :
    ∀ st : AppState,
      st.conversationHistory <+: (runChoices scenario st cs).conversationHistory := by
  induction cs with
  | nil => intro st; exact ⟨[], by simp [runChoices]⟩
  | cons c tl ih =>
    intro st
    have h1 : st.conversationHistory <+:
        ((makeChoice scenario st c).1).conversationHistory := by
      rw [makeChoice_fst_history]
      exact ⟨[mkHistoryEntry st c], rfl⟩
    exact h1.trans (ih (makeChoice scenario st c).1)

/-- C4: `conversationHistory` is append-only and its length counts the
choices made: every `makeChoice` call appends exactly one record, the
breakthrough bookkeeping of `displayScene` leaves it unchanged, and over any
run of choices the length grows by exactly the number of choices while the
previous history stays a prefix. -/
theorem conversationHistory_append_only :
    (∀ (scenario : Scenario) (st : AppState) (choice : Choice),
      ((makeChoice scenario st choice).1).conversationHistory
        = st.conversationHistory ++ [mkHistoryEntry st choice]) ∧
    (∀ (st : AppState) (scene : Scene),
      (displaySceneState st scene).conversationHistory = st.conversationHistory) ∧
    (∀ (scenario : Scenario) (st : AppState) (cs : List Choice),
      ((runChoices scenario st cs).conversationHistory).length
        = st.conversationHistory.length + cs.length) ∧
    (∀ (scenario : Scenario) (st : AppState) (cs : List Choice),
      st.conversationHistory <+: (runChoices scenario st cs).conversationHistory) := by
  refine ⟨makeChoice_fst_history, ?_, ?_, ?_⟩
  · intro st scene
    unfold displaySceneState recordBreakthrough
    split_ifs <;> rfl
  · intro scenario st cs
    exact runChoices_history_length scenario cs st
  · intro scenario st cs
    exact runChoices_history_mono scenario cs st

theorem containsSub_spec (p : List Char) :
    ∀ s : List Char, containsSub p s = true ↔ p <:+: s := by
  intro s
  induction s with
  | nil =>
    simp only [containsSub, List.isEmpty_iff]
    constructor
    · intro h; simp [h]
    · intro h; exact List.eq_nil_of_infix_nil h
  | cons c tl ih =>
    simp only [containsSub, Bool.or_eq_true, List.isPrefixOf_iff_prefix, ih,
      List.infix_cons_iff]

theorem trimL_eq_nil_all_ws (s : List Char) (h : trimL s = []) :
    ∀ c ∈ s, isWsChar c = true := by
  unfold trimL trimRight at h
  have h1 : (s.dropWhile isWsChar).reverse.dropWhile isWsChar = [] := by
    have := congrArg List.reverse h
    simpa using this
  have h2 : ∀ c ∈ (s.dropWhile isWsChar).reverse, isWsChar c = true :=
    List.dropWhile_eq_nil_iff.mp h1
  intro c hc
  rw [← List.takeWhile_append_dropWhile isWsChar s] at hc
  rcases List.mem_append.mp hc with h3 | h3
  · exact List.mem_takeWhile_imp h3
  · exact h2 c (List.mem_reverse.mpr h3)

theorem toLower_of_ws (d : Char) (h : isWsChar d = true) : Char.toLower d = d := by
  simp only [isWsChar, Bool.or_eq_true, beq_iff_eq] at h
  rcases h with ((h | h) | h) | h <;> subst h <;> decide

theorem detectCrisis_trim_ne (m : List Char) (h : detectCrisis m = true) :
    trimL m ≠ [] := by
  intro htrim
  have hws : ∀ c ∈ m, isWsChar c = true := trimL_eq_nil_all_ws m htrim
  obtain ⟨kw, hkw, hsub⟩ := List.any_eq_true.mp h
  have hinf : kw <:+: toLowerL m := (containsSub_spec kw (toLowerL m)).mp hsub
  have hkwws : ∀ c ∈ kw, isWsChar c = true := by
    intro c hc
    have hcm : c ∈ toLowerL m := hinf.subset hc
    obtain ⟨d, hd, hcd⟩ := List.mem_map.mp hcm
    rw [← hcd, toLower_of_ws d (hws d hd)]
    exact hws d hd
  have hnonws : crisisKeywords.all (fun kw => kw.any (fun c => !isWsChar c)) = true := by
    decide
  obtain ⟨c, hc, hcnw⟩ := List.any_eq_true.mp (List.all_eq_true.mp hnonws kw hkw)
  rw [hkwws c hc] at hcnw
  exact absurd hcnw (by decide)

/-- C3: a user message whose lowercased text contains a crisis keyword makes
`POST /api/conversations/:id/messages` return the fixed crisis safety payload
with the three static resource identifiers; the heuristic branch
(`generateAIResponse`) is never taken. -/
theorem crisis_message_short_circuits (conv : Conversation) (message : List Char)
    (rand : Nat) (h : detectCrisis message = true) :
    postMessageRoute conv message rand =
      ({ conv with messages := conv.messages ++
          [{ role := Role.user, content := some (trimL message) },
           { role := Role.system, content := some crisisContent }] },
       MsgOutcome.crisis crisisContent (("988").toList) (("741741").toList)
         (("1-866-488-7386").toList)) := by
  unfold postMessageRoute
  rw [if_neg (fun hc => detectCrisis_trim_ne message h (List.length_eq_zero.mp hc))]
  simp only [h, if_true]
  simp [List.append_assoc]

/-- Witness for C3 at the keyword `want to die`. -/
theorem crisis_message_short_circuits_witness :
    postMessageRoute sampleConversation (("I want to die").toList) 0 =
      ({ sampleConversation with messages := sampleConversation.messages ++
          [{ role := Role.user, content := some (trimL (("I want to die").toList)) },
           { role := Role.system, content := some crisisContent }] },
       MsgOutcome.crisis crisisContent (("988").toList) (("741741").toList)
         (("1-866-488-7386").toList)) :=
  crisis_message_short_circuits sampleConversation (("I want to die").toList) 0
    (by decide)

/-- C9: an empty or all-whitespace message yields HTTP 400 and leaves the
conversation's message list (indeed the whole stored conversation)
unchanged. -/
theorem empty_message_bad_request (conv : Conversation) (message : List Char)
    (rand : Nat) (h : trimL message = []) :
    postMessageRoute conv message rand = (conv, MsgOutcome.badRequest) := by
  unfold postMessageRoute
  rw [if_pos (by rw [h]; rfl)]

/-- Witness for C9 at a whitespace-only message. -/
theorem empty_message_bad_request_witness :
    postMessageRoute sampleConversation (("  \n ").toList) 7
      = (sampleConversation, MsgOutcome.badRequest) :=
  empty_message_bad_request sampleConversation (("  \n ").toList) 7 (by decide)

theorem get?_mod_mem (l : List (List Char)) (rand : Nat) (h : l ≠ []) :
    ∃ r, l.get? (rand % l.length) = some r ∧ r ∈ l := by
  have hlt : rand % l.length < l.length := Nat.mod_lt _ (List.length_pos.mpr h)
  exact ⟨l.get ⟨rand % l.length, hlt⟩, List.get?_eq_get hlt, List.get_mem l _ hlt⟩

theorem gen_mem_of_lookup_some (sc : ServerScenario) (m : List Char) (rand : Nat)
    (l : List (List Char)) (hl : sc.patterns.lookup (classifyMessage m) = some l)
    (hne : l ≠ []) :
    ∃ r, generateAIResponse sc m rand = some r ∧ r ∈ l := by
  unfold generateAIResponse
  rw [hl]
  exact get?_mod_mem l rand hne

theorem gen_mem_of_lookup_none (sc : ServerScenario) (m : List Char) (rand : Nat)
    (hl : sc.patterns.lookup (classifyMessage m) = none) :
    ∃ r, generateAIResponse sc m rand = some r ∧ r ∈ generalFallback := by
  unfold generateAIResponse
  rw [hl]
  exact get?_mod_mem generalFallback rand (by decide)

theorem lookup_some_mem (ps : List (List Char × List (List Char)))
    (k : List Char) (v : List (List Char)) (h : ps.lookup k = some v) :
    (k, v) ∈ ps := by
  induction ps with
  | nil => simp [List.lookup] at h
  | cons p tl ih =>
    obtain ⟨pk, pv⟩ := p
    rcases hbeq : k == pk with _ | _
    · simp only [List.lookup, hbeq] at h
      exact List.mem_cons_of_mem _ (ih h)
    · simp only [List.lookup, hbeq] at h
      have hk : k = pk := by simpa using hbeq
      have hv : pv = v := by simpa using h
      subst hk
      subst hv
      exact List.mem_cons_self _ _

/-- C10: `generateAIResponse` is total over the nine server scenarios: for
every non-crisis message and every random pick it returns a string that
belongs to the scenario's pattern list for the matched category, or, when the
scenario's patterns have no list for that category, to the fixed four-string
general fallback list. -/
theorem generateAIResponse_total_membership :
    ∀ p ∈ serverScenarios, ∀ (m : List Char) (rand : Nat),
      detectCrisis m = false →
      ∃ r, generateAIResponse p.2 m rand = some r ∧
        ((∃ l, p.2.patterns.lookup (classifyMessage m) = some l ∧ r ∈ l) ∨
         (p.2.patterns.lookup (classifyMessage m) = none ∧ r ∈ generalFallback)) := by
  intro p hp m rand _
  rcases hl : p.2.patterns.lookup (classifyMessage m) with _ | l
  · obtain ⟨r, hr, hmem⟩ := gen_mem_of_lookup_none p.2 m rand hl
    exact ⟨r, hr, Or.inr ⟨rfl, hmem⟩⟩
  · have hne : l ≠ [] := by
      have hmem := lookup_some_mem p.2.patterns (classifyMessage m) l hl
      have hall : ∀ q ∈ serverScenarios, ∀ kl ∈ q.2.patterns, kl.2 ≠ [] := by decide
      exact hall p hp (classifyMessage m, l) hmem
    obtain ⟨r, hr, hmem⟩ := gen_mem_of_lookup_some p.2 m rand l hl hne
    exact ⟨r, hr, Or.inl ⟨l, rfl, hmem⟩⟩

/-- Witness for C10 on the friend-checkin scenario with a generic message. -/
theorem generateAIResponse_total_membership_witness :
    ∃ r, generateAIResponse scenarioFriendCheckin (("hello").toList) 0 = some r ∧
      ((∃ l, scenarioFriendCheckin.patterns.lookup
          (classifyMessage (("hello").toList)) = some l ∧ r ∈ l) ∨
       (scenarioFriendCheckin.patterns.lookup
          (classifyMessage (("hello").toList)) = none ∧ r ∈ generalFallback)) :=
  generateAIResponse_total_membership
    ((("friend-checkin").toList, scenarioFriendCheckin)) (by decide)
    (("hello").toList) 0 (by decide)

/-- C7 counterexample: the message `sorry` is classified into the empathy
bucket, but the therapy-suggestion scenario has no empathy pattern list; the
reply comes from the fixed fallback list, not from any bucket list of the
scenario, falsifying the claim as stated. -/
theorem generateAIResponse_bucket_counterexample :
    classifyMessage (("sorry").toList) = ("empathy").toList ∧
    scenarioTherapySuggestion.patterns.lookup (("empathy").toList) = none ∧
    generateAIResponse scenarioTherapySuggestion (("sorry").toList) 0
      = some (("I appreciate you saying that.").toList) ∧
    ¬ C7ClaimAt scenarioTherapySuggestion (("sorry").toList) 0 := by
  refine ⟨by decide, by decide, by decide, ?_⟩
  rintro ⟨l, r, hl, -, -⟩
  have hn : scenarioTherapySuggestion.patterns.lookup
      (classifyMessage (("sorry").toList)) = none := by decide
  exact Option.noConfusion (hn.symm.trans hl)

/-- C7 amended: `generateAIResponse` classifies each message into exactly one
bucket by substring presence, with priority empathy cues, then question mark,
then advice cues, else `general`; the reply is drawn from that bucket's
static list when the scenario defines one, and otherwise from the fixed
four-string general fallback list. -/
theorem generateAIResponse_priority_and_membership :
    (∀ m : List Char,
      (containsSub (("sorry").toList) (toLowerL m)
        || containsSub (("understand").toList) (toLowerL m)
        || containsSub (("feel").toList) (toLowerL m)) = true →
      classifyMessage m = ("empathy").toList) ∧
    (∀ m : List Char,
      (containsSub (("sorry").toList) (toLowerL m)
        || containsSub (("understand").toList) (toLowerL m)
        || containsSub (("feel").toList) (toLowerL m)) = false →
      containsSub (("?").toList) (toLowerL m) = true →
      classifyMessage m = ("questions").toList) ∧
    (∀ m : List Char,
      (containsSub (("sorry").toList) (toLowerL m)
        || containsSub (("understand").toList) (toLowerL m)
        || containsSub (("feel").toList) (toLowerL m)) = false →
      containsSub (("?").toList) (toLowerL m) = false →
      (containsSub (("should").toList) (toLowerL m)
        || containsSub (("try").toList) (toLowerL m)
        || containsSub (("maybe").toList) (toLowerL m)) = true →
      classifyMessage m = ("solutions").toList) ∧
    (∀ m : List Char,
      (containsSub (("sorry").toList) (toLowerL m)
        || containsSub (("understand").toList) (toLowerL m)
        || containsSub (("feel").toList) (toLowerL m)) = false →
      containsSub (("?").toList) (toLowerL m) = false →
      (containsSub (("should").toList) (toLowerL m)
        || containsSub (("try").toList) (toLowerL m)
        || containsSub (("maybe").toList) (toLowerL m)) = false →
      classifyMessage m = ("general").toList) ∧
    (∀ (sc : ServerScenario) (m : List Char) (rand : Nat) (l : List (List Char)),
      sc.patterns.lookup (classifyMessage m) = some l → l ≠ [] →
      ∃ r, generateAIResponse sc m rand = some r ∧ r ∈ l) ∧
    (∀ (sc : ServerScenario) (m : List Char) (rand : Nat),
      sc.patterns.lookup (classifyMessage m) = none →
      ∃ r, generateAIResponse sc m rand = some r ∧ r ∈ generalFallback) := by
  refine ⟨?_, ?_, ?_, ?_, gen_mem_of_lookup_some, gen_mem_of_lookup_none⟩
  · intro m h
    simp only [classifyMessage]
    rw [if_pos h]
  · intro m h1 h2
    simp only [classifyMessage]
    rw [if_neg (by rw [h1]; decide), if_pos h2]
  · intro m h1 h2 h3
    simp only [classifyMessage]
    rw [if_neg (by rw [h1]; decide), if_neg (by rw [h2]; decide), if_pos h3]
  · intro m h1 h2 h3
    simp only [classifyMessage]
    rw [if_neg (by rw [h1]; decide), if_neg (by rw [h2]; decide),
      if_neg (by rw [h3]; decide)]

/-- Witness for the amended C7: an empathy-cue message on the friend-checkin
scenario draws from that scenario's empathy list. -/
theorem generateAIResponse_priority_and_membership_witness :
    classifyMessage (("sorry").toList) = ("empathy").toList ∧
    (∃ r, generateAIResponse scenarioFriendCheckin (("sorry").toList) 3 = some r ∧
      r ∈ [("Thanks for asking... it means a lot that you noticed.").toList,
           ("I appreciate you checking in. I have been struggling a bit.").toList]) :=
  ⟨generateAIResponse_priority_and_membership.1 (("sorry").toList) (by decide),
   generateAIResponse_priority_and_membership.2.2.2.2.1 scenarioFriendCheckin
     (("sorry").toList) 3 _ (by decide) (by decide)⟩

/-- C5: `calculateNathanLevel` is deterministic (identical script text and
enhancement list give the identical score: it is a pure function of its two
arguments) and its result always lies within `[0, 100]`. -/
theorem calculateNathanLevel_deterministic_bounded :
    (∀ (script : List Char) (enh : List (List Char)) (script2 : List Char)
        (enh2 : List (List Char)), script = script2 → enh = enh2 →
        calculateNathanLevel script enh = calculateNathanLevel script2 enh2) ∧
    (∀ (script : List Char) (enh : List (List Char)),
        0 ≤ calculateNathanLevel script enh ∧ calculateNathanLevel script enh ≤ 100) := by
  refine ⟨fun s e s2 e2 hs he => by rw [hs, he], ?_⟩
  intro script enh
  simp only [calculateNathanLevel]
  split_ifs <;> omega

/-- Witness for C5 on a concrete script. -/
theorem calculateNathanLevel_deterministic_bounded_witness :
    calculateNathanLevel (("um, I have a plan").toList) [("statistics").toList]
        = calculateNathanLevel (("um, I have a plan").toList) [("statistics").toList] ∧
    0 ≤ calculateNathanLevel (("um, I have a plan").toList) [("statistics").toList] ∧
    calculateNathanLevel (("um, I have a plan").toList) [("statistics").toList] ≤ 100 :=
  ⟨calculateNathanLevel_deterministic_bounded.1 _ _ _ _ rfl rfl,
   (calculateNathanLevel_deterministic_bounded.2 _ _).1,
   (calculateNathanLevel_deterministic_bounded.2 _ _).2⟩

/-- C8 counterexample: a valid `PUT /api/scripts/:id` body that changes only
the title is a successful update, yet the draft number is not incremented and
`nathanLevel` is left at its stored value instead of being recomputed. -/
theorem updateScript_draft_nathan_counterexample :
    validUpdate titleOnlyUpdate = true ∧
    (applyScriptUpdate sampleScript titleOnlyUpdate).draftNumber
      = sampleScript.draftNumber ∧
    (applyScriptUpdate sampleScript titleOnlyUpdate).draftNumber
      ≠ sampleScript.draftNumber + 1 ∧
    (applyScriptUpdate sampleScript titleOnlyUpdate).nathanLevel
      = sampleScript.nathanLevel ∧
    (applyScriptUpdate sampleScript titleOnlyUpdate).nathanLevel
      ≠ calculateNathanLevel
          (applyScriptUpdate sampleScript titleOnlyUpdate).originalScript
          (applyScriptUpdate sampleScript titleOnlyUpdate).enhancements := by
  refine ⟨by decide, by decide, by decide, by decide, by decide⟩

/-- C8 amended: under `PUT /api/scripts/:id`, `draftNumber` is incremented by
one exactly when the update carries a (non-empty) `originalScript` or
`enhancedScript`, and `nathanLevel` is recomputed via `calculateNathanLevel`
exactly when the update carries an `enhancements` list, using the updated
script text when one is given and the stored text otherwise. -/
theorem updateScript_draft_nathan_conditions (ex : ScriptRec) (u : UpdateReq) :
    ((strTruthy u.originalScript || strTruthy u.enhancedScript) = true →
      (applyScriptUpdate ex u).draftNumber = ex.draftNumber + 1) ∧
    ((strTruthy u.originalScript || strTruthy u.enhancedScript) = false →
      (applyScriptUpdate ex u).draftNumber = ex.draftNumber) ∧
    (∀ es, u.enhancements = some es →
      (applyScriptUpdate ex u).nathanLevel =
        calculateNathanLevel
          (if strTruthy u.originalScript then u.originalScript.getD ex.originalScript
           else ex.originalScript) es) ∧
    (u.enhancements = none →
      (applyScriptUpdate ex u).nathanLevel = ex.nathanLevel) := by
  refine ⟨?_, ?_, ?_, ?_⟩
  · intro h
    simp only [applyScriptUpdate]
    rw [if_pos h]
  · intro h
    simp only [applyScriptUpdate]
    rw [if_neg (by rw [h]; decide)]
  · intro es h
    simp only [applyScriptUpdate, h]
  · intro h
    simp only [applyScriptUpdate, h]

/-- Witness for the amended C8 at an update carrying an enhanced script and
an enhancement list. -/
theorem updateScript_draft_nathan_conditions_witness :
    (applyScriptUpdate sampleScript enhUpdate).draftNumber
      = sampleScript.draftNumber + 1 ∧
    (applyScriptUpdate sampleScript enhUpdate).nathanLevel =
      calculateNathanLevel
        (if strTruthy enhUpdate.originalScript then
          enhUpdate.originalScript.getD sampleScript.originalScript
         else sampleScript.originalScript) [("statistics").toList] :=
  ⟨(updateScript_draft_nathan_conditions sampleScript enhUpdate).1 (by decide),
   (updateScript_draft_nathan_conditions sampleScript enhUpdate).2.2.1
     [("statistics").toList] (by decide)⟩

/-! Helper lemmas for the analysis-parser claims: behaviour of the scan
combinators on structured inputs. -/

theorem scanWith_eq_of_tryH_some {α : Type} (tryH : List Char → Option α)
    (s : List Char) (r : α) (h : tryH s = some r) :
    scanWith tryH s = some r := by
  cases s <;> simp [scanWith, h]

theorem scanWith_append {α : Type} (tryH : List Char → Option α) (u v : List Char)
    (h : ∀ j, j < u.length → tryH (u.drop j ++ v) = none) :
    scanWith tryH (u ++ v) = scanWith tryH v := by
  induction u with
  | nil => simp
  | cons c tl ih =>
    have h0 : tryH (c :: (tl ++ v)) = none := by
      simpa using h 0 (by simp)
    rw [List.cons_append, scanWith, h0]
    exact ih (fun j hj => by
      simpa [List.drop_succ_cons] using h (j + 1) (by simp only [List.length_cons]; omega))

theorem prefix_append_split {l u v : List Char} (h : l <+: u ++ v) :
    l <+: u ∨ (u <+: l ∧ l.drop u.length <+: v) := by
  induction u generalizing l with
  | nil =>
    right
    exact ⟨⟨l, rfl⟩, by simpa using h⟩
  | cons a u' ih =>
    cases l with
    | nil => left; exact ⟨a :: u', rfl⟩
    | cons b l' =>
      rw [List.cons_append] at h
      obtain ⟨hba, h'⟩ := List.cons_prefix_cons.mp h
      rcases ih h' with h1 | ⟨h2, h3⟩
      · left; exact List.cons_prefix_cons.mpr ⟨hba, h1⟩
      · right
        refine ⟨List.cons_prefix_cons.mpr ⟨hba.symm, h2⟩, ?_⟩
        simpa [List.drop_succ_cons] using h3

theorem no_prefix_lit_nospan (lbl u v : List Char)
    (hu : ∀ j, j < u.length → ¬ lbl <+: u.drop j)
    (hsp : ∀ j, j < u.length → ¬ (u.drop j <+: lbl)) :
    ∀ j, j < u.length → ¬ lbl <+: (u.drop j ++ v) := by
  intro j hj hcon
  rcases prefix_append_split hcon with h1 | ⟨h2, -⟩
  · exact hu j hj h1
  · exact hsp j hj h2

theorem no_prefix_digits (lbl ds w : List Char)
    (hlne : lbl ≠ [])
    (hnd : lbl.all (fun c => !c.isDigit) = true)
    (hds : ds.all Char.isDigit = true) :
    ∀ j, j < ds.length → ¬ lbl <+: (ds.drop j ++ w) := by
  intro j hj hcon
  rcases hdrop : ds.drop j with _ | ⟨e, r⟩
  · have : (ds.drop j).length = 0 := by rw [hdrop]; rfl
    rw [List.length_drop] at this
    omega
  · rcases lbl with _ | ⟨b, lrest⟩
    · exact absurd rfl hlne
    · rw [hdrop, List.cons_append] at hcon
      obtain ⟨hbe, -⟩ := List.cons_prefix_cons.mp hcon
      have he : e ∈ ds := List.mem_of_mem_drop (hdrop ▸ List.mem_cons_self e r)
      have hde := List.all_eq_true.mp hds e he
      have hnb := List.all_eq_true.mp hnd b (List.mem_cons_self b lrest)
      rw [hbe, hde] at hnb
      simp at hnb

theorem no_prefix_chunk_headed (lbl q v : List Char)
    (hq : containsSub lbl q = false)
    (hnl : lbl.all (fun c => c != '\n') = true)
    (hv : v.take 1 = [('\n' : Char)]) :
    ∀ j, j < q.length → ¬ lbl <+: (q.drop j ++ v) := by
  intro j hj hcon
  rcases prefix_append_split hcon with h1 | ⟨h2, h3⟩
  · have : containsSub lbl q = true :=
      (containsSub_spec lbl q).mpr
        (List.IsInfix.trans h1.isInfix (List.drop_suffix j q).isInfix)
    rw [hq] at this
    exact Bool.noConfusion this
  · rcases hdrop : lbl.drop (q.drop j).length with _ | ⟨e, r⟩
    · have hlen : lbl.length ≤ (q.drop j).length := by
        have : (lbl.drop (q.drop j).length).length = 0 := by rw [hdrop]; rfl
        rw [List.length_drop] at this
        omega
      have hqlen : (q.drop j).length ≤ lbl.length := h2.sublist.length_le
      have heq : q.drop j = lbl := h2.eq_of_length (by omega)
      have : containsSub lbl q = true :=
        (containsSub_spec lbl q).mpr
          (List.IsInfix.trans (heq ▸ List.IsPrefix.isInfix ⟨[], by simp⟩)
            (List.drop_suffix j q).isInfix)
      rw [hq] at this
      exact Bool.noConfusion this
    · rw [hdrop] at h3
      rcases v with _ | ⟨v0, vt⟩
      · simp at hv
      · have hv0 : v0 = '\n' := by simpa using hv
        obtain ⟨he, -⟩ := List.cons_prefix_cons.mp h3
        have hemem : e ∈ lbl := List.mem_of_mem_drop (hdrop ▸ List.mem_cons_self e r)
        have := List.all_eq_true.mp hnl e hemem
        rw [he, hv0] at this
        simp at this

theorem numTryHere_none (lbl s : List Char) (h : ¬ lbl <+: s) :
    numTryHere lbl s = none := by
  unfold numTryHere
  rw [if_neg (fun hc => h (List.isPrefixOf_iff_prefix.mp hc))]

theorem obsTryHere_none (s : List Char) (h : ¬ obsLbl <+: s) :
    obsTryHere s = none := by
  unfold obsTryHere
  rw [if_neg (fun hc => h (List.isPrefixOf_iff_prefix.mp hc))]

theorem sugTryHere_none (s : List Char) (h : ¬ sugLbl <+: s) :
    sugTryHere s = none := by
  unfold sugTryHere
  rw [if_neg (fun hc => h (List.isPrefixOf_iff_prefix.mp hc))]

theorem scanWith_skip_chunk {α : Type} (tryH : List Char → Option α)
    (lbl u v : List Char)
    (htry : ∀ s, ¬ lbl <+: s → tryH s = none)
    (hnp : ∀ j, j < u.length → ¬ lbl <+: (u.drop j ++ v)) :
    scanWith tryH (u ++ v) = scanWith tryH v :=
  scanWith_append tryH u v (fun j hj => htry _ (hnp j hj))

theorem ws_not_digit (c : Char) (h : isWsChar c = true) : c.isDigit = false := by
  simp only [isWsChar, Bool.or_eq_true, beq_iff_eq] at h
  rcases h with ((h | h) | h) | h <;> subst h <;> decide

theorem digit_not_ws (c : Char) (h : c.isDigit = true) : isWsChar c = false := by
  cases hw : isWsChar c with
  | false => rfl
  | true => rw [ws_not_digit c hw] at h; exact Bool.noConfusion h

theorem takeWhile_append_all {α : Type} (p : α → Bool) (xs ys : List α)
    (h : ∀ x ∈ xs, p x = true) :
    (xs ++ ys).takeWhile p = xs ++ ys.takeWhile p := by
  induction xs with
  | nil => simp
  | cons x tl ih =>
    rw [List.cons_append, List.takeWhile_cons, h x (List.mem_cons_self x tl)]
    rw [ih (fun y hy => h y (List.mem_cons_of_mem x hy))]
    rfl

theorem dropWhile_append_all {α : Type} (p : α → Bool) (xs ys : List α)
    (h : ∀ x ∈ xs, p x = true) :
    (xs ++ ys).dropWhile p = ys.dropWhile p := by
  induction xs with
  | nil => simp
  | cons x tl ih =>
    rw [List.cons_append, List.dropWhile_cons, h x (List.mem_cons_self x tl)]
    exact ih (fun y hy => h y (List.mem_cons_of_mem x hy))

theorem numTryHere_at (lbl ws ds rest : List Char)
    (hws : ws.all isWsChar = true)
    (hds : ds.all Char.isDigit = true)
    (hne : ds ≠ [])
    (htw : rest.takeWhile Char.isDigit = []) :
    numTryHere lbl (lbl ++ (ws ++ (ds ++ rest))) = some ds := by
  unfold numTryHere
  rw [if_pos (List.isPrefixOf_iff_prefix.mpr ⟨ws ++ (ds ++ rest), rfl⟩)]
  rw [List.drop_left]
  rw [dropWhile_append_all isWsChar ws (ds ++ rest) (List.all_eq_true.mp hws)]
  rcases ds with _ | ⟨d, dtl⟩
  · exact absurd rfl hne
  · rw [List.cons_append, List.dropWhile_cons,
      digit_not_ws d (List.all_eq_true.mp hds d (List.mem_cons_self d dtl))]
    simp only [Bool.false_eq_true, if_false]
    rw [← List.cons_append,
      takeWhile_append_all Char.isDigit (d :: dtl) rest (List.all_eq_true.mp hds), htw,
      List.append_nil]
    simp

theorem trimRight_length_le (s : List Char) : (trimRight s).length ≤ s.length := by
  unfold trimRight
  rw [List.length_reverse]
  calc (s.reverse.dropWhile isWsChar).length
      ≤ s.reverse.length := (List.dropWhile_suffix isWsChar).sublist.length_le
    _ = s.length := List.length_reverse s

theorem dropWhile_eq_self_of_trim (s : List Char) (h : trimL s = s) :
    s.dropWhile isWsChar = s := by
  have h1 : (s.dropWhile isWsChar).length ≤ s.length :=
    (List.dropWhile_suffix isWsChar).sublist.length_le
  have h2 : (trimL s).length ≤ (s.dropWhile isWsChar).length := trimRight_length_le _
  rw [h] at h2
  exact (List.dropWhile_suffix isWsChar).eq_of_length (by omega)

theorem head_not_ws_of_dropWhile_self (e : Char) (t : List Char)
    (h : (e :: t).dropWhile isWsChar = e :: t) : isWsChar e = false := by
  cases hw : isWsChar e with
  | false => rfl
  | true =>
    rw [List.dropWhile_cons, hw] at h
    simp only [if_true] at h
    have h1 := congrArg List.length h
    have h2 : (t.dropWhile isWsChar).length ≤ t.length :=
      (List.dropWhile_suffix isWsChar).sublist.length_le
    simp only [List.length_cons] at h1
    omega

theorem lookaheadOk_nlnl (w : List Char) : lookaheadOk ('\n' :: '\n' :: w) = true := by
  simp only [lookaheadOk, Bool.or_eq_true]
  left; left
  exact List.isPrefixOf_iff_prefix.mpr ⟨w, rfl⟩

theorem lookaheadOk_cons_ne (e : Char) (r : List Char) (h : (e == '\n') = false) :
    lookaheadOk (e :: r) = false := by
  have hne : ('\n' == e) = false := by
    rw [beq_eq_false_iff_ne] at h ⊢
    exact fun hh => h hh.symm
  unfold lookaheadOk
  rw [show (("\n\n").toList) = '\n' :: ('\n' :: []) from rfl,
    show (("\nIMPROVEMENT_SUGGESTIONS").toList)
      = '\n' :: ("IMPROVEMENT_SUGGESTIONS").toList from rfl]
  simp [List.isPrefixOf, hne]

theorem lazyDots_run (obs w : List Char)
    (hnl : obs.all (fun ch => ch != '\n') = true) :
    lazyDots (obs ++ ('\n' :: '\n' :: w)) = some obs := by
  induction obs with
  | nil =>
    rw [List.nil_append]
    simp [lazyDots, lookaheadOk_nlnl]
  | cons e otl ih =>
    simp only [List.all_cons, Bool.and_eq_true] at hnl
    have he' : (e == '\n') = false := by simpa using hnl.1
    rw [List.cons_append]
    simp [lazyDots, lookaheadOk_cons_ne e _ he', he', ih hnl.2]

theorem obsTryHere_at (obs w : List Char)
    (hne : obs ≠ [])
    (hdw : obs.dropWhile isWsChar = obs)
    (hnl : obs.all (fun ch => ch != '\n') = true) :
    obsTryHere (obsLbl ++ ((" ").toList ++ (obs ++ (("\n\n").toList ++ w))))
      = some obs := by
  unfold obsTryHere
  rw [if_pos (List.isPrefixOf_iff_prefix.mpr ⟨_, rfl⟩)]
  rw [List.drop_left]
  rcases obs with _ | ⟨e, otl⟩
  · exact absurd rfl hne
  · have hens : isWsChar e = false := head_not_ws_of_dropWhile_self e otl hdw
    have htw : (((" ").toList ++ ((e :: otl) ++ (("\n\n").toList ++ w))).takeWhile isWsChar)
        = [' '] := by
      rw [show ((" ").toList ++ ((e :: otl) ++ (("\n\n").toList ++ w)))
          = ' ' :: ((e :: otl) ++ (("\n\n").toList ++ w)) from rfl]
      rw [List.takeWhile_cons, show isWsChar ' ' = true from rfl]
      simp only [if_true]
      rw [List.cons_append, List.takeWhile_cons, hens]
      rfl
    show obsWsBacktrack ((" ").toList ++ ((e :: otl) ++ (("\n\n").toList ++ w)))
        ((((" ").toList ++ ((e :: otl) ++ (("\n\n").toList ++ w))).takeWhile isWsChar)).length
      = some (e :: otl)
    rw [htw]
    have hdrop1 : (((" ").toList ++ ((e :: otl) ++ (("\n\n").toList ++ w))).drop 1)
        = (e :: otl) ++ ('\n' :: '\n' :: w) := by
      rw [show ((" ").toList ++ ((e :: otl) ++ (("\n\n").toList ++ w)))
          = ' ' :: ((e :: otl) ++ ('\n' :: '\n' :: w)) from rfl]
      rfl
    have hld := lazyDots_run (e :: otl) w hnl
    show obsWsBacktrack _ (0 + 1) = _
    rw [obsWsBacktrack]
    rw [hdrop1, hld]

theorem sugRepAux_nil (fuel : Nat) : sugRepAux fuel [] = ([], []) := by
  cases fuel <;> rfl

theorem takeWhile_joinSugs (sugs : List (List Char)) :
    (joinSugs sugs).takeWhile (fun c => c != '\n') = [] := by
  cases sugs <;> rfl

theorem dropWhile_joinSugs (sugs : List (List Char)) :
    (joinSugs sugs).dropWhile (fun c => c != '\n') = joinSugs sugs := by
  cases sugs <;> rfl

theorem joinSugs_cons (sg : List Char) (rest : List (List Char)) :
    joinSugs (sg :: rest) = '\n' :: '-' :: (' ' :: sg ++ joinSugs rest) := rfl

theorem takeWhile_sug_line (sg : List Char) (rest : List (List Char))
    (hsg : sg.all (fun ch => ch != '\n') = true) :
    (' ' :: sg ++ joinSugs rest).takeWhile (fun c => c != '\n') = ' ' :: sg := by
  rw [List.cons_append, List.takeWhile_cons]
  simp only [show ((' ' : Char) != '\n') = true from rfl, if_true]
  rw [takeWhile_append_all _ sg (joinSugs rest) (List.all_eq_true.mp hsg),
    takeWhile_joinSugs, List.append_nil]

theorem dropWhile_sug_line (sg : List Char) (rest : List (List Char))
    (hsg : sg.all (fun ch => ch != '\n') = true) :
    (' ' :: sg ++ joinSugs rest).dropWhile (fun c => c != '\n') = joinSugs rest := by
  rw [List.cons_append, List.dropWhile_cons]
  simp only [show ((' ' : Char) != '\n') = true from rfl, if_true]
  rw [dropWhile_append_all _ sg (joinSugs rest) (List.all_eq_true.mp hsg),
    dropWhile_joinSugs]

theorem sugRepAux_join (sugs : List (List Char))
    (hnl : ∀ sg ∈ sugs, sg.all (fun ch => ch != '\n') = true) :
    ∀ fuel, (joinSugs sugs).length ≤ fuel →
      sugRepAux fuel (joinSugs sugs) = (joinSugs sugs, []) := by
  induction sugs with
  | nil =>
    intro fuel _
    rw [show joinSugs [] = [] from rfl]
    exact sugRepAux_nil fuel
  | cons sg rest ih =>
    intro fuel hfuel
    rw [joinSugs_cons] at hfuel ⊢
    rcases fuel with _ | f
    · simp only [List.length_cons] at hfuel
      omega
    · have hsg := hnl sg (List.mem_cons_self sg rest)
      show ('\n' :: '-' :: ((' ' :: sg ++ joinSugs rest).takeWhile (fun c => c != '\n')
          ++ (sugRepAux f ((' ' :: sg ++ joinSugs rest).dropWhile (fun c => c != '\n'))).1),
        (sugRepAux f ((' ' :: sg ++ joinSugs rest).dropWhile (fun c => c != '\n'))).2) = _
      rw [takeWhile_sug_line sg rest hsg, dropWhile_sug_line sg rest hsg]
      rw [ih (fun t ht => hnl t (List.mem_cons_of_mem sg ht)) f (by
        simp only [List.length_cons, List.length_append] at hfuel
        omega)]

theorem sugRep_group (sg : List Char) (rest : List (List Char))
    (hsg : sg.all (fun ch => ch != '\n') = true)
    (hrest : ∀ t ∈ rest, t.all (fun ch => ch != '\n') = true) :
    sugRep ('-' :: (' ' :: sg ++ joinSugs rest))
      = ('-' :: (' ' :: sg ++ joinSugs rest), []) := by
  unfold sugRep
  rcases hlen : ('-' :: (' ' :: sg ++ joinSugs rest)).length with _ | f
  · simp at hlen
  · show ('-' :: ((' ' :: sg ++ joinSugs rest).takeWhile (fun c => c != '\n')
        ++ (sugRepAux f ((' ' :: sg ++ joinSugs rest).dropWhile (fun c => c != '\n'))).1),
      (sugRepAux f ((' ' :: sg ++ joinSugs rest).dropWhile (fun c => c != '\n'))).2) = _
    rw [takeWhile_sug_line sg rest hsg, dropWhile_sug_line sg rest hsg]
    rw [sugRepAux_join rest hrest f (by
      simp only [List.length_cons, List.length_append] at hlen
      omega)]

theorem sugTryHere_at (sg : List Char) (rest : List (List Char))
    (hall : ∀ t ∈ sg :: rest, t.all (fun ch => ch != '\n') = true) :
    sugTryHere (sugLbl ++ joinSugs (sg :: rest))
      = some ('-' :: (' ' :: sg ++ joinSugs rest)) := by
  unfold sugTryHere
  rw [if_pos (List.isPrefixOf_iff_prefix.mpr ⟨_, rfl⟩)]
  rw [List.drop_left]
  have hsg := hall sg (List.mem_cons_self sg rest)
  have hrest : ∀ t ∈ rest, t.all (fun ch => ch != '\n') = true :=
    fun t ht => hall t (List.mem_cons_of_mem sg ht)
  have htw : ((joinSugs (sg :: rest)).takeWhile isWsChar) = ['\n'] := by
    rw [joinSugs_cons, List.takeWhile_cons, show isWsChar '\n' = true from rfl]
    simp only [if_true]
    rw [List.takeWhile_cons, show isWsChar '-' = false from rfl]
    rfl
  show sugBacktrack (joinSugs (sg :: rest))
      ((joinSugs (sg :: rest)).takeWhile isWsChar).length
    = some ('-' :: (' ' :: sg ++ joinSugs rest))
  rw [htw]
  show sugBacktrack (joinSugs (sg :: rest)) (0 + 1)
    = some ('-' :: (' ' :: sg ++ joinSugs rest))
  have hdrop1 : (joinSugs (sg :: rest)).drop (0 + 1)
      = '-' :: (' ' :: sg ++ joinSugs rest) := by
    rw [joinSugs_cons]
    rfl
  rw [sugBacktrack, hdrop1, sugRep_group sg rest hsg hrest]
  rfl

theorem splitOnNlAux_group (sg : List Char) (rest : List (List Char))
    (hsg : sg.all (fun ch => ch != '\n') = true)
    (hrest : ∀ t ∈ rest, t.all (fun ch => ch != '\n') = true) :
    ∀ fuel, ('-' :: (' ' :: sg ++ joinSugs rest)).length ≤ fuel →
      splitOnNlAux fuel ('-' :: (' ' :: sg ++ joinSugs rest))
        = (sg :: rest).map (fun t => '-' :: ' ' :: t) := by
  induction rest generalizing sg with
  | nil =>
    intro fuel hfuel
    rcases fuel with _ | f
    · simp at hfuel
    · show (let seg := ('-' :: (' ' :: sg ++ joinSugs [])).takeWhile (fun c => c != '\n')
        match ('-' :: (' ' :: sg ++ joinSugs [])).dropWhile (fun c => c != '\n') with
        | [] => [seg]
        | _ :: rest2 => seg :: splitOnNlAux f rest2) = _
      have ht : ('-' :: (' ' :: sg ++ joinSugs [])).takeWhile (fun c => c != '\n')
          = '-' :: ' ' :: sg := by
        rw [List.takeWhile_cons]
        simp only [show (('-' : Char) != '\n') = true from rfl, if_true]
        rw [takeWhile_sug_line sg [] hsg]
      have hd : ('-' :: (' ' :: sg ++ joinSugs [])).dropWhile (fun c => c != '\n')
          = [] := by
        rw [List.dropWhile_cons]
        simp only [show (('-' : Char) != '\n') = true from rfl, if_true]
        rw [dropWhile_sug_line sg [] hsg]
        rfl
      simp only [ht, hd]
      rfl
  | cons sg2 rest2 ih =>
    intro fuel hfuel
    rcases fuel with _ | f
    · simp at hfuel
    · show (let seg := List.takeWhile (fun c => c != '\n') ('-' :: (' ' :: sg ++ joinSugs (sg2 :: rest2)));
        match List.dropWhile (fun c => c != '\n') ('-' :: (' ' :: sg ++ joinSugs (sg2 :: rest2))) with
        | [] => [seg]
        | _ :: rest3 => seg :: splitOnNlAux f rest3) = _
      have ht : ('-' :: (' ' :: sg ++ joinSugs (sg2 :: rest2))).takeWhile
          (fun c => c != '\n') = '-' :: ' ' :: sg := by
        rw [List.takeWhile_cons]
        simp only [show (('-' : Char) != '\n') = true from rfl, if_true]
        rw [takeWhile_sug_line sg (sg2 :: rest2) hsg]
      have hd : ('-' :: (' ' :: sg ++ joinSugs (sg2 :: rest2))).dropWhile
          (fun c => c != '\n') = '\n' :: ('-' :: (' ' :: sg2 ++ joinSugs rest2)) := by
        rw [List.dropWhile_cons]
        simp only [show (('-' : Char) != '\n') = true from rfl, if_true]
        rw [dropWhile_sug_line sg (sg2 :: rest2) hsg, joinSugs_cons]
      simp only [ht, hd]
      have hsg2 := hrest sg2 (List.mem_cons_self sg2 rest2)
      have hrest2 : ∀ t ∈ rest2, t.all (fun ch => ch != '\n') = true :=
        fun t htm => hrest t (List.mem_cons_of_mem sg2 htm)
      rw [ih sg2 hsg2 hrest2 f (by
        rw [joinSugs_cons] at hfuel
        simp only [List.length_cons, List.length_append] at hfuel ⊢
        omega)]
      rfl

theorem trimL_dash (l : List Char) : ∃ t, trimL ('-' :: l) = '-' :: t := by
  unfold trimL trimRight
  rw [List.dropWhile_cons, show isWsChar '-' = false from rfl]
  simp only [Bool.false_eq_true, if_false]
  rw [List.reverse_cons, List.dropWhile_append]
  cases he : (l.reverse.dropWhile isWsChar).isEmpty with
  | true =>
    simp only [if_true]
    exact ⟨[], rfl⟩
  | false =>
    simp only [Bool.false_eq_true, if_false]
    exact ⟨(l.reverse.dropWhile isWsChar).reverse, by
      rw [List.reverse_append]
      rfl⟩

theorem startsDash_dash (l : List Char) : startsDash ('-' :: l) = true := by
  obtain ⟨t, ht⟩ := trimL_dash l
  unfold startsDash
  rw [ht]
  rfl

theorem strip_trim_line (sg : List Char) (htrim : trimL sg = sg) :
    trimL (stripDash ('-' :: ' ' :: sg)) = sg := by
  show trimL ((' ' :: sg).dropWhile isWsChar) = sg
  rw [List.dropWhile_cons, show isWsChar ' ' = true from rfl]
  simp only [if_true]
  rw [dropWhile_eq_self_of_trim sg htrim, htrim]

theorem sug_pipeline (sugs : List (List Char))
    (htrim : ∀ sg ∈ sugs, trimL sg = sg) :
    (((sugs.map (fun t => '-' :: ' ' :: t)).filter startsDash).map
      (fun l => trimL (stripDash l))) = sugs := by
  rw [List.filter_eq_self.mpr (by
    intro x hx
    obtain ⟨t, ht, hxt⟩ := List.mem_map.mp hx
    rw [← hxt]
    exact startsDash_dash _)]
  rw [List.map_map]
  calc sugs.map ((fun l => trimL (stripDash l)) ∘ (fun t => '-' :: ' ' :: t))
      = sugs.map id := List.map_congr_left
        (fun sg hs => strip_trim_line sg (htrim sg hs))
    _ = sugs := List.map_id sugs

/-! Locating each labeled field inside a well-formed analysis block: the
scan skips every earlier chunk (no label occurs inside a literal, digit or
observation region) and succeeds exactly at its own label. -/

theorem scan_block_awk (a c o d p w s obs : List Char) (sugs : List (List Char))
    (ha : a.all Char.isDigit = true)
    (hane : a ≠ [])
    : scanNum lblAwkScore (mkAnalysisBlock a c o d p w s obs sugs) = some a := by
  unfold scanNum
  rw [show mkAnalysisBlock a c o d p w s obs sugs
      = (lblAwkScore ++ (((" ").toList) ++ (a ++ ((("\n").toList) ++ (lblComplexity ++ (((" ").toList) ++ (c ++ ((("\n").toList) ++ (lblOptimality ++ (((" ").toList) ++ (o ++ ((("\n\n").toList) ++ (lblDialogue ++ (((" ").toList) ++ (d ++ ((("\n").toList) ++ (lblPreparation ++ (((" ").toList) ++ (p ++ ((("\n").toList) ++ (lblAwkAuth ++ (((" ").toList) ++ (w ++ ((("\n").toList) ++ (lblStatCred ++ (((" ").toList) ++ (s ++ ((("\n\n").toList) ++ (obsLbl ++ (((" ").toList) ++ (obs ++ ((("\n\n").toList) ++ (sugLbl ++ (joinSugs sugs)))))))))))))))))))))))))))))))))) from by
    simp only [mkAnalysisBlock, List.append_assoc]]
  exact scanWith_eq_of_tryH_some _ _ _
    (numTryHere_at lblAwkScore ((" ").toList) a
      ((("\n").toList) ++ (lblComplexity ++ (((" ").toList) ++ (c ++ ((("\n").toList) ++ (lblOptimality ++ (((" ").toList) ++ (o ++ ((("\n\n").toList) ++ (lblDialogue ++ (((" ").toList) ++ (d ++ ((("\n").toList) ++ (lblPreparation ++ (((" ").toList) ++ (p ++ ((("\n").toList) ++ (lblAwkAuth ++ (((" ").toList) ++ (w ++ ((("\n").toList) ++ (lblStatCred ++ (((" ").toList) ++ (s ++ ((("\n\n").toList) ++ (obsLbl ++ (((" ").toList) ++ (obs ++ ((("\n\n").toList) ++ (sugLbl ++ (joinSugs sugs)))))))))))))))))))))))))))))))
      (by decide) ha hane (by rfl))

theorem scan_block_complexity (a c o d p w s obs : List Char) (sugs : List (List Char))
    (ha : a.all Char.isDigit = true)
    (hc : c.all Char.isDigit = true)
    (hcne : c ≠ [])
    : scanNum lblComplexity (mkAnalysisBlock a c o d p w s obs sugs) = some c := by
  unfold scanNum
  rw [show mkAnalysisBlock a c o d p w s obs sugs
      = ((lblAwkScore ++ ((" ").toList)) ++ (a ++ ((("\n").toList) ++ (lblComplexity ++ (((" ").toList) ++ (c ++ ((("\n").toList) ++ (lblOptimality ++ (((" ").toList) ++ (o ++ ((("\n\n").toList) ++ (lblDialogue ++ (((" ").toList) ++ (d ++ ((("\n").toList) ++ (lblPreparation ++ (((" ").toList) ++ (p ++ ((("\n").toList) ++ (lblAwkAuth ++ (((" ").toList) ++ (w ++ ((("\n").toList) ++ (lblStatCred ++ (((" ").toList) ++ (s ++ ((("\n\n").toList) ++ (obsLbl ++ (((" ").toList) ++ (obs ++ ((("\n\n").toList) ++ (sugLbl ++ (joinSugs sugs))))))))))))))))))))))))))))))))) from by
    simp only [mkAnalysisBlock, List.append_assoc]]
  rw [scanWith_skip_chunk (numTryHere lblComplexity) lblComplexity (lblAwkScore ++ ((" ").toList))
      (a ++ ((("\n").toList) ++ (lblComplexity ++ (((" ").toList) ++ (c ++ ((("\n").toList) ++ (lblOptimality ++ (((" ").toList) ++ (o ++ ((("\n\n").toList) ++ (lblDialogue ++ (((" ").toList) ++ (d ++ ((("\n").toList) ++ (lblPreparation ++ (((" ").toList) ++ (p ++ ((("\n").toList) ++ (lblAwkAuth ++ (((" ").toList) ++ (w ++ ((("\n").toList) ++ (lblStatCred ++ (((" ").toList) ++ (s ++ ((("\n\n").toList) ++ (obsLbl ++ (((" ").toList) ++ (obs ++ ((("\n\n").toList) ++ (sugLbl ++ (joinSugs sugs))))))))))))))))))))))))))))))))
      (numTryHere_none lblComplexity) (no_prefix_lit_nospan lblComplexity (lblAwkScore ++ ((" ").toList))
      (a ++ ((("\n").toList) ++ (lblComplexity ++ (((" ").toList) ++ (c ++ ((("\n").toList) ++ (lblOptimality ++ (((" ").toList) ++ (o ++ ((("\n\n").toList) ++ (lblDialogue ++ (((" ").toList) ++ (d ++ ((("\n").toList) ++ (lblPreparation ++ (((" ").toList) ++ (p ++ ((("\n").toList) ++ (lblAwkAuth ++ (((" ").toList) ++ (w ++ ((("\n").toList) ++ (lblStatCred ++ (((" ").toList) ++ (s ++ ((("\n\n").toList) ++ (obsLbl ++ (((" ").toList) ++ (obs ++ ((("\n\n").toList) ++ (sugLbl ++ (joinSugs sugs))))))))))))))))))))))))))))))))
      (by decide) (by decide))]
  rw [scanWith_skip_chunk (numTryHere lblComplexity) lblComplexity a
      ((("\n").toList) ++ (lblComplexity ++ (((" ").toList) ++ (c ++ ((("\n").toList) ++ (lblOptimality ++ (((" ").toList) ++ (o ++ ((("\n\n").toList) ++ (lblDialogue ++ (((" ").toList) ++ (d ++ ((("\n").toList) ++ (lblPreparation ++ (((" ").toList) ++ (p ++ ((("\n").toList) ++ (lblAwkAuth ++ (((" ").toList) ++ (w ++ ((("\n").toList) ++ (lblStatCred ++ (((" ").toList) ++ (s ++ ((("\n\n").toList) ++ (obsLbl ++ (((" ").toList) ++ (obs ++ ((("\n\n").toList) ++ (sugLbl ++ (joinSugs sugs)))))))))))))))))))))))))))))))
      (numTryHere_none lblComplexity) (no_prefix_digits lblComplexity a
      ((("\n").toList) ++ (lblComplexity ++ (((" ").toList) ++ (c ++ ((("\n").toList) ++ (lblOptimality ++ (((" ").toList) ++ (o ++ ((("\n\n").toList) ++ (lblDialogue ++ (((" ").toList) ++ (d ++ ((("\n").toList) ++ (lblPreparation ++ (((" ").toList) ++ (p ++ ((("\n").toList) ++ (lblAwkAuth ++ (((" ").toList) ++ (w ++ ((("\n").toList) ++ (lblStatCred ++ (((" ").toList) ++ (s ++ ((("\n\n").toList) ++ (obsLbl ++ (((" ").toList) ++ (obs ++ ((("\n\n").toList) ++ (sugLbl ++ (joinSugs sugs)))))))))))))))))))))))))))))))
      (by decide) (by decide) ha)]
  rw [scanWith_skip_chunk (numTryHere lblComplexity) lblComplexity (("\n").toList)
      (lblComplexity ++ (((" ").toList) ++ (c ++ ((("\n").toList) ++ (lblOptimality ++ (((" ").toList) ++ (o ++ ((("\n\n").toList) ++ (lblDialogue ++ (((" ").toList) ++ (d ++ ((("\n").toList) ++ (lblPreparation ++ (((" ").toList) ++ (p ++ ((("\n").toList) ++ (lblAwkAuth ++ (((" ").toList) ++ (w ++ ((("\n").toList) ++ (lblStatCred ++ (((" ").toList) ++ (s ++ ((("\n\n").toList) ++ (obsLbl ++ (((" ").toList) ++ (obs ++ ((("\n\n").toList) ++ (sugLbl ++ (joinSugs sugs))))))))))))))))))))))))))))))
      (numTryHere_none lblComplexity) (no_prefix_lit_nospan lblComplexity (("\n").toList)
      (lblComplexity ++ (((" ").toList) ++ (c ++ ((("\n").toList) ++ (lblOptimality ++ (((" ").toList) ++ (o ++ ((("\n\n").toList) ++ (lblDialogue ++ (((" ").toList) ++ (d ++ ((("\n").toList) ++ (lblPreparation ++ (((" ").toList) ++ (p ++ ((("\n").toList) ++ (lblAwkAuth ++ (((" ").toList) ++ (w ++ ((("\n").toList) ++ (lblStatCred ++ (((" ").toList) ++ (s ++ ((("\n\n").toList) ++ (obsLbl ++ (((" ").toList) ++ (obs ++ ((("\n\n").toList) ++ (sugLbl ++ (joinSugs sugs))))))))))))))))))))))))))))))
      (by decide) (by decide))]
  exact scanWith_eq_of_tryH_some _ _ _
    (numTryHere_at lblComplexity ((" ").toList) c
      ((("\n").toList) ++ (lblOptimality ++ (((" ").toList) ++ (o ++ ((("\n\n").toList) ++ (lblDialogue ++ (((" ").toList) ++ (d ++ ((("\n").toList) ++ (lblPreparation ++ (((" ").toList) ++ (p ++ ((("\n").toList) ++ (lblAwkAuth ++ (((" ").toList) ++ (w ++ ((("\n").toList) ++ (lblStatCred ++ (((" ").toList) ++ (s ++ ((("\n\n").toList) ++ (obsLbl ++ (((" ").toList) ++ (obs ++ ((("\n\n").toList) ++ (sugLbl ++ (joinSugs sugs)))))))))))))))))))))))))))
      (by decide) hc hcne (by rfl))

theorem scan_block_optimality (a c o d p w s obs : List Char) (sugs : List (List Char))
    (ha : a.all Char.isDigit = true)
    (hc : c.all Char.isDigit = true)
    (ho : o.all Char.isDigit = true)
    (hone : o ≠ [])
    : scanNum lblOptimality (mkAnalysisBlock a c o d p w s obs sugs) = some o := by
  unfold scanNum
  rw [show mkAnalysisBlock a c o d p w s obs sugs
      = ((lblAwkScore ++ ((" ").toList)) ++ (a ++ ((((("\n").toList) ++ lblComplexity) ++ ((" ").toList)) ++ (c ++ ((("\n").toList) ++ (lblOptimality ++ (((" ").toList) ++ (o ++ ((("\n\n").toList) ++ (lblDialogue ++ (((" ").toList) ++ (d ++ ((("\n").toList) ++ (lblPreparation ++ (((" ").toList) ++ (p ++ ((("\n").toList) ++ (lblAwkAuth ++ (((" ").toList) ++ (w ++ ((("\n").toList) ++ (lblStatCred ++ (((" ").toList) ++ (s ++ ((("\n\n").toList) ++ (obsLbl ++ (((" ").toList) ++ (obs ++ ((("\n\n").toList) ++ (sugLbl ++ (joinSugs sugs))))))))))))))))))))))))))))))) from by
    simp only [mkAnalysisBlock, List.append_assoc]]
  rw [scanWith_skip_chunk (numTryHere lblOptimality) lblOptimality (lblAwkScore ++ ((" ").toList))
      (a ++ ((((("\n").toList) ++ lblComplexity) ++ ((" ").toList)) ++ (c ++ ((("\n").toList) ++ (lblOptimality ++ (((" ").toList) ++ (o ++ ((("\n\n").toList) ++ (lblDialogue ++ (((" ").toList) ++ (d ++ ((("\n").toList) ++ (lblPreparation ++ (((" ").toList) ++ (p ++ ((("\n").toList) ++ (lblAwkAuth ++ (((" ").toList) ++ (w ++ ((("\n").toList) ++ (lblStatCred ++ (((" ").toList) ++ (s ++ ((("\n\n").toList) ++ (obsLbl ++ (((" ").toList) ++ (obs ++ ((("\n\n").toList) ++ (sugLbl ++ (joinSugs sugs))))))))))))))))))))))))))))))
      (numTryHere_none lblOptimality) (no_prefix_lit_nospan lblOptimality (lblAwkScore ++ ((" ").toList))
      (a ++ ((((("\n").toList) ++ lblComplexity) ++ ((" ").toList)) ++ (c ++ ((("\n").toList) ++ (lblOptimality ++ (((" ").toList) ++ (o ++ ((("\n\n").toList) ++ (lblDialogue ++ (((" ").toList) ++ (d ++ ((("\n").toList) ++ (lblPreparation ++ (((" ").toList) ++ (p ++ ((("\n").toList) ++ (lblAwkAuth ++ (((" ").toList) ++ (w ++ ((("\n").toList) ++ (lblStatCred ++ (((" ").toList) ++ (s ++ ((("\n\n").toList) ++ (obsLbl ++ (((" ").toList) ++ (obs ++ ((("\n\n").toList) ++ (sugLbl ++ (joinSugs sugs))))))))))))))))))))))))))))))
      (by decide) (by decide))]
  rw [scanWith_skip_chunk (numTryHere lblOptimality) lblOptimality a
      ((((("\n").toList) ++ lblComplexity) ++ ((" ").toList)) ++ (c ++ ((("\n").toList) ++ (lblOptimality ++ (((" ").toList) ++ (o ++ ((("\n\n").toList) ++ (lblDialogue ++ (((" ").toList) ++ (d ++ ((("\n").toList) ++ (lblPreparation ++ (((" ").toList) ++ (p ++ ((("\n").toList) ++ (lblAwkAuth ++ (((" ").toList) ++ (w ++ ((("\n").toList) ++ (lblStatCred ++ (((" ").toList) ++ (s ++ ((("\n\n").toList) ++ (obsLbl ++ (((" ").toList) ++ (obs ++ ((("\n\n").toList) ++ (sugLbl ++ (joinSugs sugs)))))))))))))))))))))))))))))
      (numTryHere_none lblOptimality) (no_prefix_digits lblOptimality a
      ((((("\n").toList) ++ lblComplexity) ++ ((" ").toList)) ++ (c ++ ((("\n").toList) ++ (lblOptimality ++ (((" ").toList) ++ (o ++ ((("\n\n").toList) ++ (lblDialogue ++ (((" ").toList) ++ (d ++ ((("\n").toList) ++ (lblPreparation ++ (((" ").toList) ++ (p ++ ((("\n").toList) ++ (lblAwkAuth ++ (((" ").toList) ++ (w ++ ((("\n").toList) ++ (lblStatCred ++ (((" ").toList) ++ (s ++ ((("\n\n").toList) ++ (obsLbl ++ (((" ").toList) ++ (obs ++ ((("\n\n").toList) ++ (sugLbl ++ (joinSugs sugs)))))))))))))))))))))))))))))
      (by decide) (by decide) ha)]
  rw [scanWith_skip_chunk (numTryHere lblOptimality) lblOptimality (((("\n").toList) ++ lblComplexity) ++ ((" ").toList))
      (c ++ ((("\n").toList) ++ (lblOptimality ++ (((" ").toList) ++ (o ++ ((("\n\n").toList) ++ (lblDialogue ++ (((" ").toList) ++ (d ++ ((("\n").toList) ++ (lblPreparation ++ (((" ").toList) ++ (p ++ ((("\n").toList) ++ (lblAwkAuth ++ (((" ").toList) ++ (w ++ ((("\n").toList) ++ (lblStatCred ++ (((" ").toList) ++ (s ++ ((("\n\n").toList) ++ (obsLbl ++ (((" ").toList) ++ (obs ++ ((("\n\n").toList) ++ (sugLbl ++ (joinSugs sugs))))))))))))))))))))))))))))
      (numTryHere_none lblOptimality) (no_prefix_lit_nospan lblOptimality (((("\n").toList) ++ lblComplexity) ++ ((" ").toList))
      (c ++ ((("\n").toList) ++ (lblOptimality ++ (((" ").toList) ++ (o ++ ((("\n\n").toList) ++ (lblDialogue ++ (((" ").toList) ++ (d ++ ((("\n").toList) ++ (lblPreparation ++ (((" ").toList) ++ (p ++ ((("\n").toList) ++ (lblAwkAuth ++ (((" ").toList) ++ (w ++ ((("\n").toList) ++ (lblStatCred ++ (((" ").toList) ++ (s ++ ((("\n\n").toList) ++ (obsLbl ++ (((" ").toList) ++ (obs ++ ((("\n\n").toList) ++ (sugLbl ++ (joinSugs sugs))))))))))))))))))))))))))))
      (by decide) (by decide))]
  rw [scanWith_skip_chunk (numTryHere lblOptimality) lblOptimality c
      ((("\n").toList) ++ (lblOptimality ++ (((" ").toList) ++ (o ++ ((("\n\n").toList) ++ (lblDialogue ++ (((" ").toList) ++ (d ++ ((("\n").toList) ++ (lblPreparation ++ (((" ").toList) ++ (p ++ ((("\n").toList) ++ (lblAwkAuth ++ (((" ").toList) ++ (w ++ ((("\n").toList) ++ (lblStatCred ++ (((" ").toList) ++ (s ++ ((("\n\n").toList) ++ (obsLbl ++ (((" ").toList) ++ (obs ++ ((("\n\n").toList) ++ (sugLbl ++ (joinSugs sugs)))))))))))))))))))))))))))
      (numTryHere_none lblOptimality) (no_prefix_digits lblOptimality c
      ((("\n").toList) ++ (lblOptimality ++ (((" ").toList) ++ (o ++ ((("\n\n").toList) ++ (lblDialogue ++ (((" ").toList) ++ (d ++ ((("\n").toList) ++ (lblPreparation ++ (((" ").toList) ++ (p ++ ((("\n").toList) ++ (lblAwkAuth ++ (((" ").toList) ++ (w ++ ((("\n").toList) ++ (lblStatCred ++ (((" ").toList) ++ (s ++ ((("\n\n").toList) ++ (obsLbl ++ (((" ").toList) ++ (obs ++ ((("\n\n").toList) ++ (sugLbl ++ (joinSugs sugs)))))))))))))))))))))))))))
      (by decide) (by decide) hc)]
  rw [scanWith_skip_chunk (numTryHere lblOptimality) lblOptimality (("\n").toList)
      (lblOptimality ++ (((" ").toList) ++ (o ++ ((("\n\n").toList) ++ (lblDialogue ++ (((" ").toList) ++ (d ++ ((("\n").toList) ++ (lblPreparation ++ (((" ").toList) ++ (p ++ ((("\n").toList) ++ (lblAwkAuth ++ (((" ").toList) ++ (w ++ ((("\n").toList) ++ (lblStatCred ++ (((" ").toList) ++ (s ++ ((("\n\n").toList) ++ (obsLbl ++ (((" ").toList) ++ (obs ++ ((("\n\n").toList) ++ (sugLbl ++ (joinSugs sugs))))))))))))))))))))))))))
      (numTryHere_none lblOptimality) (no_prefix_lit_nospan lblOptimality (("\n").toList)
      (lblOptimality ++ (((" ").toList) ++ (o ++ ((("\n\n").toList) ++ (lblDialogue ++ (((" ").toList) ++ (d ++ ((("\n").toList) ++ (lblPreparation ++ (((" ").toList) ++ (p ++ ((("\n").toList) ++ (lblAwkAuth ++ (((" ").toList) ++ (w ++ ((("\n").toList) ++ (lblStatCred ++ (((" ").toList) ++ (s ++ ((("\n\n").toList) ++ (obsLbl ++ (((" ").toList) ++ (obs ++ ((("\n\n").toList) ++ (sugLbl ++ (joinSugs sugs))))))))))))))))))))))))))
      (by decide) (by decide))]
  exact scanWith_eq_of_tryH_some _ _ _
    (numTryHere_at lblOptimality ((" ").toList) o
      ((("\n\n").toList) ++ (lblDialogue ++ (((" ").toList) ++ (d ++ ((("\n").toList) ++ (lblPreparation ++ (((" ").toList) ++ (p ++ ((("\n").toList) ++ (lblAwkAuth ++ (((" ").toList) ++ (w ++ ((("\n").toList) ++ (lblStatCred ++ (((" ").toList) ++ (s ++ ((("\n\n").toList) ++ (obsLbl ++ (((" ").toList) ++ (obs ++ ((("\n\n").toList) ++ (sugLbl ++ (joinSugs sugs)))))))))))))))))))))))
      (by decide) ho hone (by rfl))

theorem scan_block_dialogue (a c o d p w s obs : List Char) (sugs : List (List Char))
    (ha : a.all Char.isDigit = true)
    (hc : c.all Char.isDigit = true)
    (ho : o.all Char.isDigit = true)
    (hd : d.all Char.isDigit = true)
    (hdne : d ≠ [])
    : scanNum lblDialogue (mkAnalysisBlock a c o d p w s obs sugs) = some d := by
  unfold scanNum
  rw [show mkAnalysisBlock a c o d p w s obs sugs
      = ((lblAwkScore ++ ((" ").toList)) ++ (a ++ ((((("\n").toList) ++ lblComplexity) ++ ((" ").toList)) ++ (c ++ ((((("\n").toList) ++ lblOptimality) ++ ((" ").toList)) ++ (o ++ ((("\n\n").toList) ++ (lblDialogue ++ (((" ").toList) ++ (d ++ ((("\n").toList) ++ (lblPreparation ++ (((" ").toList) ++ (p ++ ((("\n").toList) ++ (lblAwkAuth ++ (((" ").toList) ++ (w ++ ((("\n").toList) ++ (lblStatCred ++ (((" ").toList) ++ (s ++ ((("\n\n").toList) ++ (obsLbl ++ (((" ").toList) ++ (obs ++ ((("\n\n").toList) ++ (sugLbl ++ (joinSugs sugs))))))))))))))))))))))))))))) from by
    simp only [mkAnalysisBlock, List.append_assoc]]
  rw [scanWith_skip_chunk (numTryHere lblDialogue) lblDialogue (lblAwkScore ++ ((" ").toList))
      (a ++ ((((("\n").toList) ++ lblComplexity) ++ ((" ").toList)) ++ (c ++ ((((("\n").toList) ++ lblOptimality) ++ ((" ").toList)) ++ (o ++ ((("\n\n").toList) ++ (lblDialogue ++ (((" ").toList) ++ (d ++ ((("\n").toList) ++ (lblPreparation ++ (((" ").toList) ++ (p ++ ((("\n").toList) ++ (lblAwkAuth ++ (((" ").toList) ++ (w ++ ((("\n").toList) ++ (lblStatCred ++ (((" ").toList) ++ (s ++ ((("\n\n").toList) ++ (obsLbl ++ (((" ").toList) ++ (obs ++ ((("\n\n").toList) ++ (sugLbl ++ (joinSugs sugs))))))))))))))))))))))))))))
      (numTryHere_none lblDialogue) (no_prefix_lit_nospan lblDialogue (lblAwkScore ++ ((" ").toList))
      (a ++ ((((("\n").toList) ++ lblComplexity) ++ ((" ").toList)) ++ (c ++ ((((("\n").toList) ++ lblOptimality) ++ ((" ").toList)) ++ (o ++ ((("\n\n").toList) ++ (lblDialogue ++ (((" ").toList) ++ (d ++ ((("\n").toList) ++ (lblPreparation ++ (((" ").toList) ++ (p ++ ((("\n").toList) ++ (lblAwkAuth ++ (((" ").toList) ++ (w ++ ((("\n").toList) ++ (lblStatCred ++ (((" ").toList) ++ (s ++ ((("\n\n").toList) ++ (obsLbl ++ (((" ").toList) ++ (obs ++ ((("\n\n").toList) ++ (sugLbl ++ (joinSugs sugs))))))))))))))))))))))))))))
      (by decide) (by decide))]
  rw [scanWith_skip_chunk (numTryHere lblDialogue) lblDialogue a
      ((((("\n").toList) ++ lblComplexity) ++ ((" ").toList)) ++ (c ++ ((((("\n").toList) ++ lblOptimality) ++ ((" ").toList)) ++ (o ++ ((("\n\n").toList) ++ (lblDialogue ++ (((" ").toList) ++ (d ++ ((("\n").toList) ++ (lblPreparation ++ (((" ").toList) ++ (p ++ ((("\n").toList) ++ (lblAwkAuth ++ (((" ").toList) ++ (w ++ ((("\n").toList) ++ (lblStatCred ++ (((" ").toList) ++ (s ++ ((("\n\n").toList) ++ (obsLbl ++ (((" ").toList) ++ (obs ++ ((("\n\n").toList) ++ (sugLbl ++ (joinSugs sugs)))))))))))))))))))))))))))
      (numTryHere_none lblDialogue) (no_prefix_digits lblDialogue a
      ((((("\n").toList) ++ lblComplexity) ++ ((" ").toList)) ++ (c ++ ((((("\n").toList) ++ lblOptimality) ++ ((" ").toList)) ++ (o ++ ((("\n\n").toList) ++ (lblDialogue ++ (((" ").toList) ++ (d ++ ((("\n").toList) ++ (lblPreparation ++ (((" ").toList) ++ (p ++ ((("\n").toList) ++ (lblAwkAuth ++ (((" ").toList) ++ (w ++ ((("\n").toList) ++ (lblStatCred ++ (((" ").toList) ++ (s ++ ((("\n\n").toList) ++ (obsLbl ++ (((" ").toList) ++ (obs ++ ((("\n\n").toList) ++ (sugLbl ++ (joinSugs sugs)))))))))))))))))))))))))))
      (by decide) (by decide) ha)]
  rw [scanWith_skip_chunk (numTryHere lblDialogue) lblDialogue (((("\n").toList) ++ lblComplexity) ++ ((" ").toList))
      (c ++ ((((("\n").toList) ++ lblOptimality) ++ ((" ").toList)) ++ (o ++ ((("\n\n").toList) ++ (lblDialogue ++ (((" ").toList) ++ (d ++ ((("\n").toList) ++ (lblPreparation ++ (((" ").toList) ++ (p ++ ((("\n").toList) ++ (lblAwkAuth ++ (((" ").toList) ++ (w ++ ((("\n").toList) ++ (lblStatCred ++ (((" ").toList) ++ (s ++ ((("\n\n").toList) ++ (obsLbl ++ (((" ").toList) ++ (obs ++ ((("\n\n").toList) ++ (sugLbl ++ (joinSugs sugs))))))))))))))))))))))))))
      (numTryHere_none lblDialogue) (no_prefix_lit_nospan lblDialogue (((("\n").toList) ++ lblComplexity) ++ ((" ").toList))
      (c ++ ((((("\n").toList) ++ lblOptimality) ++ ((" ").toList)) ++ (o ++ ((("\n\n").toList) ++ (lblDialogue ++ (((" ").toList) ++ (d ++ ((("\n").toList) ++ (lblPreparation ++ (((" ").toList) ++ (p ++ ((("\n").toList) ++ (lblAwkAuth ++ (((" ").toList) ++ (w ++ ((("\n").toList) ++ (lblStatCred ++ (((" ").toList) ++ (s ++ ((("\n\n").toList) ++ (obsLbl ++ (((" ").toList) ++ (obs ++ ((("\n\n").toList) ++ (sugLbl ++ (joinSugs sugs))))))))))))))))))))))))))
      (by decide) (by decide))]
  rw [scanWith_skip_chunk (numTryHere lblDialogue) lblDialogue c
      ((((("\n").toList) ++ lblOptimality) ++ ((" ").toList)) ++ (o ++ ((("\n\n").toList) ++ (lblDialogue ++ (((" ").toList) ++ (d ++ ((("\n").toList) ++ (lblPreparation ++ (((" ").toList) ++ (p ++ ((("\n").toList) ++ (lblAwkAuth ++ (((" ").toList) ++ (w ++ ((("\n").toList) ++ (lblStatCred ++ (((" ").toList) ++ (s ++ ((("\n\n").toList) ++ (obsLbl ++ (((" ").toList) ++ (obs ++ ((("\n\n").toList) ++ (sugLbl ++ (joinSugs sugs)))))))))))))))))))))))))
      (numTryHere_none lblDialogue) (no_prefix_digits lblDialogue c
      ((((("\n").toList) ++ lblOptimality) ++ ((" ").toList)) ++ (o ++ ((("\n\n").toList) ++ (lblDialogue ++ (((" ").toList) ++ (d ++ ((("\n").toList) ++ (lblPreparation ++ (((" ").toList) ++ (p ++ ((("\n").toList) ++ (lblAwkAuth ++ (((" ").toList) ++ (w ++ ((("\n").toList) ++ (lblStatCred ++ (((" ").toList) ++ (s ++ ((("\n\n").toList) ++ (obsLbl ++ (((" ").toList) ++ (obs ++ ((("\n\n").toList) ++ (sugLbl ++ (joinSugs sugs)))))))))))))))))))))))))
      (by decide) (by decide) hc)]
  rw [scanWith_skip_chunk (numTryHere lblDialogue) lblDialogue (((("\n").toList) ++ lblOptimality) ++ ((" ").toList))
      (o ++ ((("\n\n").toList) ++ (lblDialogue ++ (((" ").toList) ++ (d ++ ((("\n").toList) ++ (lblPreparation ++ (((" ").toList) ++ (p ++ ((("\n").toList) ++ (lblAwkAuth ++ (((" ").toList) ++ (w ++ ((("\n").toList) ++ (lblStatCred ++ (((" ").toList) ++ (s ++ ((("\n\n").toList) ++ (obsLbl ++ (((" ").toList) ++ (obs ++ ((("\n\n").toList) ++ (sugLbl ++ (joinSugs sugs))))))))))))))))))))))))
      (numTryHere_none lblDialogue) (no_prefix_lit_nospan lblDialogue (((("\n").toList) ++ lblOptimality) ++ ((" ").toList))
      (o ++ ((("\n\n").toList) ++ (lblDialogue ++ (((" ").toList) ++ (d ++ ((("\n").toList) ++ (lblPreparation ++ (((" ").toList) ++ (p ++ ((("\n").toList) ++ (lblAwkAuth ++ (((" ").toList) ++ (w ++ ((("\n").toList) ++ (lblStatCred ++ (((" ").toList) ++ (s ++ ((("\n\n").toList) ++ (obsLbl ++ (((" ").toList) ++ (obs ++ ((("\n\n").toList) ++ (sugLbl ++ (joinSugs sugs))))))))))))))))))))))))
      (by decide) (by decide))]
  rw [scanWith_skip_chunk (numTryHere lblDialogue) lblDialogue o
      ((("\n\n").toList) ++ (lblDialogue ++ (((" ").toList) ++ (d ++ ((("\n").toList) ++ (lblPreparation ++ (((" ").toList) ++ (p ++ ((("\n").toList) ++ (lblAwkAuth ++ (((" ").toList) ++ (w ++ ((("\n").toList) ++ (lblStatCred ++ (((" ").toList) ++ (s ++ ((("\n\n").toList) ++ (obsLbl ++ (((" ").toList) ++ (obs ++ ((("\n\n").toList) ++ (sugLbl ++ (joinSugs sugs)))))))))))))))))))))))
      (numTryHere_none lblDialogue) (no_prefix_digits lblDialogue o
      ((("\n\n").toList) ++ (lblDialogue ++ (((" ").toList) ++ (d ++ ((("\n").toList) ++ (lblPreparation ++ (((" ").toList) ++ (p ++ ((("\n").toList) ++ (lblAwkAuth ++ (((" ").toList) ++ (w ++ ((("\n").toList) ++ (lblStatCred ++ (((" ").toList) ++ (s ++ ((("\n\n").toList) ++ (obsLbl ++ (((" ").toList) ++ (obs ++ ((("\n\n").toList) ++ (sugLbl ++ (joinSugs sugs)))))))))))))))))))))))
      (by decide) (by decide) ho)]
  rw [scanWith_skip_chunk (numTryHere lblDialogue) lblDialogue (("\n\n").toList)
      (lblDialogue ++ (((" ").toList) ++ (d ++ ((("\n").toList) ++ (lblPreparation ++ (((" ").toList) ++ (p ++ ((("\n").toList) ++ (lblAwkAuth ++ (((" ").toList) ++ (w ++ ((("\n").toList) ++ (lblStatCred ++ (((" ").toList) ++ (s ++ ((("\n\n").toList) ++ (obsLbl ++ (((" ").toList) ++ (obs ++ ((("\n\n").toList) ++ (sugLbl ++ (joinSugs sugs))))))))))))))))))))))
      (numTryHere_none lblDialogue) (no_prefix_lit_nospan lblDialogue (("\n\n").toList)
      (lblDialogue ++ (((" ").toList) ++ (d ++ ((("\n").toList) ++ (lblPreparation ++ (((" ").toList) ++ (p ++ ((("\n").toList) ++ (lblAwkAuth ++ (((" ").toList) ++ (w ++ ((("\n").toList) ++ (lblStatCred ++ (((" ").toList) ++ (s ++ ((("\n\n").toList) ++ (obsLbl ++ (((" ").toList) ++ (obs ++ ((("\n\n").toList) ++ (sugLbl ++ (joinSugs sugs))))))))))))))))))))))
      (by decide) (by decide))]
  exact scanWith_eq_of_tryH_some _ _ _
    (numTryHere_at lblDialogue ((" ").toList) d
      ((("\n").toList) ++ (lblPreparation ++ (((" ").toList) ++ (p ++ ((("\n").toList) ++ (lblAwkAuth ++ (((" ").toList) ++ (w ++ ((("\n").toList) ++ (lblStatCred ++ (((" ").toList) ++ (s ++ ((("\n\n").toList) ++ (obsLbl ++ (((" ").toList) ++ (obs ++ ((("\n\n").toList) ++ (sugLbl ++ (joinSugs sugs)))))))))))))))))))
      (by decide) hd hdne (by rfl))

theorem scan_block_preparation (a c o d p w s obs : List Char) (sugs : List (List Char))
    (ha : a.all Char.isDigit = true)
    (hc : c.all Char.isDigit = true)
    (ho : o.all Char.isDigit = true)
    (hd : d.all Char.isDigit = true)
    (hp : p.all Char.isDigit = true)
    (hpne : p ≠ [])
    : scanNum lblPreparation (mkAnalysisBlock a c o d p w s obs sugs) = some p := by
  unfold scanNum
  rw [show mkAnalysisBlock a c o d p w s obs sugs
      = ((lblAwkScore ++ ((" ").toList)) ++ (a ++ ((((("\n").toList) ++ lblComplexity) ++ ((" ").toList)) ++ (c ++ ((((("\n").toList) ++ lblOptimality) ++ ((" ").toList)) ++ (o ++ ((((("\n\n").toList) ++ lblDialogue) ++ ((" ").toList)) ++ (d ++ ((("\n").toList) ++ (lblPreparation ++ (((" ").toList) ++ (p ++ ((("\n").toList) ++ (lblAwkAuth ++ (((" ").toList) ++ (w ++ ((("\n").toList) ++ (lblStatCred ++ (((" ").toList) ++ (s ++ ((("\n\n").toList) ++ (obsLbl ++ (((" ").toList) ++ (obs ++ ((("\n\n").toList) ++ (sugLbl ++ (joinSugs sugs))))))))))))))))))))))))))) from by
    simp only [mkAnalysisBlock, List.append_assoc]]
  rw [scanWith_skip_chunk (numTryHere lblPreparation) lblPreparation (lblAwkScore ++ ((" ").toList))
      (a ++ ((((("\n").toList) ++ lblComplexity) ++ ((" ").toList)) ++ (c ++ ((((("\n").toList) ++ lblOptimality) ++ ((" ").toList)) ++ (o ++ ((((("\n\n").toList) ++ lblDialogue) ++ ((" ").toList)) ++ (d ++ ((("\n").toList) ++ (lblPreparation ++ (((" ").toList) ++ (p ++ ((("\n").toList) ++ (lblAwkAuth ++ (((" ").toList) ++ (w ++ ((("\n").toList) ++ (lblStatCred ++ (((" ").toList) ++ (s ++ ((("\n\n").toList) ++ (obsLbl ++ (((" ").toList) ++ (obs ++ ((("\n\n").toList) ++ (sugLbl ++ (joinSugs sugs))))))))))))))))))))))))))
      (numTryHere_none lblPreparation) (no_prefix_lit_nospan lblPreparation (lblAwkScore ++ ((" ").toList))
      (a ++ ((((("\n").toList) ++ lblComplexity) ++ ((" ").toList)) ++ (c ++ ((((("\n").toList) ++ lblOptimality) ++ ((" ").toList)) ++ (o ++ ((((("\n\n").toList) ++ lblDialogue) ++ ((" ").toList)) ++ (d ++ ((("\n").toList) ++ (lblPreparation ++ (((" ").toList) ++ (p ++ ((("\n").toList) ++ (lblAwkAuth ++ (((" ").toList) ++ (w ++ ((("\n").toList) ++ (lblStatCred ++ (((" ").toList) ++ (s ++ ((("\n\n").toList) ++ (obsLbl ++ (((" ").toList) ++ (obs ++ ((("\n\n").toList) ++ (sugLbl ++ (joinSugs sugs))))))))))))))))))))))))))
      (by decide) (by decide))]
  rw [scanWith_skip_chunk (numTryHere lblPreparation) lblPreparation a
      ((((("\n").toList) ++ lblComplexity) ++ ((" ").toList)) ++ (c ++ ((((("\n").toList) ++ lblOptimality) ++ ((" ").toList)) ++ (o ++ ((((("\n\n").toList) ++ lblDialogue) ++ ((" ").toList)) ++ (d ++ ((("\n").toList) ++ (lblPreparation ++ (((" ").toList) ++ (p ++ ((("\n").toList) ++ (lblAwkAuth ++ (((" ").toList) ++ (w ++ ((("\n").toList) ++ (lblStatCred ++ (((" ").toList) ++ (s ++ ((("\n\n").toList) ++ (obsLbl ++ (((" ").toList) ++ (obs ++ ((("\n\n").toList) ++ (sugLbl ++ (joinSugs sugs)))))))))))))))))))))))))
      (numTryHere_none lblPreparation) (no_prefix_digits lblPreparation a
      ((((("\n").toList) ++ lblComplexity) ++ ((" ").toList)) ++ (c ++ ((((("\n").toList) ++ lblOptimality) ++ ((" ").toList)) ++ (o ++ ((((("\n\n").toList) ++ lblDialogue) ++ ((" ").toList)) ++ (d ++ ((("\n").toList) ++ (lblPreparation ++ (((" ").toList) ++ (p ++ ((("\n").toList) ++ (lblAwkAuth ++ (((" ").toList) ++ (w ++ ((("\n").toList) ++ (lblStatCred ++ (((" ").toList) ++ (s ++ ((("\n\n").toList) ++ (obsLbl ++ (((" ").toList) ++ (obs ++ ((("\n\n").toList) ++ (sugLbl ++ (joinSugs sugs)))))))))))))))))))))))))
      (by decide) (by decide) ha)]
  rw [scanWith_skip_chunk (numTryHere lblPreparation) lblPreparation (((("\n").toList) ++ lblComplexity) ++ ((" ").toList))
      (c ++ ((((("\n").toList) ++ lblOptimality) ++ ((" ").toList)) ++ (o ++ ((((("\n\n").toList) ++ lblDialogue) ++ ((" ").toList)) ++ (d ++ ((("\n").toList) ++ (lblPreparation ++ (((" ").toList) ++ (p ++ ((("\n").toList) ++ (lblAwkAuth ++ (((" ").toList) ++ (w ++ ((("\n").toList) ++ (lblStatCred ++ (((" ").toList) ++ (s ++ ((("\n\n").toList) ++ (obsLbl ++ (((" ").toList) ++ (obs ++ ((("\n\n").toList) ++ (sugLbl ++ (joinSugs sugs))))))))))))))))))))))))
      (numTryHere_none lblPreparation) (no_prefix_lit_nospan lblPreparation (((("\n").toList) ++ lblComplexity) ++ ((" ").toList))
      (c ++ ((((("\n").toList) ++ lblOptimality) ++ ((" ").toList)) ++ (o ++ ((((("\n\n").toList) ++ lblDialogue) ++ ((" ").toList)) ++ (d ++ ((("\n").toList) ++ (lblPreparation ++ (((" ").toList) ++ (p ++ ((("\n").toList) ++ (lblAwkAuth ++ (((" ").toList) ++ (w ++ ((("\n").toList) ++ (lblStatCred ++ (((" ").toList) ++ (s ++ ((("\n\n").toList) ++ (obsLbl ++ (((" ").toList) ++ (obs ++ ((("\n\n").toList) ++ (sugLbl ++ (joinSugs sugs))))))))))))))))))))))))
      (by decide) (by decide))]
  rw [scanWith_skip_chunk (numTryHere lblPreparation) lblPreparation c
      ((((("\n").toList) ++ lblOptimality) ++ ((" ").toList)) ++ (o ++ ((((("\n\n").toList) ++ lblDialogue) ++ ((" ").toList)) ++ (d ++ ((("\n").toList) ++ (lblPreparation ++ (((" ").toList) ++ (p ++ ((("\n").toList) ++ (lblAwkAuth ++ (((" ").toList) ++ (w ++ ((("\n").toList) ++ (lblStatCred ++ (((" ").toList) ++ (s ++ ((("\n\n").toList) ++ (obsLbl ++ (((" ").toList) ++ (obs ++ ((("\n\n").toList) ++ (sugLbl ++ (joinSugs sugs)))))))))))))))))))))))
      (numTryHere_none lblPreparation) (no_prefix_digits lblPreparation c
      ((((("\n").toList) ++ lblOptimality) ++ ((" ").toList)) ++ (o ++ ((((("\n\n").toList) ++ lblDialogue) ++ ((" ").toList)) ++ (d ++ ((("\n").toList) ++ (lblPreparation ++ (((" ").toList) ++ (p ++ ((("\n").toList) ++ (lblAwkAuth ++ (((" ").toList) ++ (w ++ ((("\n").toList) ++ (lblStatCred ++ (((" ").toList) ++ (s ++ ((("\n\n").toList) ++ (obsLbl ++ (((" ").toList) ++ (obs ++ ((("\n\n").toList) ++ (sugLbl ++ (joinSugs sugs)))))))))))))))))))))))
      (by decide) (by decide) hc)]
  rw [scanWith_skip_chunk (numTryHere lblPreparation) lblPreparation (((("\n").toList) ++ lblOptimality) ++ ((" ").toList))
      (o ++ ((((("\n\n").toList) ++ lblDialogue) ++ ((" ").toList)) ++ (d ++ ((("\n").toList) ++ (lblPreparation ++ (((" ").toList) ++ (p ++ ((("\n").toList) ++ (lblAwkAuth ++ (((" ").toList) ++ (w ++ ((("\n").toList) ++ (lblStatCred ++ (((" ").toList) ++ (s ++ ((("\n\n").toList) ++ (obsLbl ++ (((" ").toList) ++ (obs ++ ((("\n\n").toList) ++ (sugLbl ++ (joinSugs sugs))))))))))))))))))))))
      (numTryHere_none lblPreparation) (no_prefix_lit_nospan lblPreparation (((("\n").toList) ++ lblOptimality) ++ ((" ").toList))
      (o ++ ((((("\n\n").toList) ++ lblDialogue) ++ ((" ").toList)) ++ (d ++ ((("\n").toList) ++ (lblPreparation ++ (((" ").toList) ++ (p ++ ((("\n").toList) ++ (lblAwkAuth ++ (((" ").toList) ++ (w ++ ((("\n").toList) ++ (lblStatCred ++ (((" ").toList) ++ (s ++ ((("\n\n").toList) ++ (obsLbl ++ (((" ").toList) ++ (obs ++ ((("\n\n").toList) ++ (sugLbl ++ (joinSugs sugs))))))))))))))))))))))
      (by decide) (by decide))]
  rw [scanWith_skip_chunk (numTryHere lblPreparation) lblPreparation o
      ((((("\n\n").toList) ++ lblDialogue) ++ ((" ").toList)) ++ (d ++ ((("\n").toList) ++ (lblPreparation ++ (((" ").toList) ++ (p ++ ((("\n").toList) ++ (lblAwkAuth ++ (((" ").toList) ++ (w ++ ((("\n").toList) ++ (lblStatCred ++ (((" ").toList) ++ (s ++ ((("\n\n").toList) ++ (obsLbl ++ (((" ").toList) ++ (obs ++ ((("\n\n").toList) ++ (sugLbl ++ (joinSugs sugs)))))))))))))))))))))
      (numTryHere_none lblPreparation) (no_prefix_digits lblPreparation o
      ((((("\n\n").toList) ++ lblDialogue) ++ ((" ").toList)) ++ (d ++ ((("\n").toList) ++ (lblPreparation ++ (((" ").toList) ++ (p ++ ((("\n").toList) ++ (lblAwkAuth ++ (((" ").toList) ++ (w ++ ((("\n").toList) ++ (lblStatCred ++ (((" ").toList) ++ (s ++ ((("\n\n").toList) ++ (obsLbl ++ (((" ").toList) ++ (obs ++ ((("\n\n").toList) ++ (sugLbl ++ (joinSugs sugs)))))))))))))))))))))
      (by decide) (by decide) ho)]
  rw [scanWith_skip_chunk (numTryHere lblPreparation) lblPreparation (((("\n\n").toList) ++ lblDialogue) ++ ((" ").toList))
      (d ++ ((("\n").toList) ++ (lblPreparation ++ (((" ").toList) ++ (p ++ ((("\n").toList) ++ (lblAwkAuth ++ (((" ").toList) ++ (w ++ ((("\n").toList) ++ (lblStatCred ++ (((" ").toList) ++ (s ++ ((("\n\n").toList) ++ (obsLbl ++ (((" ").toList) ++ (obs ++ ((("\n\n").toList) ++ (sugLbl ++ (joinSugs sugs))))))))))))))))))))
      (numTryHere_none lblPreparation) (no_prefix_lit_nospan lblPreparation (((("\n\n").toList) ++ lblDialogue) ++ ((" ").toList))
      (d ++ ((("\n").toList) ++ (lblPreparation ++ (((" ").toList) ++ (p ++ ((("\n").toList) ++ (lblAwkAuth ++ (((" ").toList) ++ (w ++ ((("\n").toList) ++ (lblStatCred ++ (((" ").toList) ++ (s ++ ((("\n\n").toList) ++ (obsLbl ++ (((" ").toList) ++ (obs ++ ((("\n\n").toList) ++ (sugLbl ++ (joinSugs sugs))))))))))))))))))))
      (by decide) (by decide))]
  rw [scanWith_skip_chunk (numTryHere lblPreparation) lblPreparation d
      ((("\n").toList) ++ (lblPreparation ++ (((" ").toList) ++ (p ++ ((("\n").toList) ++ (lblAwkAuth ++ (((" ").toList) ++ (w ++ ((("\n").toList) ++ (lblStatCred ++ (((" ").toList) ++ (s ++ ((("\n\n").toList) ++ (obsLbl ++ (((" ").toList) ++ (obs ++ ((("\n\n").toList) ++ (sugLbl ++ (joinSugs sugs)))))))))))))))))))
      (numTryHere_none lblPreparation) (no_prefix_digits lblPreparation d
      ((("\n").toList) ++ (lblPreparation ++ (((" ").toList) ++ (p ++ ((("\n").toList) ++ (lblAwkAuth ++ (((" ").toList) ++ (w ++ ((("\n").toList) ++ (lblStatCred ++ (((" ").toList) ++ (s ++ ((("\n\n").toList) ++ (obsLbl ++ (((" ").toList) ++ (obs ++ ((("\n\n").toList) ++ (sugLbl ++ (joinSugs sugs)))))))))))))))))))
      (by decide) (by decide) hd)]
  rw [scanWith_skip_chunk (numTryHere lblPreparation) lblPreparation (("\n").toList)
      (lblPreparation ++ (((" ").toList) ++ (p ++ ((("\n").toList) ++ (lblAwkAuth ++ (((" ").toList) ++ (w ++ ((("\n").toList) ++ (lblStatCred ++ (((" ").toList) ++ (s ++ ((("\n\n").toList) ++ (obsLbl ++ (((" ").toList) ++ (obs ++ ((("\n\n").toList) ++ (sugLbl ++ (joinSugs sugs))))))))))))))))))
      (numTryHere_none lblPreparation) (no_prefix_lit_nospan lblPreparation (("\n").toList)
      (lblPreparation ++ (((" ").toList) ++ (p ++ ((("\n").toList) ++ (lblAwkAuth ++ (((" ").toList) ++ (w ++ ((("\n").toList) ++ (lblStatCred ++ (((" ").toList) ++ (s ++ ((("\n\n").toList) ++ (obsLbl ++ (((" ").toList) ++ (obs ++ ((("\n\n").toList) ++ (sugLbl ++ (joinSugs sugs))))))))))))))))))
      (by decide) (by decide))]
  exact scanWith_eq_of_tryH_some _ _ _
    (numTryHere_at lblPreparation ((" ").toList) p
      ((("\n").toList) ++ (lblAwkAuth ++ (((" ").toList) ++ (w ++ ((("\n").toList) ++ (lblStatCred ++ (((" ").toList) ++ (s ++ ((("\n\n").toList) ++ (obsLbl ++ (((" ").toList) ++ (obs ++ ((("\n\n").toList) ++ (sugLbl ++ (joinSugs sugs)))))))))))))))
      (by decide) hp hpne (by rfl))

theorem scan_block_awkauth (a c o d p w s obs : List Char) (sugs : List (List Char))
    (ha : a.all Char.isDigit = true)
    (hc : c.all Char.isDigit = true)
    (ho : o.all Char.isDigit = true)
    (hd : d.all Char.isDigit = true)
    (hp : p.all Char.isDigit = true)
    (hw : w.all Char.isDigit = true)
    (hwne : w ≠ [])
    : scanNum lblAwkAuth (mkAnalysisBlock a c o d p w s obs sugs) = some w := by
  unfold scanNum
  rw [show mkAnalysisBlock a c o d p w s obs sugs
      = ((lblAwkScore ++ ((" ").toList)) ++ (a ++ ((((("\n").toList) ++ lblComplexity) ++ ((" ").toList)) ++ (c ++ ((((("\n").toList) ++ lblOptimality) ++ ((" ").toList)) ++ (o ++ ((((("\n\n").toList) ++ lblDialogue) ++ ((" ").toList)) ++ (d ++ ((((("\n").toList) ++ lblPreparation) ++ ((" ").toList)) ++ (p ++ ((("\n").toList) ++ (lblAwkAuth ++ (((" ").toList) ++ (w ++ ((("\n").toList) ++ (lblStatCred ++ (((" ").toList) ++ (s ++ ((("\n\n").toList) ++ (obsLbl ++ (((" ").toList) ++ (obs ++ ((("\n\n").toList) ++ (sugLbl ++ (joinSugs sugs))))))))))))))))))))))))) from by
    simp only [mkAnalysisBlock, List.append_assoc]]
  rw [scanWith_skip_chunk (numTryHere lblAwkAuth) lblAwkAuth (lblAwkScore ++ ((" ").toList))
      (a ++ ((((("\n").toList) ++ lblComplexity) ++ ((" ").toList)) ++ (c ++ ((((("\n").toList) ++ lblOptimality) ++ ((" ").toList)) ++ (o ++ ((((("\n\n").toList) ++ lblDialogue) ++ ((" ").toList)) ++ (d ++ ((((("\n").toList) ++ lblPreparation) ++ ((" ").toList)) ++ (p ++ ((("\n").toList) ++ (lblAwkAuth ++ (((" ").toList) ++ (w ++ ((("\n").toList) ++ (lblStatCred ++ (((" ").toList) ++ (s ++ ((("\n\n").toList) ++ (obsLbl ++ (((" ").toList) ++ (obs ++ ((("\n\n").toList) ++ (sugLbl ++ (joinSugs sugs))))))))))))))))))))))))
      (numTryHere_none lblAwkAuth) (no_prefix_lit_nospan lblAwkAuth (lblAwkScore ++ ((" ").toList))
      (a ++ ((((("\n").toList) ++ lblComplexity) ++ ((" ").toList)) ++ (c ++ ((((("\n").toList) ++ lblOptimality) ++ ((" ").toList)) ++ (o ++ ((((("\n\n").toList) ++ lblDialogue) ++ ((" ").toList)) ++ (d ++ ((((("\n").toList) ++ lblPreparation) ++ ((" ").toList)) ++ (p ++ ((("\n").toList) ++ (lblAwkAuth ++ (((" ").toList) ++ (w ++ ((("\n").toList) ++ (lblStatCred ++ (((" ").toList) ++ (s ++ ((("\n\n").toList) ++ (obsLbl ++ (((" ").toList) ++ (obs ++ ((("\n\n").toList) ++ (sugLbl ++ (joinSugs sugs))))))))))))))))))))))))
      (by decide) (by decide))]
  rw [scanWith_skip_chunk (numTryHere lblAwkAuth) lblAwkAuth a
      ((((("\n").toList) ++ lblComplexity) ++ ((" ").toList)) ++ (c ++ ((((("\n").toList) ++ lblOptimality) ++ ((" ").toList)) ++ (o ++ ((((("\n\n").toList) ++ lblDialogue) ++ ((" ").toList)) ++ (d ++ ((((("\n").toList) ++ lblPreparation) ++ ((" ").toList)) ++ (p ++ ((("\n").toList) ++ (lblAwkAuth ++ (((" ").toList) ++ (w ++ ((("\n").toList) ++ (lblStatCred ++ (((" ").toList) ++ (s ++ ((("\n\n").toList) ++ (obsLbl ++ (((" ").toList) ++ (obs ++ ((("\n\n").toList) ++ (sugLbl ++ (joinSugs sugs)))))))))))))))))))))))
      (numTryHere_none lblAwkAuth) (no_prefix_digits lblAwkAuth a
      ((((("\n").toList) ++ lblComplexity) ++ ((" ").toList)) ++ (c ++ ((((("\n").toList) ++ lblOptimality) ++ ((" ").toList)) ++ (o ++ ((((("\n\n").toList) ++ lblDialogue) ++ ((" ").toList)) ++ (d ++ ((((("\n").toList) ++ lblPreparation) ++ ((" ").toList)) ++ (p ++ ((("\n").toList) ++ (lblAwkAuth ++ (((" ").toList) ++ (w ++ ((("\n").toList) ++ (lblStatCred ++ (((" ").toList) ++ (s ++ ((("\n\n").toList) ++ (obsLbl ++ (((" ").toList) ++ (obs ++ ((("\n\n").toList) ++ (sugLbl ++ (joinSugs sugs)))))))))))))))))))))))
      (by decide) (by decide) ha)]
  rw [scanWith_skip_chunk (numTryHere lblAwkAuth) lblAwkAuth (((("\n").toList) ++ lblComplexity) ++ ((" ").toList))
      (c ++ ((((("\n").toList) ++ lblOptimality) ++ ((" ").toList)) ++ (o ++ ((((("\n\n").toList) ++ lblDialogue) ++ ((" ").toList)) ++ (d ++ ((((("\n").toList) ++ lblPreparation) ++ ((" ").toList)) ++ (p ++ ((("\n").toList) ++ (lblAwkAuth ++ (((" ").toList) ++ (w ++ ((("\n").toList) ++ (lblStatCred ++ (((" ").toList) ++ (s ++ ((("\n\n").toList) ++ (obsLbl ++ (((" ").toList) ++ (obs ++ ((("\n\n").toList) ++ (sugLbl ++ (joinSugs sugs))))))))))))))))))))))
      (numTryHere_none lblAwkAuth) (no_prefix_lit_nospan lblAwkAuth (((("\n").toList) ++ lblComplexity) ++ ((" ").toList))
      (c ++ ((((("\n").toList) ++ lblOptimality) ++ ((" ").toList)) ++ (o ++ ((((("\n\n").toList) ++ lblDialogue) ++ ((" ").toList)) ++ (d ++ ((((("\n").toList) ++ lblPreparation) ++ ((" ").toList)) ++ (p ++ ((("\n").toList) ++ (lblAwkAuth ++ (((" ").toList) ++ (w ++ ((("\n").toList) ++ (lblStatCred ++ (((" ").toList) ++ (s ++ ((("\n\n").toList) ++ (obsLbl ++ (((" ").toList) ++ (obs ++ ((("\n\n").toList) ++ (sugLbl ++ (joinSugs sugs))))))))))))))))))))))
      (by decide) (by decide))]
  rw [scanWith_skip_chunk (numTryHere lblAwkAuth) lblAwkAuth c
      ((((("\n").toList) ++ lblOptimality) ++ ((" ").toList)) ++ (o ++ ((((("\n\n").toList) ++ lblDialogue) ++ ((" ").toList)) ++ (d ++ ((((("\n").toList) ++ lblPreparation) ++ ((" ").toList)) ++ (p ++ ((("\n").toList) ++ (lblAwkAuth ++ (((" ").toList) ++ (w ++ ((("\n").toList) ++ (lblStatCred ++ (((" ").toList) ++ (s ++ ((("\n\n").toList) ++ (obsLbl ++ (((" ").toList) ++ (obs ++ ((("\n\n").toList) ++ (sugLbl ++ (joinSugs sugs)))))))))))))))))))))
      (numTryHere_none lblAwkAuth) (no_prefix_digits lblAwkAuth c
      ((((("\n").toList) ++ lblOptimality) ++ ((" ").toList)) ++ (o ++ ((((("\n\n").toList) ++ lblDialogue) ++ ((" ").toList)) ++ (d ++ ((((("\n").toList) ++ lblPreparation) ++ ((" ").toList)) ++ (p ++ ((("\n").toList) ++ (lblAwkAuth ++ (((" ").toList) ++ (w ++ ((("\n").toList) ++ (lblStatCred ++ (((" ").toList) ++ (s ++ ((("\n\n").toList) ++ (obsLbl ++ (((" ").toList) ++ (obs ++ ((("\n\n").toList) ++ (sugLbl ++ (joinSugs sugs)))))))))))))))))))))
      (by decide) (by decide) hc)]
  rw [scanWith_skip_chunk (numTryHere lblAwkAuth) lblAwkAuth (((("\n").toList) ++ lblOptimality) ++ ((" ").toList))
      (o ++ ((((("\n\n").toList) ++ lblDialogue) ++ ((" ").toList)) ++ (d ++ ((((("\n").toList) ++ lblPreparation) ++ ((" ").toList)) ++ (p ++ ((("\n").toList) ++ (lblAwkAuth ++ (((" ").toList) ++ (w ++ ((("\n").toList) ++ (lblStatCred ++ (((" ").toList) ++ (s ++ ((("\n\n").toList) ++ (obsLbl ++ (((" ").toList) ++ (obs ++ ((("\n\n").toList) ++ (sugLbl ++ (joinSugs sugs))))))))))))))))))))
      (numTryHere_none lblAwkAuth) (no_prefix_lit_nospan lblAwkAuth (((("\n").toList) ++ lblOptimality) ++ ((" ").toList))
      (o ++ ((((("\n\n").toList) ++ lblDialogue) ++ ((" ").toList)) ++ (d ++ ((((("\n").toList) ++ lblPreparation) ++ ((" ").toList)) ++ (p ++ ((("\n").toList) ++ (lblAwkAuth ++ (((" ").toList) ++ (w ++ ((("\n").toList) ++ (lblStatCred ++ (((" ").toList) ++ (s ++ ((("\n\n").toList) ++ (obsLbl ++ (((" ").toList) ++ (obs ++ ((("\n\n").toList) ++ (sugLbl ++ (joinSugs sugs))))))))))))))))))))
      (by decide) (by decide))]
  rw [scanWith_skip_chunk (numTryHere lblAwkAuth) lblAwkAuth o
      ((((("\n\n").toList) ++ lblDialogue) ++ ((" ").toList)) ++ (d ++ ((((("\n").toList) ++ lblPreparation) ++ ((" ").toList)) ++ (p ++ ((("\n").toList) ++ (lblAwkAuth ++ (((" ").toList) ++ (w ++ ((("\n").toList) ++ (lblStatCred ++ (((" ").toList) ++ (s ++ ((("\n\n").toList) ++ (obsLbl ++ (((" ").toList) ++ (obs ++ ((("\n\n").toList) ++ (sugLbl ++ (joinSugs sugs)))))))))))))))))))
      (numTryHere_none lblAwkAuth) (no_prefix_digits lblAwkAuth o
      ((((("\n\n").toList) ++ lblDialogue) ++ ((" ").toList)) ++ (d ++ ((((("\n").toList) ++ lblPreparation) ++ ((" ").toList)) ++ (p ++ ((("\n").toList) ++ (lblAwkAuth ++ (((" ").toList) ++ (w ++ ((("\n").toList) ++ (lblStatCred ++ (((" ").toList) ++ (s ++ ((("\n\n").toList) ++ (obsLbl ++ (((" ").toList) ++ (obs ++ ((("\n\n").toList) ++ (sugLbl ++ (joinSugs sugs)))))))))))))))))))
      (by decide) (by decide) ho)]
  rw [scanWith_skip_chunk (numTryHere lblAwkAuth) lblAwkAuth (((("\n\n").toList) ++ lblDialogue) ++ ((" ").toList))
      (d ++ ((((("\n").toList) ++ lblPreparation) ++ ((" ").toList)) ++ (p ++ ((("\n").toList) ++ (lblAwkAuth ++ (((" ").toList) ++ (w ++ ((("\n").toList) ++ (lblStatCred ++ (((" ").toList) ++ (s ++ ((("\n\n").toList) ++ (obsLbl ++ (((" ").toList) ++ (obs ++ ((("\n\n").toList) ++ (sugLbl ++ (joinSugs sugs))))))))))))))))))
      (numTryHere_none lblAwkAuth) (no_prefix_lit_nospan lblAwkAuth (((("\n\n").toList) ++ lblDialogue) ++ ((" ").toList))
      (d ++ ((((("\n").toList) ++ lblPreparation) ++ ((" ").toList)) ++ (p ++ ((("\n").toList) ++ (lblAwkAuth ++ (((" ").toList) ++ (w ++ ((("\n").toList) ++ (lblStatCred ++ (((" ").toList) ++ (s ++ ((("\n\n").toList) ++ (obsLbl ++ (((" ").toList) ++ (obs ++ ((("\n\n").toList) ++ (sugLbl ++ (joinSugs sugs))))))))))))))))))
      (by decide) (by decide))]
  rw [scanWith_skip_chunk (numTryHere lblAwkAuth) lblAwkAuth d
      ((((("\n").toList) ++ lblPreparation) ++ ((" ").toList)) ++ (p ++ ((("\n").toList) ++ (lblAwkAuth ++ (((" ").toList) ++ (w ++ ((("\n").toList) ++ (lblStatCred ++ (((" ").toList) ++ (s ++ ((("\n\n").toList) ++ (obsLbl ++ (((" ").toList) ++ (obs ++ ((("\n\n").toList) ++ (sugLbl ++ (joinSugs sugs)))))))))))))))))
      (numTryHere_none lblAwkAuth) (no_prefix_digits lblAwkAuth d
      ((((("\n").toList) ++ lblPreparation) ++ ((" ").toList)) ++ (p ++ ((("\n").toList) ++ (lblAwkAuth ++ (((" ").toList) ++ (w ++ ((("\n").toList) ++ (lblStatCred ++ (((" ").toList) ++ (s ++ ((("\n\n").toList) ++ (obsLbl ++ (((" ").toList) ++ (obs ++ ((("\n\n").toList) ++ (sugLbl ++ (joinSugs sugs)))))))))))))))))
      (by decide) (by decide) hd)]
  rw [scanWith_skip_chunk (numTryHere lblAwkAuth) lblAwkAuth (((("\n").toList) ++ lblPreparation) ++ ((" ").toList))
      (p ++ ((("\n").toList) ++ (lblAwkAuth ++ (((" ").toList) ++ (w ++ ((("\n").toList) ++ (lblStatCred ++ (((" ").toList) ++ (s ++ ((("\n\n").toList) ++ (obsLbl ++ (((" ").toList) ++ (obs ++ ((("\n\n").toList) ++ (sugLbl ++ (joinSugs sugs))))))))))))))))
      (numTryHere_none lblAwkAuth) (no_prefix_lit_nospan lblAwkAuth (((("\n").toList) ++ lblPreparation) ++ ((" ").toList))
      (p ++ ((("\n").toList) ++ (lblAwkAuth ++ (((" ").toList) ++ (w ++ ((("\n").toList) ++ (lblStatCred ++ (((" ").toList) ++ (s ++ ((("\n\n").toList) ++ (obsLbl ++ (((" ").toList) ++ (obs ++ ((("\n\n").toList) ++ (sugLbl ++ (joinSugs sugs))))))))))))))))
      (by decide) (by decide))]
  rw [scanWith_skip_chunk (numTryHere lblAwkAuth) lblAwkAuth p
      ((("\n").toList) ++ (lblAwkAuth ++ (((" ").toList) ++ (w ++ ((("\n").toList) ++ (lblStatCred ++ (((" ").toList) ++ (s ++ ((("\n\n").toList) ++ (obsLbl ++ (((" ").toList) ++ (obs ++ ((("\n\n").toList) ++ (sugLbl ++ (joinSugs sugs)))))))))))))))
      (numTryHere_none lblAwkAuth) (no_prefix_digits lblAwkAuth p
      ((("\n").toList) ++ (lblAwkAuth ++ (((" ").toList) ++ (w ++ ((("\n").toList) ++ (lblStatCred ++ (((" ").toList) ++ (s ++ ((("\n\n").toList) ++ (obsLbl ++ (((" ").toList) ++ (obs ++ ((("\n\n").toList) ++ (sugLbl ++ (joinSugs sugs)))))))))))))))
      (by decide) (by decide) hp)]
  rw [scanWith_skip_chunk (numTryHere lblAwkAuth) lblAwkAuth (("\n").toList)
      (lblAwkAuth ++ (((" ").toList) ++ (w ++ ((("\n").toList) ++ (lblStatCred ++ (((" ").toList) ++ (s ++ ((("\n\n").toList) ++ (obsLbl ++ (((" ").toList) ++ (obs ++ ((("\n\n").toList) ++ (sugLbl ++ (joinSugs sugs))))))))))))))
      (numTryHere_none lblAwkAuth) (no_prefix_lit_nospan lblAwkAuth (("\n").toList)
      (lblAwkAuth ++ (((" ").toList) ++ (w ++ ((("\n").toList) ++ (lblStatCred ++ (((" ").toList) ++ (s ++ ((("\n\n").toList) ++ (obsLbl ++ (((" ").toList) ++ (obs ++ ((("\n\n").toList) ++ (sugLbl ++ (joinSugs sugs))))))))))))))
      (by decide) (by decide))]
  exact scanWith_eq_of_tryH_some _ _ _
    (numTryHere_at lblAwkAuth ((" ").toList) w
      ((("\n").toList) ++ (lblStatCred ++ (((" ").toList) ++ (s ++ ((("\n\n").toList) ++ (obsLbl ++ (((" ").toList) ++ (obs ++ ((("\n\n").toList) ++ (sugLbl ++ (joinSugs sugs)))))))))))
      (by decide) hw hwne (by rfl))

theorem scan_block_statcred (a c o d p w s obs : List Char) (sugs : List (List Char))
    (ha : a.all Char.isDigit = true)
    (hc : c.all Char.isDigit = true)
    (ho : o.all Char.isDigit = true)
    (hd : d.all Char.isDigit = true)
    (hp : p.all Char.isDigit = true)
    (hw : w.all Char.isDigit = true)
    (hs : s.all Char.isDigit = true)
    (hsne : s ≠ [])
    : scanNum lblStatCred (mkAnalysisBlock a c o d p w s obs sugs) = some s := by
  unfold scanNum
  rw [show mkAnalysisBlock a c o d p w s obs sugs
      = ((lblAwkScore ++ ((" ").toList)) ++ (a ++ ((((("\n").toList) ++ lblComplexity) ++ ((" ").toList)) ++ (c ++ ((((("\n").toList) ++ lblOptimality) ++ ((" ").toList)) ++ (o ++ ((((("\n\n").toList) ++ lblDialogue) ++ ((" ").toList)) ++ (d ++ ((((("\n").toList) ++ lblPreparation) ++ ((" ").toList)) ++ (p ++ ((((("\n").toList) ++ lblAwkAuth) ++ ((" ").toList)) ++ (w ++ ((("\n").toList) ++ (lblStatCred ++ (((" ").toList) ++ (s ++ ((("\n\n").toList) ++ (obsLbl ++ (((" ").toList) ++ (obs ++ ((("\n\n").toList) ++ (sugLbl ++ (joinSugs sugs))))))))))))))))))))))) from by
    simp only [mkAnalysisBlock, List.append_assoc]]
  rw [scanWith_skip_chunk (numTryHere lblStatCred) lblStatCred (lblAwkScore ++ ((" ").toList))
      (a ++ ((((("\n").toList) ++ lblComplexity) ++ ((" ").toList)) ++ (c ++ ((((("\n").toList) ++ lblOptimality) ++ ((" ").toList)) ++ (o ++ ((((("\n\n").toList) ++ lblDialogue) ++ ((" ").toList)) ++ (d ++ ((((("\n").toList) ++ lblPreparation) ++ ((" ").toList)) ++ (p ++ ((((("\n").toList) ++ lblAwkAuth) ++ ((" ").toList)) ++ (w ++ ((("\n").toList) ++ (lblStatCred ++ (((" ").toList) ++ (s ++ ((("\n\n").toList) ++ (obsLbl ++ (((" ").toList) ++ (obs ++ ((("\n\n").toList) ++ (sugLbl ++ (joinSugs sugs))))))))))))))))))))))
      (numTryHere_none lblStatCred) (no_prefix_lit_nospan lblStatCred (lblAwkScore ++ ((" ").toList))
      (a ++ ((((("\n").toList) ++ lblComplexity) ++ ((" ").toList)) ++ (c ++ ((((("\n").toList) ++ lblOptimality) ++ ((" ").toList)) ++ (o ++ ((((("\n\n").toList) ++ lblDialogue) ++ ((" ").toList)) ++ (d ++ ((((("\n").toList) ++ lblPreparation) ++ ((" ").toList)) ++ (p ++ ((((("\n").toList) ++ lblAwkAuth) ++ ((" ").toList)) ++ (w ++ ((("\n").toList) ++ (lblStatCred ++ (((" ").toList) ++ (s ++ ((("\n\n").toList) ++ (obsLbl ++ (((" ").toList) ++ (obs ++ ((("\n\n").toList) ++ (sugLbl ++ (joinSugs sugs))))))))))))))))))))))
      (by decide) (by decide))]
  rw [scanWith_skip_chunk (numTryHere lblStatCred) lblStatCred a
      ((((("\n").toList) ++ lblComplexity) ++ ((" ").toList)) ++ (c ++ ((((("\n").toList) ++ lblOptimality) ++ ((" ").toList)) ++ (o ++ ((((("\n\n").toList) ++ lblDialogue) ++ ((" ").toList)) ++ (d ++ ((((("\n").toList) ++ lblPreparation) ++ ((" ").toList)) ++ (p ++ ((((("\n").toList) ++ lblAwkAuth) ++ ((" ").toList)) ++ (w ++ ((("\n").toList) ++ (lblStatCred ++ (((" ").toList) ++ (s ++ ((("\n\n").toList) ++ (obsLbl ++ (((" ").toList) ++ (obs ++ ((("\n\n").toList) ++ (sugLbl ++ (joinSugs sugs)))))))))))))))))))))
      (numTryHere_none lblStatCred) (no_prefix_digits lblStatCred a
      ((((("\n").toList) ++ lblComplexity) ++ ((" ").toList)) ++ (c ++ ((((("\n").toList) ++ lblOptimality) ++ ((" ").toList)) ++ (o ++ ((((("\n\n").toList) ++ lblDialogue) ++ ((" ").toList)) ++ (d ++ ((((("\n").toList) ++ lblPreparation) ++ ((" ").toList)) ++ (p ++ ((((("\n").toList) ++ lblAwkAuth) ++ ((" ").toList)) ++ (w ++ ((("\n").toList) ++ (lblStatCred ++ (((" ").toList) ++ (s ++ ((("\n\n").toList) ++ (obsLbl ++ (((" ").toList) ++ (obs ++ ((("\n\n").toList) ++ (sugLbl ++ (joinSugs sugs)))))))))))))))))))))
      (by decide) (by decide) ha)]
  rw [scanWith_skip_chunk (numTryHere lblStatCred) lblStatCred (((("\n").toList) ++ lblComplexity) ++ ((" ").toList))
      (c ++ ((((("\n").toList) ++ lblOptimality) ++ ((" ").toList)) ++ (o ++ ((((("\n\n").toList) ++ lblDialogue) ++ ((" ").toList)) ++ (d ++ ((((("\n").toList) ++ lblPreparation) ++ ((" ").toList)) ++ (p ++ ((((("\n").toList) ++ lblAwkAuth) ++ ((" ").toList)) ++ (w ++ ((("\n").toList) ++ (lblStatCred ++ (((" ").toList) ++ (s ++ ((("\n\n").toList) ++ (obsLbl ++ (((" ").toList) ++ (obs ++ ((("\n\n").toList) ++ (sugLbl ++ (joinSugs sugs))))))))))))))))))))
      (numTryHere_none lblStatCred) (no_prefix_lit_nospan lblStatCred (((("\n").toList) ++ lblComplexity) ++ ((" ").toList))
      (c ++ ((((("\n").toList) ++ lblOptimality) ++ ((" ").toList)) ++ (o ++ ((((("\n\n").toList) ++ lblDialogue) ++ ((" ").toList)) ++ (d ++ ((((("\n").toList) ++ lblPreparation) ++ ((" ").toList)) ++ (p ++ ((((("\n").toList) ++ lblAwkAuth) ++ ((" ").toList)) ++ (w ++ ((("\n").toList) ++ (lblStatCred ++ (((" ").toList) ++ (s ++ ((("\n\n").toList) ++ (obsLbl ++ (((" ").toList) ++ (obs ++ ((("\n\n").toList) ++ (sugLbl ++ (joinSugs sugs))))))))))))))))))))
      (by decide) (by decide))]
  rw [scanWith_skip_chunk (numTryHere lblStatCred) lblStatCred c
      ((((("\n").toList) ++ lblOptimality) ++ ((" ").toList)) ++ (o ++ ((((("\n\n").toList) ++ lblDialogue) ++ ((" ").toList)) ++ (d ++ ((((("\n").toList) ++ lblPreparation) ++ ((" ").toList)) ++ (p ++ ((((("\n").toList) ++ lblAwkAuth) ++ ((" ").toList)) ++ (w ++ ((("\n").toList) ++ (lblStatCred ++ (((" ").toList) ++ (s ++ ((("\n\n").toList) ++ (obsLbl ++ (((" ").toList) ++ (obs ++ ((("\n\n").toList) ++ (sugLbl ++ (joinSugs sugs)))))))))))))))))))
      (numTryHere_none lblStatCred) (no_prefix_digits lblStatCred c
      ((((("\n").toList) ++ lblOptimality) ++ ((" ").toList)) ++ (o ++ ((((("\n\n").toList) ++ lblDialogue) ++ ((" ").toList)) ++ (d ++ ((((("\n").toList) ++ lblPreparation) ++ ((" ").toList)) ++ (p ++ ((((("\n").toList) ++ lblAwkAuth) ++ ((" ").toList)) ++ (w ++ ((("\n").toList) ++ (lblStatCred ++ (((" ").toList) ++ (s ++ ((("\n\n").toList) ++ (obsLbl ++ (((" ").toList) ++ (obs ++ ((("\n\n").toList) ++ (sugLbl ++ (joinSugs sugs)))))))))))))))))))
      (by decide) (by decide) hc)]
  rw [scanWith_skip_chunk (numTryHere lblStatCred) lblStatCred (((("\n").toList) ++ lblOptimality) ++ ((" ").toList))
      (o ++ ((((("\n\n").toList) ++ lblDialogue) ++ ((" ").toList)) ++ (d ++ ((((("\n").toList) ++ lblPreparation) ++ ((" ").toList)) ++ (p ++ ((((("\n").toList) ++ lblAwkAuth) ++ ((" ").toList)) ++ (w ++ ((("\n").toList) ++ (lblStatCred ++ (((" ").toList) ++ (s ++ ((("\n\n").toList) ++ (obsLbl ++ (((" ").toList) ++ (obs ++ ((("\n\n").toList) ++ (sugLbl ++ (joinSugs sugs))))))))))))))))))
      (numTryHere_none lblStatCred) (no_prefix_lit_nospan lblStatCred (((("\n").toList) ++ lblOptimality) ++ ((" ").toList))
      (o ++ ((((("\n\n").toList) ++ lblDialogue) ++ ((" ").toList)) ++ (d ++ ((((("\n").toList) ++ lblPreparation) ++ ((" ").toList)) ++ (p ++ ((((("\n").toList) ++ lblAwkAuth) ++ ((" ").toList)) ++ (w ++ ((("\n").toList) ++ (lblStatCred ++ (((" ").toList) ++ (s ++ ((("\n\n").toList) ++ (obsLbl ++ (((" ").toList) ++ (obs ++ ((("\n\n").toList) ++ (sugLbl ++ (joinSugs sugs))))))))))))))))))
      (by decide) (by decide))]
  rw [scanWith_skip_chunk (numTryHere lblStatCred) lblStatCred o
      ((((("\n\n").toList) ++ lblDialogue) ++ ((" ").toList)) ++ (d ++ ((((("\n").toList) ++ lblPreparation) ++ ((" ").toList)) ++ (p ++ ((((("\n").toList) ++ lblAwkAuth) ++ ((" ").toList)) ++ (w ++ ((("\n").toList) ++ (lblStatCred ++ (((" ").toList) ++ (s ++ ((("\n\n").toList) ++ (obsLbl ++ (((" ").toList) ++ (obs ++ ((("\n\n").toList) ++ (sugLbl ++ (joinSugs sugs)))))))))))))))))
      (numTryHere_none lblStatCred) (no_prefix_digits lblStatCred o
      ((((("\n\n").toList) ++ lblDialogue) ++ ((" ").toList)) ++ (d ++ ((((("\n").toList) ++ lblPreparation) ++ ((" ").toList)) ++ (p ++ ((((("\n").toList) ++ lblAwkAuth) ++ ((" ").toList)) ++ (w ++ ((("\n").toList) ++ (lblStatCred ++ (((" ").toList) ++ (s ++ ((("\n\n").toList) ++ (obsLbl ++ (((" ").toList) ++ (obs ++ ((("\n\n").toList) ++ (sugLbl ++ (joinSugs sugs)))))))))))))))))
      (by decide) (by decide) ho)]
  rw [scanWith_skip_chunk (numTryHere lblStatCred) lblStatCred (((("\n\n").toList) ++ lblDialogue) ++ ((" ").toList))
      (d ++ ((((("\n").toList) ++ lblPreparation) ++ ((" ").toList)) ++ (p ++ ((((("\n").toList) ++ lblAwkAuth) ++ ((" ").toList)) ++ (w ++ ((("\n").toList) ++ (lblStatCred ++ (((" ").toList) ++ (s ++ ((("\n\n").toList) ++ (obsLbl ++ (((" ").toList) ++ (obs ++ ((("\n\n").toList) ++ (sugLbl ++ (joinSugs sugs))))))))))))))))
      (numTryHere_none lblStatCred) (no_prefix_lit_nospan lblStatCred (((("\n\n").toList) ++ lblDialogue) ++ ((" ").toList))
      (d ++ ((((("\n").toList) ++ lblPreparation) ++ ((" ").toList)) ++ (p ++ ((((("\n").toList) ++ lblAwkAuth) ++ ((" ").toList)) ++ (w ++ ((("\n").toList) ++ (lblStatCred ++ (((" ").toList) ++ (s ++ ((("\n\n").toList) ++ (obsLbl ++ (((" ").toList) ++ (obs ++ ((("\n\n").toList) ++ (sugLbl ++ (joinSugs sugs))))))))))))))))
      (by decide) (by decide))]
  rw [scanWith_skip_chunk (numTryHere lblStatCred) lblStatCred d
      ((((("\n").toList) ++ lblPreparation) ++ ((" ").toList)) ++ (p ++ ((((("\n").toList) ++ lblAwkAuth) ++ ((" ").toList)) ++ (w ++ ((("\n").toList) ++ (lblStatCred ++ (((" ").toList) ++ (s ++ ((("\n\n").toList) ++ (obsLbl ++ (((" ").toList) ++ (obs ++ ((("\n\n").toList) ++ (sugLbl ++ (joinSugs sugs)))))))))))))))
      (numTryHere_none lblStatCred) (no_prefix_digits lblStatCred d
      ((((("\n").toList) ++ lblPreparation) ++ ((" ").toList)) ++ (p ++ ((((("\n").toList) ++ lblAwkAuth) ++ ((" ").toList)) ++ (w ++ ((("\n").toList) ++ (lblStatCred ++ (((" ").toList) ++ (s ++ ((("\n\n").toList) ++ (obsLbl ++ (((" ").toList) ++ (obs ++ ((("\n\n").toList) ++ (sugLbl ++ (joinSugs sugs)))))))))))))))
      (by decide) (by decide) hd)]
  rw [scanWith_skip_chunk (numTryHere lblStatCred) lblStatCred (((("\n").toList) ++ lblPreparation) ++ ((" ").toList))
      (p ++ ((((("\n").toList) ++ lblAwkAuth) ++ ((" ").toList)) ++ (w ++ ((("\n").toList) ++ (lblStatCred ++ (((" ").toList) ++ (s ++ ((("\n\n").toList) ++ (obsLbl ++ (((" ").toList) ++ (obs ++ ((("\n\n").toList) ++ (sugLbl ++ (joinSugs sugs))))))))))))))
      (numTryHere_none lblStatCred) (no_prefix_lit_nospan lblStatCred (((("\n").toList) ++ lblPreparation) ++ ((" ").toList))
      (p ++ ((((("\n").toList) ++ lblAwkAuth) ++ ((" ").toList)) ++ (w ++ ((("\n").toList) ++ (lblStatCred ++ (((" ").toList) ++ (s ++ ((("\n\n").toList) ++ (obsLbl ++ (((" ").toList) ++ (obs ++ ((("\n\n").toList) ++ (sugLbl ++ (joinSugs sugs))))))))))))))
      (by decide) (by decide))]
  rw [scanWith_skip_chunk (numTryHere lblStatCred) lblStatCred p
      ((((("\n").toList) ++ lblAwkAuth) ++ ((" ").toList)) ++ (w ++ ((("\n").toList) ++ (lblStatCred ++ (((" ").toList) ++ (s ++ ((("\n\n").toList) ++ (obsLbl ++ (((" ").toList) ++ (obs ++ ((("\n\n").toList) ++ (sugLbl ++ (joinSugs sugs)))))))))))))
      (numTryHere_none lblStatCred) (no_prefix_digits lblStatCred p
      ((((("\n").toList) ++ lblAwkAuth) ++ ((" ").toList)) ++ (w ++ ((("\n").toList) ++ (lblStatCred ++ (((" ").toList) ++ (s ++ ((("\n\n").toList) ++ (obsLbl ++ (((" ").toList) ++ (obs ++ ((("\n\n").toList) ++ (sugLbl ++ (joinSugs sugs)))))))))))))
      (by decide) (by decide) hp)]
  rw [scanWith_skip_chunk (numTryHere lblStatCred) lblStatCred (((("\n").toList) ++ lblAwkAuth) ++ ((" ").toList))
      (w ++ ((("\n").toList) ++ (lblStatCred ++ (((" ").toList) ++ (s ++ ((("\n\n").toList) ++ (obsLbl ++ (((" ").toList) ++ (obs ++ ((("\n\n").toList) ++ (sugLbl ++ (joinSugs sugs))))))))))))
      (numTryHere_none lblStatCred) (no_prefix_lit_nospan lblStatCred (((("\n").toList) ++ lblAwkAuth) ++ ((" ").toList))
      (w ++ ((("\n").toList) ++ (lblStatCred ++ (((" ").toList) ++ (s ++ ((("\n\n").toList) ++ (obsLbl ++ (((" ").toList) ++ (obs ++ ((("\n\n").toList) ++ (sugLbl ++ (joinSugs sugs))))))))))))
      (by decide) (by decide))]
  rw [scanWith_skip_chunk (numTryHere lblStatCred) lblStatCred w
      ((("\n").toList) ++ (lblStatCred ++ (((" ").toList) ++ (s ++ ((("\n\n").toList) ++ (obsLbl ++ (((" ").toList) ++ (obs ++ ((("\n\n").toList) ++ (sugLbl ++ (joinSugs sugs)))))))))))
      (numTryHere_none lblStatCred) (no_prefix_digits lblStatCred w
      ((("\n").toList) ++ (lblStatCred ++ (((" ").toList) ++ (s ++ ((("\n\n").toList) ++ (obsLbl ++ (((" ").toList) ++ (obs ++ ((("\n\n").toList) ++ (sugLbl ++ (joinSugs sugs)))))))))))
      (by decide) (by decide) hw)]
  rw [scanWith_skip_chunk (numTryHere lblStatCred) lblStatCred (("\n").toList)
      (lblStatCred ++ (((" ").toList) ++ (s ++ ((("\n\n").toList) ++ (obsLbl ++ (((" ").toList) ++ (obs ++ ((("\n\n").toList) ++ (sugLbl ++ (joinSugs sugs))))))))))
      (numTryHere_none lblStatCred) (no_prefix_lit_nospan lblStatCred (("\n").toList)
      (lblStatCred ++ (((" ").toList) ++ (s ++ ((("\n\n").toList) ++ (obsLbl ++ (((" ").toList) ++ (obs ++ ((("\n\n").toList) ++ (sugLbl ++ (joinSugs sugs))))))))))
      (by decide) (by decide))]
  exact scanWith_eq_of_tryH_some _ _ _
    (numTryHere_at lblStatCred ((" ").toList) s
      ((("\n\n").toList) ++ (obsLbl ++ (((" ").toList) ++ (obs ++ ((("\n\n").toList) ++ (sugLbl ++ (joinSugs sugs)))))))
      (by decide) hs hsne (by rfl))

theorem scan_block_obs (a c o d p w s obs : List Char) (sugs : List (List Char))
    (ha : a.all Char.isDigit = true)
    (hc : c.all Char.isDigit = true)
    (ho : o.all Char.isDigit = true)
    (hd : d.all Char.isDigit = true)
    (hp : p.all Char.isDigit = true)
    (hw : w.all Char.isDigit = true)
    (hs : s.all Char.isDigit = true)
    (hobsne : obs ≠ [])
    (hobstrim : trimL obs = obs)
    (hobsnl : obs.all (fun ch => ch != '\n') = true)
    : scanObs (mkAnalysisBlock a c o d p w s obs sugs) = some obs := by
  unfold scanObs
  rw [show mkAnalysisBlock a c o d p w s obs sugs
      = ((lblAwkScore ++ ((" ").toList)) ++ (a ++ ((((("\n").toList) ++ lblComplexity) ++ ((" ").toList)) ++ (c ++ ((((("\n").toList) ++ lblOptimality) ++ ((" ").toList)) ++ (o ++ ((((("\n\n").toList) ++ lblDialogue) ++ ((" ").toList)) ++ (d ++ ((((("\n").toList) ++ lblPreparation) ++ ((" ").toList)) ++ (p ++ ((((("\n").toList) ++ lblAwkAuth) ++ ((" ").toList)) ++ (w ++ ((((("\n").toList) ++ lblStatCred) ++ ((" ").toList)) ++ (s ++ ((("\n\n").toList) ++ (obsLbl ++ (((" ").toList) ++ (obs ++ ((("\n\n").toList) ++ (sugLbl ++ (joinSugs sugs))))))))))))))))))))) from by
    simp only [mkAnalysisBlock, List.append_assoc]]
  rw [scanWith_skip_chunk obsTryHere obsLbl (lblAwkScore ++ ((" ").toList))
      (a ++ ((((("\n").toList) ++ lblComplexity) ++ ((" ").toList)) ++ (c ++ ((((("\n").toList) ++ lblOptimality) ++ ((" ").toList)) ++ (o ++ ((((("\n\n").toList) ++ lblDialogue) ++ ((" ").toList)) ++ (d ++ ((((("\n").toList) ++ lblPreparation) ++ ((" ").toList)) ++ (p ++ ((((("\n").toList) ++ lblAwkAuth) ++ ((" ").toList)) ++ (w ++ ((((("\n").toList) ++ lblStatCred) ++ ((" ").toList)) ++ (s ++ ((("\n\n").toList) ++ (obsLbl ++ (((" ").toList) ++ (obs ++ ((("\n\n").toList) ++ (sugLbl ++ (joinSugs sugs))))))))))))))))))))
      obsTryHere_none (no_prefix_lit_nospan obsLbl (lblAwkScore ++ ((" ").toList))
      (a ++ ((((("\n").toList) ++ lblComplexity) ++ ((" ").toList)) ++ (c ++ ((((("\n").toList) ++ lblOptimality) ++ ((" ").toList)) ++ (o ++ ((((("\n\n").toList) ++ lblDialogue) ++ ((" ").toList)) ++ (d ++ ((((("\n").toList) ++ lblPreparation) ++ ((" ").toList)) ++ (p ++ ((((("\n").toList) ++ lblAwkAuth) ++ ((" ").toList)) ++ (w ++ ((((("\n").toList) ++ lblStatCred) ++ ((" ").toList)) ++ (s ++ ((("\n\n").toList) ++ (obsLbl ++ (((" ").toList) ++ (obs ++ ((("\n\n").toList) ++ (sugLbl ++ (joinSugs sugs))))))))))))))))))))
      (by decide) (by decide))]
  rw [scanWith_skip_chunk obsTryHere obsLbl a
      ((((("\n").toList) ++ lblComplexity) ++ ((" ").toList)) ++ (c ++ ((((("\n").toList) ++ lblOptimality) ++ ((" ").toList)) ++ (o ++ ((((("\n\n").toList) ++ lblDialogue) ++ ((" ").toList)) ++ (d ++ ((((("\n").toList) ++ lblPreparation) ++ ((" ").toList)) ++ (p ++ ((((("\n").toList) ++ lblAwkAuth) ++ ((" ").toList)) ++ (w ++ ((((("\n").toList) ++ lblStatCred) ++ ((" ").toList)) ++ (s ++ ((("\n\n").toList) ++ (obsLbl ++ (((" ").toList) ++ (obs ++ ((("\n\n").toList) ++ (sugLbl ++ (joinSugs sugs)))))))))))))))))))
      obsTryHere_none (no_prefix_digits obsLbl a
      ((((("\n").toList) ++ lblComplexity) ++ ((" ").toList)) ++ (c ++ ((((("\n").toList) ++ lblOptimality) ++ ((" ").toList)) ++ (o ++ ((((("\n\n").toList) ++ lblDialogue) ++ ((" ").toList)) ++ (d ++ ((((("\n").toList) ++ lblPreparation) ++ ((" ").toList)) ++ (p ++ ((((("\n").toList) ++ lblAwkAuth) ++ ((" ").toList)) ++ (w ++ ((((("\n").toList) ++ lblStatCred) ++ ((" ").toList)) ++ (s ++ ((("\n\n").toList) ++ (obsLbl ++ (((" ").toList) ++ (obs ++ ((("\n\n").toList) ++ (sugLbl ++ (joinSugs sugs)))))))))))))))))))
      (by decide) (by decide) ha)]
  rw [scanWith_skip_chunk obsTryHere obsLbl (((("\n").toList) ++ lblComplexity) ++ ((" ").toList))
      (c ++ ((((("\n").toList) ++ lblOptimality) ++ ((" ").toList)) ++ (o ++ ((((("\n\n").toList) ++ lblDialogue) ++ ((" ").toList)) ++ (d ++ ((((("\n").toList) ++ lblPreparation) ++ ((" ").toList)) ++ (p ++ ((((("\n").toList) ++ lblAwkAuth) ++ ((" ").toList)) ++ (w ++ ((((("\n").toList) ++ lblStatCred) ++ ((" ").toList)) ++ (s ++ ((("\n\n").toList) ++ (obsLbl ++ (((" ").toList) ++ (obs ++ ((("\n\n").toList) ++ (sugLbl ++ (joinSugs sugs))))))))))))))))))
      obsTryHere_none (no_prefix_lit_nospan obsLbl (((("\n").toList) ++ lblComplexity) ++ ((" ").toList))
      (c ++ ((((("\n").toList) ++ lblOptimality) ++ ((" ").toList)) ++ (o ++ ((((("\n\n").toList) ++ lblDialogue) ++ ((" ").toList)) ++ (d ++ ((((("\n").toList) ++ lblPreparation) ++ ((" ").toList)) ++ (p ++ ((((("\n").toList) ++ lblAwkAuth) ++ ((" ").toList)) ++ (w ++ ((((("\n").toList) ++ lblStatCred) ++ ((" ").toList)) ++ (s ++ ((("\n\n").toList) ++ (obsLbl ++ (((" ").toList) ++ (obs ++ ((("\n\n").toList) ++ (sugLbl ++ (joinSugs sugs))))))))))))))))))
      (by decide) (by decide))]
  rw [scanWith_skip_chunk obsTryHere obsLbl c
      ((((("\n").toList) ++ lblOptimality) ++ ((" ").toList)) ++ (o ++ ((((("\n\n").toList) ++ lblDialogue) ++ ((" ").toList)) ++ (d ++ ((((("\n").toList) ++ lblPreparation) ++ ((" ").toList)) ++ (p ++ ((((("\n").toList) ++ lblAwkAuth) ++ ((" ").toList)) ++ (w ++ ((((("\n").toList) ++ lblStatCred) ++ ((" ").toList)) ++ (s ++ ((("\n\n").toList) ++ (obsLbl ++ (((" ").toList) ++ (obs ++ ((("\n\n").toList) ++ (sugLbl ++ (joinSugs sugs)))))))))))))))))
      obsTryHere_none (no_prefix_digits obsLbl c
      ((((("\n").toList) ++ lblOptimality) ++ ((" ").toList)) ++ (o ++ ((((("\n\n").toList) ++ lblDialogue) ++ ((" ").toList)) ++ (d ++ ((((("\n").toList) ++ lblPreparation) ++ ((" ").toList)) ++ (p ++ ((((("\n").toList) ++ lblAwkAuth) ++ ((" ").toList)) ++ (w ++ ((((("\n").toList) ++ lblStatCred) ++ ((" ").toList)) ++ (s ++ ((("\n\n").toList) ++ (obsLbl ++ (((" ").toList) ++ (obs ++ ((("\n\n").toList) ++ (sugLbl ++ (joinSugs sugs)))))))))))))))))
      (by decide) (by decide) hc)]
  rw [scanWith_skip_chunk obsTryHere obsLbl (((("\n").toList) ++ lblOptimality) ++ ((" ").toList))
      (o ++ ((((("\n\n").toList) ++ lblDialogue) ++ ((" ").toList)) ++ (d ++ ((((("\n").toList) ++ lblPreparation) ++ ((" ").toList)) ++ (p ++ ((((("\n").toList) ++ lblAwkAuth) ++ ((" ").toList)) ++ (w ++ ((((("\n").toList) ++ lblStatCred) ++ ((" ").toList)) ++ (s ++ ((("\n\n").toList) ++ (obsLbl ++ (((" ").toList) ++ (obs ++ ((("\n\n").toList) ++ (sugLbl ++ (joinSugs sugs))))))))))))))))
      obsTryHere_none (no_prefix_lit_nospan obsLbl (((("\n").toList) ++ lblOptimality) ++ ((" ").toList))
      (o ++ ((((("\n\n").toList) ++ lblDialogue) ++ ((" ").toList)) ++ (d ++ ((((("\n").toList) ++ lblPreparation) ++ ((" ").toList)) ++ (p ++ ((((("\n").toList) ++ lblAwkAuth) ++ ((" ").toList)) ++ (w ++ ((((("\n").toList) ++ lblStatCred) ++ ((" ").toList)) ++ (s ++ ((("\n\n").toList) ++ (obsLbl ++ (((" ").toList) ++ (obs ++ ((("\n\n").toList) ++ (sugLbl ++ (joinSugs sugs))))))))))))))))
      (by decide) (by decide))]
  rw [scanWith_skip_chunk obsTryHere obsLbl o
      ((((("\n\n").toList) ++ lblDialogue) ++ ((" ").toList)) ++ (d ++ ((((("\n").toList) ++ lblPreparation) ++ ((" ").toList)) ++ (p ++ ((((("\n").toList) ++ lblAwkAuth) ++ ((" ").toList)) ++ (w ++ ((((("\n").toList) ++ lblStatCred) ++ ((" ").toList)) ++ (s ++ ((("\n\n").toList) ++ (obsLbl ++ (((" ").toList) ++ (obs ++ ((("\n\n").toList) ++ (sugLbl ++ (joinSugs sugs)))))))))))))))
      obsTryHere_none (no_prefix_digits obsLbl o
      ((((("\n\n").toList) ++ lblDialogue) ++ ((" ").toList)) ++ (d ++ ((((("\n").toList) ++ lblPreparation) ++ ((" ").toList)) ++ (p ++ ((((("\n").toList) ++ lblAwkAuth) ++ ((" ").toList)) ++ (w ++ ((((("\n").toList) ++ lblStatCred) ++ ((" ").toList)) ++ (s ++ ((("\n\n").toList) ++ (obsLbl ++ (((" ").toList) ++ (obs ++ ((("\n\n").toList) ++ (sugLbl ++ (joinSugs sugs)))))))))))))))
      (by decide) (by decide) ho)]
  rw [scanWith_skip_chunk obsTryHere obsLbl (((("\n\n").toList) ++ lblDialogue) ++ ((" ").toList))
      (d ++ ((((("\n").toList) ++ lblPreparation) ++ ((" ").toList)) ++ (p ++ ((((("\n").toList) ++ lblAwkAuth) ++ ((" ").toList)) ++ (w ++ ((((("\n").toList) ++ lblStatCred) ++ ((" ").toList)) ++ (s ++ ((("\n\n").toList) ++ (obsLbl ++ (((" ").toList) ++ (obs ++ ((("\n\n").toList) ++ (sugLbl ++ (joinSugs sugs))))))))))))))
      obsTryHere_none (no_prefix_lit_nospan obsLbl (((("\n\n").toList) ++ lblDialogue) ++ ((" ").toList))
      (d ++ ((((("\n").toList) ++ lblPreparation) ++ ((" ").toList)) ++ (p ++ ((((("\n").toList) ++ lblAwkAuth) ++ ((" ").toList)) ++ (w ++ ((((("\n").toList) ++ lblStatCred) ++ ((" ").toList)) ++ (s ++ ((("\n\n").toList) ++ (obsLbl ++ (((" ").toList) ++ (obs ++ ((("\n\n").toList) ++ (sugLbl ++ (joinSugs sugs))))))))))))))
      (by decide) (by decide))]
  rw [scanWith_skip_chunk obsTryHere obsLbl d
      ((((("\n").toList) ++ lblPreparation) ++ ((" ").toList)) ++ (p ++ ((((("\n").toList) ++ lblAwkAuth) ++ ((" ").toList)) ++ (w ++ ((((("\n").toList) ++ lblStatCred) ++ ((" ").toList)) ++ (s ++ ((("\n\n").toList) ++ (obsLbl ++ (((" ").toList) ++ (obs ++ ((("\n\n").toList) ++ (sugLbl ++ (joinSugs sugs)))))))))))))
      obsTryHere_none (no_prefix_digits obsLbl d
      ((((("\n").toList) ++ lblPreparation) ++ ((" ").toList)) ++ (p ++ ((((("\n").toList) ++ lblAwkAuth) ++ ((" ").toList)) ++ (w ++ ((((("\n").toList) ++ lblStatCred) ++ ((" ").toList)) ++ (s ++ ((("\n\n").toList) ++ (obsLbl ++ (((" ").toList) ++ (obs ++ ((("\n\n").toList) ++ (sugLbl ++ (joinSugs sugs)))))))))))))
      (by decide) (by decide) hd)]
  rw [scanWith_skip_chunk obsTryHere obsLbl (((("\n").toList) ++ lblPreparation) ++ ((" ").toList))
      (p ++ ((((("\n").toList) ++ lblAwkAuth) ++ ((" ").toList)) ++ (w ++ ((((("\n").toList) ++ lblStatCred) ++ ((" ").toList)) ++ (s ++ ((("\n\n").toList) ++ (obsLbl ++ (((" ").toList) ++ (obs ++ ((("\n\n").toList) ++ (sugLbl ++ (joinSugs sugs))))))))))))
      obsTryHere_none (no_prefix_lit_nospan obsLbl (((("\n").toList) ++ lblPreparation) ++ ((" ").toList))
      (p ++ ((((("\n").toList) ++ lblAwkAuth) ++ ((" ").toList)) ++ (w ++ ((((("\n").toList) ++ lblStatCred) ++ ((" ").toList)) ++ (s ++ ((("\n\n").toList) ++ (obsLbl ++ (((" ").toList) ++ (obs ++ ((("\n\n").toList) ++ (sugLbl ++ (joinSugs sugs))))))))))))
      (by decide) (by decide))]
  rw [scanWith_skip_chunk obsTryHere obsLbl p
      ((((("\n").toList) ++ lblAwkAuth) ++ ((" ").toList)) ++ (w ++ ((((("\n").toList) ++ lblStatCred) ++ ((" ").toList)) ++ (s ++ ((("\n\n").toList) ++ (obsLbl ++ (((" ").toList) ++ (obs ++ ((("\n\n").toList) ++ (sugLbl ++ (joinSugs sugs)))))))))))
      obsTryHere_none (no_prefix_digits obsLbl p
      ((((("\n").toList) ++ lblAwkAuth) ++ ((" ").toList)) ++ (w ++ ((((("\n").toList) ++ lblStatCred) ++ ((" ").toList)) ++ (s ++ ((("\n\n").toList) ++ (obsLbl ++ (((" ").toList) ++ (obs ++ ((("\n\n").toList) ++ (sugLbl ++ (joinSugs sugs)))))))))))
      (by decide) (by decide) hp)]
  rw [scanWith_skip_chunk obsTryHere obsLbl (((("\n").toList) ++ lblAwkAuth) ++ ((" ").toList))
      (w ++ ((((("\n").toList) ++ lblStatCred) ++ ((" ").toList)) ++ (s ++ ((("\n\n").toList) ++ (obsLbl ++ (((" ").toList) ++ (obs ++ ((("\n\n").toList) ++ (sugLbl ++ (joinSugs sugs))))))))))
      obsTryHere_none (no_prefix_lit_nospan obsLbl (((("\n").toList) ++ lblAwkAuth) ++ ((" ").toList))
      (w ++ ((((("\n").toList) ++ lblStatCred) ++ ((" ").toList)) ++ (s ++ ((("\n\n").toList) ++ (obsLbl ++ (((" ").toList) ++ (obs ++ ((("\n\n").toList) ++ (sugLbl ++ (joinSugs sugs))))))))))
      (by decide) (by decide))]
  rw [scanWith_skip_chunk obsTryHere obsLbl w
      ((((("\n").toList) ++ lblStatCred) ++ ((" ").toList)) ++ (s ++ ((("\n\n").toList) ++ (obsLbl ++ (((" ").toList) ++ (obs ++ ((("\n\n").toList) ++ (sugLbl ++ (joinSugs sugs)))))))))
      obsTryHere_none (no_prefix_digits obsLbl w
      ((((("\n").toList) ++ lblStatCred) ++ ((" ").toList)) ++ (s ++ ((("\n\n").toList) ++ (obsLbl ++ (((" ").toList) ++ (obs ++ ((("\n\n").toList) ++ (sugLbl ++ (joinSugs sugs)))))))))
      (by decide) (by decide) hw)]
  rw [scanWith_skip_chunk obsTryHere obsLbl (((("\n").toList) ++ lblStatCred) ++ ((" ").toList))
      (s ++ ((("\n\n").toList) ++ (obsLbl ++ (((" ").toList) ++ (obs ++ ((("\n\n").toList) ++ (sugLbl ++ (joinSugs sugs))))))))
      obsTryHere_none (no_prefix_lit_nospan obsLbl (((("\n").toList) ++ lblStatCred) ++ ((" ").toList))
      (s ++ ((("\n\n").toList) ++ (obsLbl ++ (((" ").toList) ++ (obs ++ ((("\n\n").toList) ++ (sugLbl ++ (joinSugs sugs))))))))
      (by decide) (by decide))]
  rw [scanWith_skip_chunk obsTryHere obsLbl s
      ((("\n\n").toList) ++ (obsLbl ++ (((" ").toList) ++ (obs ++ ((("\n\n").toList) ++ (sugLbl ++ (joinSugs sugs)))))))
      obsTryHere_none (no_prefix_digits obsLbl s
      ((("\n\n").toList) ++ (obsLbl ++ (((" ").toList) ++ (obs ++ ((("\n\n").toList) ++ (sugLbl ++ (joinSugs sugs)))))))
      (by decide) (by decide) hs)]
  rw [scanWith_skip_chunk obsTryHere obsLbl (("\n\n").toList)
      (obsLbl ++ (((" ").toList) ++ (obs ++ ((("\n\n").toList) ++ (sugLbl ++ (joinSugs sugs))))))
      obsTryHere_none (no_prefix_lit_nospan obsLbl (("\n\n").toList)
      (obsLbl ++ (((" ").toList) ++ (obs ++ ((("\n\n").toList) ++ (sugLbl ++ (joinSugs sugs))))))
      (by decide) (by decide))]
  exact scanWith_eq_of_tryH_some _ _ _
    (obsTryHere_at obs (sugLbl ++ (joinSugs sugs)) hobsne
      (dropWhile_eq_self_of_trim obs hobstrim) hobsnl)

theorem scan_block_sug (a c o d p w s obs sg : List Char) (srest : List (List Char))
    (ha : a.all Char.isDigit = true)
    (hc : c.all Char.isDigit = true)
    (ho : o.all Char.isDigit = true)
    (hd : d.all Char.isDigit = true)
    (hp : p.all Char.isDigit = true)
    (hw : w.all Char.isDigit = true)
    (hs : s.all Char.isDigit = true)
    (hobssub : containsSub sugLbl obs = false)
    (hall : ∀ t ∈ sg :: srest, t.all (fun ch => ch != '\n') = true)
    : scanSug (mkAnalysisBlock a c o d p w s obs (sg :: srest))
      = some ('-' :: (' ' :: sg ++ joinSugs srest)) := by
  unfold scanSug
  rw [show mkAnalysisBlock a c o d p w s obs (sg :: srest)
      = ((lblAwkScore ++ ((" ").toList)) ++ (a ++ ((((("\n").toList) ++ lblComplexity) ++ ((" ").toList)) ++ (c ++ ((((("\n").toList) ++ lblOptimality) ++ ((" ").toList)) ++ (o ++ ((((("\n\n").toList) ++ lblDialogue) ++ ((" ").toList)) ++ (d ++ ((((("\n").toList) ++ lblPreparation) ++ ((" ").toList)) ++ (p ++ ((((("\n").toList) ++ lblAwkAuth) ++ ((" ").toList)) ++ (w ++ ((((("\n").toList) ++ lblStatCred) ++ ((" ").toList)) ++ (s ++ ((((("\n\n").toList) ++ obsLbl) ++ ((" ").toList)) ++ (obs ++ ((("\n\n").toList) ++ (sugLbl ++ (joinSugs (sg :: srest)))))))))))))))))))) from by
    simp only [mkAnalysisBlock, List.append_assoc]]
  rw [scanWith_skip_chunk sugTryHere sugLbl (lblAwkScore ++ ((" ").toList))
      (a ++ ((((("\n").toList) ++ lblComplexity) ++ ((" ").toList)) ++ (c ++ ((((("\n").toList) ++ lblOptimality) ++ ((" ").toList)) ++ (o ++ ((((("\n\n").toList) ++ lblDialogue) ++ ((" ").toList)) ++ (d ++ ((((("\n").toList) ++ lblPreparation) ++ ((" ").toList)) ++ (p ++ ((((("\n").toList) ++ lblAwkAuth) ++ ((" ").toList)) ++ (w ++ ((((("\n").toList) ++ lblStatCred) ++ ((" ").toList)) ++ (s ++ ((((("\n\n").toList) ++ obsLbl) ++ ((" ").toList)) ++ (obs ++ ((("\n\n").toList) ++ (sugLbl ++ (joinSugs (sg :: srest)))))))))))))))))))
      sugTryHere_none (no_prefix_lit_nospan sugLbl (lblAwkScore ++ ((" ").toList))
      (a ++ ((((("\n").toList) ++ lblComplexity) ++ ((" ").toList)) ++ (c ++ ((((("\n").toList) ++ lblOptimality) ++ ((" ").toList)) ++ (o ++ ((((("\n\n").toList) ++ lblDialogue) ++ ((" ").toList)) ++ (d ++ ((((("\n").toList) ++ lblPreparation) ++ ((" ").toList)) ++ (p ++ ((((("\n").toList) ++ lblAwkAuth) ++ ((" ").toList)) ++ (w ++ ((((("\n").toList) ++ lblStatCred) ++ ((" ").toList)) ++ (s ++ ((((("\n\n").toList) ++ obsLbl) ++ ((" ").toList)) ++ (obs ++ ((("\n\n").toList) ++ (sugLbl ++ (joinSugs (sg :: srest)))))))))))))))))))
      (by decide) (by decide))]
  rw [scanWith_skip_chunk sugTryHere sugLbl a
      ((((("\n").toList) ++ lblComplexity) ++ ((" ").toList)) ++ (c ++ ((((("\n").toList) ++ lblOptimality) ++ ((" ").toList)) ++ (o ++ ((((("\n\n").toList) ++ lblDialogue) ++ ((" ").toList)) ++ (d ++ ((((("\n").toList) ++ lblPreparation) ++ ((" ").toList)) ++ (p ++ ((((("\n").toList) ++ lblAwkAuth) ++ ((" ").toList)) ++ (w ++ ((((("\n").toList) ++ lblStatCred) ++ ((" ").toList)) ++ (s ++ ((((("\n\n").toList) ++ obsLbl) ++ ((" ").toList)) ++ (obs ++ ((("\n\n").toList) ++ (sugLbl ++ (joinSugs (sg :: srest))))))))))))))))))
      sugTryHere_none (no_prefix_digits sugLbl a
      ((((("\n").toList) ++ lblComplexity) ++ ((" ").toList)) ++ (c ++ ((((("\n").toList) ++ lblOptimality) ++ ((" ").toList)) ++ (o ++ ((((("\n\n").toList) ++ lblDialogue) ++ ((" ").toList)) ++ (d ++ ((((("\n").toList) ++ lblPreparation) ++ ((" ").toList)) ++ (p ++ ((((("\n").toList) ++ lblAwkAuth) ++ ((" ").toList)) ++ (w ++ ((((("\n").toList) ++ lblStatCred) ++ ((" ").toList)) ++ (s ++ ((((("\n\n").toList) ++ obsLbl) ++ ((" ").toList)) ++ (obs ++ ((("\n\n").toList) ++ (sugLbl ++ (joinSugs (sg :: srest))))))))))))))))))
      (by decide) (by decide) ha)]
  rw [scanWith_skip_chunk sugTryHere sugLbl (((("\n").toList) ++ lblComplexity) ++ ((" ").toList))
      (c ++ ((((("\n").toList) ++ lblOptimality) ++ ((" ").toList)) ++ (o ++ ((((("\n\n").toList) ++ lblDialogue) ++ ((" ").toList)) ++ (d ++ ((((("\n").toList) ++ lblPreparation) ++ ((" ").toList)) ++ (p ++ ((((("\n").toList) ++ lblAwkAuth) ++ ((" ").toList)) ++ (w ++ ((((("\n").toList) ++ lblStatCred) ++ ((" ").toList)) ++ (s ++ ((((("\n\n").toList) ++ obsLbl) ++ ((" ").toList)) ++ (obs ++ ((("\n\n").toList) ++ (sugLbl ++ (joinSugs (sg :: srest)))))))))))))))))
      sugTryHere_none (no_prefix_lit_nospan sugLbl (((("\n").toList) ++ lblComplexity) ++ ((" ").toList))
      (c ++ ((((("\n").toList) ++ lblOptimality) ++ ((" ").toList)) ++ (o ++ ((((("\n\n").toList) ++ lblDialogue) ++ ((" ").toList)) ++ (d ++ ((((("\n").toList) ++ lblPreparation) ++ ((" ").toList)) ++ (p ++ ((((("\n").toList) ++ lblAwkAuth) ++ ((" ").toList)) ++ (w ++ ((((("\n").toList) ++ lblStatCred) ++ ((" ").toList)) ++ (s ++ ((((("\n\n").toList) ++ obsLbl) ++ ((" ").toList)) ++ (obs ++ ((("\n\n").toList) ++ (sugLbl ++ (joinSugs (sg :: srest)))))))))))))))))
      (by decide) (by decide))]
  rw [scanWith_skip_chunk sugTryHere sugLbl c
      ((((("\n").toList) ++ lblOptimality) ++ ((" ").toList)) ++ (o ++ ((((("\n\n").toList) ++ lblDialogue) ++ ((" ").toList)) ++ (d ++ ((((("\n").toList) ++ lblPreparation) ++ ((" ").toList)) ++ (p ++ ((((("\n").toList) ++ lblAwkAuth) ++ ((" ").toList)) ++ (w ++ ((((("\n").toList) ++ lblStatCred) ++ ((" ").toList)) ++ (s ++ ((((("\n\n").toList) ++ obsLbl) ++ ((" ").toList)) ++ (obs ++ ((("\n\n").toList) ++ (sugLbl ++ (joinSugs (sg :: srest))))))))))))))))
      sugTryHere_none (no_prefix_digits sugLbl c
      ((((("\n").toList) ++ lblOptimality) ++ ((" ").toList)) ++ (o ++ ((((("\n\n").toList) ++ lblDialogue) ++ ((" ").toList)) ++ (d ++ ((((("\n").toList) ++ lblPreparation) ++ ((" ").toList)) ++ (p ++ ((((("\n").toList) ++ lblAwkAuth) ++ ((" ").toList)) ++ (w ++ ((((("\n").toList) ++ lblStatCred) ++ ((" ").toList)) ++ (s ++ ((((("\n\n").toList) ++ obsLbl) ++ ((" ").toList)) ++ (obs ++ ((("\n\n").toList) ++ (sugLbl ++ (joinSugs (sg :: srest))))))))))))))))
      (by decide) (by decide) hc)]
  rw [scanWith_skip_chunk sugTryHere sugLbl (((("\n").toList) ++ lblOptimality) ++ ((" ").toList))
      (o ++ ((((("\n\n").toList) ++ lblDialogue) ++ ((" ").toList)) ++ (d ++ ((((("\n").toList) ++ lblPreparation) ++ ((" ").toList)) ++ (p ++ ((((("\n").toList) ++ lblAwkAuth) ++ ((" ").toList)) ++ (w ++ ((((("\n").toList) ++ lblStatCred) ++ ((" ").toList)) ++ (s ++ ((((("\n\n").toList) ++ obsLbl) ++ ((" ").toList)) ++ (obs ++ ((("\n\n").toList) ++ (sugLbl ++ (joinSugs (sg :: srest)))))))))))))))
      sugTryHere_none (no_prefix_lit_nospan sugLbl (((("\n").toList) ++ lblOptimality) ++ ((" ").toList))
      (o ++ ((((("\n\n").toList) ++ lblDialogue) ++ ((" ").toList)) ++ (d ++ ((((("\n").toList) ++ lblPreparation) ++ ((" ").toList)) ++ (p ++ ((((("\n").toList) ++ lblAwkAuth) ++ ((" ").toList)) ++ (w ++ ((((("\n").toList) ++ lblStatCred) ++ ((" ").toList)) ++ (s ++ ((((("\n\n").toList) ++ obsLbl) ++ ((" ").toList)) ++ (obs ++ ((("\n\n").toList) ++ (sugLbl ++ (joinSugs (sg :: srest)))))))))))))))
      (by decide) (by decide))]
  rw [scanWith_skip_chunk sugTryHere sugLbl o
      ((((("\n\n").toList) ++ lblDialogue) ++ ((" ").toList)) ++ (d ++ ((((("\n").toList) ++ lblPreparation) ++ ((" ").toList)) ++ (p ++ ((((("\n").toList) ++ lblAwkAuth) ++ ((" ").toList)) ++ (w ++ ((((("\n").toList) ++ lblStatCred) ++ ((" ").toList)) ++ (s ++ ((((("\n\n").toList) ++ obsLbl) ++ ((" ").toList)) ++ (obs ++ ((("\n\n").toList) ++ (sugLbl ++ (joinSugs (sg :: srest))))))))))))))
      sugTryHere_none (no_prefix_digits sugLbl o
      ((((("\n\n").toList) ++ lblDialogue) ++ ((" ").toList)) ++ (d ++ ((((("\n").toList) ++ lblPreparation) ++ ((" ").toList)) ++ (p ++ ((((("\n").toList) ++ lblAwkAuth) ++ ((" ").toList)) ++ (w ++ ((((("\n").toList) ++ lblStatCred) ++ ((" ").toList)) ++ (s ++ ((((("\n\n").toList) ++ obsLbl) ++ ((" ").toList)) ++ (obs ++ ((("\n\n").toList) ++ (sugLbl ++ (joinSugs (sg :: srest))))))))))))))
      (by decide) (by decide) ho)]
  rw [scanWith_skip_chunk sugTryHere sugLbl (((("\n\n").toList) ++ lblDialogue) ++ ((" ").toList))
      (d ++ ((((("\n").toList) ++ lblPreparation) ++ ((" ").toList)) ++ (p ++ ((((("\n").toList) ++ lblAwkAuth) ++ ((" ").toList)) ++ (w ++ ((((("\n").toList) ++ lblStatCred) ++ ((" ").toList)) ++ (s ++ ((((("\n\n").toList) ++ obsLbl) ++ ((" ").toList)) ++ (obs ++ ((("\n\n").toList) ++ (sugLbl ++ (joinSugs (sg :: srest)))))))))))))
      sugTryHere_none (no_prefix_lit_nospan sugLbl (((("\n\n").toList) ++ lblDialogue) ++ ((" ").toList))
      (d ++ ((((("\n").toList) ++ lblPreparation) ++ ((" ").toList)) ++ (p ++ ((((("\n").toList) ++ lblAwkAuth) ++ ((" ").toList)) ++ (w ++ ((((("\n").toList) ++ lblStatCred) ++ ((" ").toList)) ++ (s ++ ((((("\n\n").toList) ++ obsLbl) ++ ((" ").toList)) ++ (obs ++ ((("\n\n").toList) ++ (sugLbl ++ (joinSugs (sg :: srest)))))))))))))
      (by decide) (by decide))]
  rw [scanWith_skip_chunk sugTryHere sugLbl d
      ((((("\n").toList) ++ lblPreparation) ++ ((" ").toList)) ++ (p ++ ((((("\n").toList) ++ lblAwkAuth) ++ ((" ").toList)) ++ (w ++ ((((("\n").toList) ++ lblStatCred) ++ ((" ").toList)) ++ (s ++ ((((("\n\n").toList) ++ obsLbl) ++ ((" ").toList)) ++ (obs ++ ((("\n\n").toList) ++ (sugLbl ++ (joinSugs (sg :: srest))))))))))))
      sugTryHere_none (no_prefix_digits sugLbl d
      ((((("\n").toList) ++ lblPreparation) ++ ((" ").toList)) ++ (p ++ ((((("\n").toList) ++ lblAwkAuth) ++ ((" ").toList)) ++ (w ++ ((((("\n").toList) ++ lblStatCred) ++ ((" ").toList)) ++ (s ++ ((((("\n\n").toList) ++ obsLbl) ++ ((" ").toList)) ++ (obs ++ ((("\n\n").toList) ++ (sugLbl ++ (joinSugs (sg :: srest))))))))))))
      (by decide) (by decide) hd)]
  rw [scanWith_skip_chunk sugTryHere sugLbl (((("\n").toList) ++ lblPreparation) ++ ((" ").toList))
      (p ++ ((((("\n").toList) ++ lblAwkAuth) ++ ((" ").toList)) ++ (w ++ ((((("\n").toList) ++ lblStatCred) ++ ((" ").toList)) ++ (s ++ ((((("\n\n").toList) ++ obsLbl) ++ ((" ").toList)) ++ (obs ++ ((("\n\n").toList) ++ (sugLbl ++ (joinSugs (sg :: srest)))))))))))
      sugTryHere_none (no_prefix_lit_nospan sugLbl (((("\n").toList) ++ lblPreparation) ++ ((" ").toList))
      (p ++ ((((("\n").toList) ++ lblAwkAuth) ++ ((" ").toList)) ++ (w ++ ((((("\n").toList) ++ lblStatCred) ++ ((" ").toList)) ++ (s ++ ((((("\n\n").toList) ++ obsLbl) ++ ((" ").toList)) ++ (obs ++ ((("\n\n").toList) ++ (sugLbl ++ (joinSugs (sg :: srest)))))))))))
      (by decide) (by decide))]
  rw [scanWith_skip_chunk sugTryHere sugLbl p
      ((((("\n").toList) ++ lblAwkAuth) ++ ((" ").toList)) ++ (w ++ ((((("\n").toList) ++ lblStatCred) ++ ((" ").toList)) ++ (s ++ ((((("\n\n").toList) ++ obsLbl) ++ ((" ").toList)) ++ (obs ++ ((("\n\n").toList) ++ (sugLbl ++ (joinSugs (sg :: srest))))))))))
      sugTryHere_none (no_prefix_digits sugLbl p
      ((((("\n").toList) ++ lblAwkAuth) ++ ((" ").toList)) ++ (w ++ ((((("\n").toList) ++ lblStatCred) ++ ((" ").toList)) ++ (s ++ ((((("\n\n").toList) ++ obsLbl) ++ ((" ").toList)) ++ (obs ++ ((("\n\n").toList) ++ (sugLbl ++ (joinSugs (sg :: srest))))))))))
      (by decide) (by decide) hp)]
  rw [scanWith_skip_chunk sugTryHere sugLbl (((("\n").toList) ++ lblAwkAuth) ++ ((" ").toList))
      (w ++ ((((("\n").toList) ++ lblStatCred) ++ ((" ").toList)) ++ (s ++ ((((("\n\n").toList) ++ obsLbl) ++ ((" ").toList)) ++ (obs ++ ((("\n\n").toList) ++ (sugLbl ++ (joinSugs (sg :: srest)))))))))
      sugTryHere_none (no_prefix_lit_nospan sugLbl (((("\n").toList) ++ lblAwkAuth) ++ ((" ").toList))
      (w ++ ((((("\n").toList) ++ lblStatCred) ++ ((" ").toList)) ++ (s ++ ((((("\n\n").toList) ++ obsLbl) ++ ((" ").toList)) ++ (obs ++ ((("\n\n").toList) ++ (sugLbl ++ (joinSugs (sg :: srest)))))))))
      (by decide) (by decide))]
  rw [scanWith_skip_chunk sugTryHere sugLbl w
      ((((("\n").toList) ++ lblStatCred) ++ ((" ").toList)) ++ (s ++ ((((("\n\n").toList) ++ obsLbl) ++ ((" ").toList)) ++ (obs ++ ((("\n\n").toList) ++ (sugLbl ++ (joinSugs (sg :: srest))))))))
      sugTryHere_none (no_prefix_digits sugLbl w
      ((((("\n").toList) ++ lblStatCred) ++ ((" ").toList)) ++ (s ++ ((((("\n\n").toList) ++ obsLbl) ++ ((" ").toList)) ++ (obs ++ ((("\n\n").toList) ++ (sugLbl ++ (joinSugs (sg :: srest))))))))
      (by decide) (by decide) hw)]
  rw [scanWith_skip_chunk sugTryHere sugLbl (((("\n").toList) ++ lblStatCred) ++ ((" ").toList))
      (s ++ ((((("\n\n").toList) ++ obsLbl) ++ ((" ").toList)) ++ (obs ++ ((("\n\n").toList) ++ (sugLbl ++ (joinSugs (sg :: srest)))))))
      sugTryHere_none (no_prefix_lit_nospan sugLbl (((("\n").toList) ++ lblStatCred) ++ ((" ").toList))
      (s ++ ((((("\n\n").toList) ++ obsLbl) ++ ((" ").toList)) ++ (obs ++ ((("\n\n").toList) ++ (sugLbl ++ (joinSugs (sg :: srest)))))))
      (by decide) (by decide))]
  rw [scanWith_skip_chunk sugTryHere sugLbl s
      ((((("\n\n").toList) ++ obsLbl) ++ ((" ").toList)) ++ (obs ++ ((("\n\n").toList) ++ (sugLbl ++ (joinSugs (sg :: srest))))))
      sugTryHere_none (no_prefix_digits sugLbl s
      ((((("\n\n").toList) ++ obsLbl) ++ ((" ").toList)) ++ (obs ++ ((("\n\n").toList) ++ (sugLbl ++ (joinSugs (sg :: srest))))))
      (by decide) (by decide) hs)]
  rw [scanWith_skip_chunk sugTryHere sugLbl (((("\n\n").toList) ++ obsLbl) ++ ((" ").toList))
      (obs ++ ((("\n\n").toList) ++ (sugLbl ++ (joinSugs (sg :: srest)))))
      sugTryHere_none (no_prefix_lit_nospan sugLbl (((("\n\n").toList) ++ obsLbl) ++ ((" ").toList))
      (obs ++ ((("\n\n").toList) ++ (sugLbl ++ (joinSugs (sg :: srest)))))
      (by decide) (by decide))]
  rw [scanWith_skip_chunk sugTryHere sugLbl obs
      ((("\n\n").toList) ++ (sugLbl ++ (joinSugs (sg :: srest))))
      sugTryHere_none (no_prefix_chunk_headed sugLbl obs
      ((("\n\n").toList) ++ (sugLbl ++ (joinSugs (sg :: srest))))
      hobssub (by decide) rfl)]
  rw [scanWith_skip_chunk sugTryHere sugLbl (("\n\n").toList)
      (sugLbl ++ (joinSugs (sg :: srest)))
      sugTryHere_none (no_prefix_lit_nospan sugLbl (("\n\n").toList)
      (sugLbl ++ (joinSugs (sg :: srest)))
      (by decide) (by decide))]
  exact scanWith_eq_of_tryH_some _ _ _ (sugTryHere_at sg srest hall)

/-- C6: the analysis-response parser is correct field by field.  First
conjunct: on every well-formed labeled block (digit-string scores, a
one-line trimmed observation, one to five trimmed dash-prefixed suggestion
lines), every extracted field equals the value labeled in the block.  Second
conjunct: on any response, each field whose label regex finds no match falls
back to its documented static default, independently of the other fields. -/
theorem parseAnalysisResponse_fields_spec :
    (∀ (a c o d p w s obs : List Char) (sugs : List (List Char)),
      a.all Char.isDigit = true → a ≠ [] →
      c.all Char.isDigit = true → c ≠ [] →
      o.all Char.isDigit = true → o ≠ [] →
      d.all Char.isDigit = true → d ≠ [] →
      p.all Char.isDigit = true → p ≠ [] →
      w.all Char.isDigit = true → w ≠ [] →
      s.all Char.isDigit = true → s ≠ [] →
      obs ≠ [] → trimL obs = obs → obs.all (fun ch => ch != '\n') = true →
      containsSub sugLbl obs = false →
      sugs ≠ [] → sugs.length ≤ 5 →
      (∀ sg ∈ sugs, sg.all (fun ch => ch != '\n') = true) →
      (∀ sg ∈ sugs, trimL sg = sg) →
      parseAnalysisResponse (mkAnalysisBlock a c o d p w s obs sugs) =
        { awkwardnessScore := natOfDigits a
          complexityRating := natOfDigits c
          optimalityScore := natOfDigits o
          nathanObservation := obs
          improvementSuggestions := sugs
          dialogueQuality := natOfDigits d
          preparationLevel := natOfDigits p
          awkwardnessAuthenticity := natOfDigits w
          statisticalCredibility := natOfDigits s }) ∧
    (∀ resp : List Char,
      (scanNum lblAwkScore resp = none →
        (parseAnalysisResponse resp).awkwardnessScore = 73) ∧
      (scanNum lblComplexity resp = none →
        (parseAnalysisResponse resp).complexityRating = 67) ∧
      (scanNum lblOptimality resp = none →
        (parseAnalysisResponse resp).optimalityScore = 81) ∧
      (scanObs resp = none →
        (parseAnalysisResponse resp).nathanObservation = defaultObservation) ∧
      (scanSug resp = none →
        (parseAnalysisResponse resp).improvementSuggestions = defaultSuggestions) ∧
      (scanNum lblDialogue resp = none →
        (parseAnalysisResponse resp).dialogueQuality = 75) ∧
      (scanNum lblPreparation resp = none →
        (parseAnalysisResponse resp).preparationLevel = 68) ∧
      (scanNum lblAwkAuth resp = none →
        (parseAnalysisResponse resp).awkwardnessAuthenticity = 82) ∧
      (scanNum lblStatCred resp = none →
        (parseAnalysisResponse resp).statisticalCredibility = 45)) := by
  constructor
  · intro a c o d p w s obs sugs ha hane hc hcne ho hone hd hdne hp hpne hw hwne
      hs hsne hobsne hobstrim hobsnl hobssub hsugne hsuglen hsugnl hsugtrim
    rcases sugs with _ | ⟨sg, srest⟩
    · exact absurd rfl hsugne
    · have h1 := scan_block_awk a c o d p w s obs (sg :: srest) ha hane
      have h2 := scan_block_complexity a c o d p w s obs (sg :: srest) ha hc hcne
      have h3 := scan_block_optimality a c o d p w s obs (sg :: srest) ha hc ho hone
      have h4 := scan_block_dialogue a c o d p w s obs (sg :: srest) ha hc ho hd hdne
      have h5 := scan_block_preparation a c o d p w s obs (sg :: srest)
        ha hc ho hd hp hpne
      have h6 := scan_block_awkauth a c o d p w s obs (sg :: srest)
        ha hc ho hd hp hw hwne
      have h7 := scan_block_statcred a c o d p w s obs (sg :: srest)
        ha hc ho hd hp hw hs hsne
      have h8 := scan_block_obs a c o d p w s obs (sg :: srest)
        ha hc ho hd hp hw hs hobsne hobstrim hobsnl
      have h9 := scan_block_sug a c o d p w s obs sg srest
        ha hc ho hd hp hw hs hobssub hsugnl
      have hsplit : splitOnNl ('-' :: (' ' :: sg ++ joinSugs srest))
          = (sg :: srest).map (fun t => '-' :: ' ' :: t) := by
        unfold splitOnNl
        exact splitOnNlAux_group sg srest (hsugnl sg (List.mem_cons_self sg srest))
          (fun t ht => hsugnl t (List.mem_cons_of_mem sg ht)) _ (Nat.le_refl _)
      have hpipe := sug_pipeline (sg :: srest) hsugtrim
      have htake : (sg :: srest).take 5 = sg :: srest := List.take_of_length_le hsuglen
      unfold parseAnalysisResponse numField
      rw [h1, h2, h3, h4, h5, h6, h7, h8, h9]
      simp only [hsplit, hpipe, htake, hobstrim]
  · intro resp
    refine ⟨?_, ?_, ?_, ?_, ?_, ?_, ?_, ?_, ?_⟩ <;>
      · intro h
        simp only [parseAnalysisResponse, numField, h]
        all_goals rfl

/-- Witness for C6 at a concrete well-formed block. -/
theorem parseAnalysisResponse_fields_spec_witness :
    parseAnalysisResponse (mkAnalysisBlock (("85").toList) (("72").toList)
        (("90").toList) (("66").toList) (("77").toList) (("81").toList)
        (("45").toList) (("Solid preparation work.").toList)
        [("Add more timing detail").toList, ("Build a replica office").toList]) =
      { awkwardnessScore := 85
        complexityRating := 72
        optimalityScore := 90
        nathanObservation := ("Solid preparation work.").toList
        improvementSuggestions :=
          [("Add more timing detail").toList, ("Build a replica office").toList]
        dialogueQuality := 66
        preparationLevel := 77
        awkwardnessAuthenticity := 81
        statisticalCredibility := 45 } :=
  parseAnalysisResponse_fields_spec.1 _ _ _ _ _ _ _ _ _
    (by decide) (by decide) (by decide) (by decide) (by decide) (by decide)
    (by decide) (by decide) (by decide) (by decide) (by decide) (by decide)
    (by decide) (by decide) (by decide) (by decide) (by decide) (by decide)
    (by decide) (by decide) (by decide) (by decide)
